import Mathlib

/-!
# ZMK keymap engine: a shallow embedding and its verified properties

The definitions below follow `app/src/keymap.c`, `app/src/behavior.c` and
`app/src/studio/keymap_subsystem.c`.  Machine integers are natural numbers or
integers with the reduction of the C type written out (`% 256` for `uint8_t`,
`% 2 ^ 32` for `uint32_t`), C arrays are total functions on indices, C strings
are the list of characters before the terminating NUL together with the
address they are stored at, and every call that leaves the three files
(behaviors, the event manager, the settings store) is a field of `Env` whose
invocation is recorded in the `trace` of the state.  The build modelled has
`CONFIG_ZMK_KEYMAP_SETTINGS_STORAGE` and `CONFIG_ZMK_BEHAVIOR_LOCAL_IDS`
enabled; the other build options are fields of `Config`.  A function with a
`uint8_t`, `uint16_t` or `uint32_t` parameter converts its argument on entry,
as the C call does, so that a theorem about arguments of the parameter's type
carries the bound of the type as a hypothesis.
-/

namespace Zmk

/-! ## Constants of the C library and of the build -/

/-- Value of `EINVAL` in the errno table of the C library. -/
def EINVAL : Int := 22

/-- Value of `ENODEV` in the errno table of the C library. -/
def ENODEV : Int := 19

/-- Value of `ENOTSUP` in the errno table of the C library. -/
def ENOTSUP : Int := 134

/-- Value of `UINT16_MAX`. -/
def UINT16_MAX : Nat := 65535

/-- Value of `ULONG_MAX` on the 32-bit targets the firmware is built for. -/
def ULONG_MAX : Nat := 4294967295

/-- Conversion of an integer argument to a `uint8_t` parameter or variable. -/
def to_uint8_t (n : Nat) : Nat := n % 256

/-- Conversion of an integer argument to a `uint16_t` parameter or variable. -/
def to_uint16_t (n : Nat) : Nat := n % 65536

/-- Conversion of an integer argument to a `uint32_t` parameter or variable. -/
def to_uint32_t (n : Nat) : Nat := n % 4294967296

/-- The macro `BIT(n)`, that is `1UL << n`.  C leaves the shift undefined for
`n ≥ 32`; here it is the natural number `2 ^ n`. -/
def BIT (n : Nat) : Nat := 1 <<< n

/-- The macro `WRITE_BIT(var, bit, set)` on a variable of `width` bits:
`var = set ? (var | BIT(bit)) : (var & ~BIT(bit))`, the result stored back
into the variable; the complement is taken in `unsigned long`. -/
def WRITE_BIT (width : Nat) (var bit : Nat) (set : Bool) : Nat :=
  if set then (var ||| BIT bit) % 2 ^ width
  else (var &&& (ULONG_MAX ^^^ (BIT bit % 2 ^ 32))) % 2 ^ width

/-- The build-time constants the three files are compiled against. -/
structure Config where
  /-- Number of layers `L`, the macro `ZMK_KEYMAP_LAYERS_LEN`. -/
  ZMK_KEYMAP_LAYERS_LEN : Nat
  /-- Number of key positions `K`, the macro `ZMK_KEYMAP_LEN`. -/
  ZMK_KEYMAP_LEN : Nat
  /-- Whether this build is a split central (`ZMK_BLE_IS_CENTRAL`). -/
  ZMK_BLE_IS_CENTRAL : Bool
  /-- Number of split peripherals (`ZMK_SPLIT_BLE_PERIPHERAL_COUNT`). -/
  ZMK_SPLIT_BLE_PERIPHERAL_COUNT : Nat
  /-- Source value of a locally scanned key (`ZMK_POSITION_STATE_CHANGE_SOURCE_LOCAL`). -/
  ZMK_POSITION_STATE_CHANGE_SOURCE_LOCAL : Nat
  /-- Whether parameter metadata is compiled in (`CONFIG_ZMK_BEHAVIOR_METADATA`). -/
  CONFIG_ZMK_BEHAVIOR_METADATA : Bool
  /-- The macro `ZMK_HID_USAGE_PAGE(usage)`. -/
  ZMK_HID_USAGE_PAGE : Nat → Nat
  /-- The macro `ZMK_HID_USAGE_ID(usage)`. -/
  ZMK_HID_USAGE_ID : Nat → Nat
  /-- Usage page of keyboard usages (`HID_USAGE_KEY`). -/
  HID_USAGE_KEY : Nat
  /-- Usage page of consumer usages (`HID_USAGE_CONSUMER`). -/
  HID_USAGE_CONSUMER : Nat
  /-- Largest keyboard usage of the report (`ZMK_HID_KEYBOARD_NKRO_MAX_USAGE`). -/
  ZMK_HID_KEYBOARD_NKRO_MAX_USAGE : Nat
  /-- Whether the basic consumer report is selected
  (`CONFIG_ZMK_HID_CONSUMER_REPORT_USAGES_BASIC`). -/
  CONFIG_ZMK_HID_CONSUMER_REPORT_USAGES_BASIC : Bool

/-! ## Data model -/

/-- A `const char *`: the address held by the pointer and the characters
stored there up to the terminating NUL.  The null pointer has address 0. -/
structure CStr where
  addr : Nat
  chars : List Char
deriving DecidableEq, Repr

/-- The record `struct zmk_behavior_binding`: the value of one keymap cell. -/
structure zmk_behavior_binding where
  behavior_dev : CStr
  param1 : Nat
  param2 : Nat
deriving DecidableEq, Repr

/-- The record `struct zmk_behavior_binding_event`. -/
structure zmk_behavior_binding_event where
  layer : Nat
  position : Nat
  timestamp : Int
deriving DecidableEq, Repr

/-- The part of `struct device` the keymap engine reads: the device name and
the answer of `z_device_is_ready`. -/
structure device where
  name : CStr
  ready : Bool
deriving DecidableEq, Repr

/-- One entry of the linker section `zmk_behavior_local_id_map`. -/
structure zmk_behavior_local_id_map where
  device : device
  local_id : Nat
deriving DecidableEq, Repr

/-- The values of `enum behavior_locality`; `out_of_range` stands for an
integer that is none of the three enumerators. -/
inductive behavior_locality where
  | BEHAVIOR_LOCALITY_CENTRAL
  | BEHAVIOR_LOCALITY_EVENT_SOURCE
  | BEHAVIOR_LOCALITY_GLOBAL
  | out_of_range
deriving DecidableEq, Repr

/-- The values of `enum behavior_parameter_standard_domain`; `out_of_range`
stands for an integer that is none of the four enumerators. -/
inductive behavior_parameter_standard_domain where
  | BEHAVIOR_PARAMETER_STANDARD_DOMAIN_NULL
  | BEHAVIOR_PARAMETER_STANDARD_DOMAIN_HID_USAGE
  | BEHAVIOR_PARAMETER_STANDARD_DOMAIN_LAYER_INDEX
  | BEHAVIOR_PARAMETER_STANDARD_DOMAIN_HSV
  | out_of_range
deriving DecidableEq, Repr

/-- The tag `type` of a `struct behavior_parameter_value_metadata` together
with the member of its union that the tag selects. -/
inductive behavior_parameter_value_metadata_type where
  | BEHAVIOR_PARAMETER_VALUE_METADATA_TYPE_STANDARD
      (standard : behavior_parameter_standard_domain)
  | BEHAVIOR_PARAMETER_VALUE_METADATA_TYPE_VALUE (value : Nat)
  | BEHAVIOR_PARAMETER_VALUE_METADATA_TYPE_RANGE (min max : Nat)
  | out_of_range
deriving DecidableEq, Repr

/-- The record `struct behavior_parameter_value_metadata`. -/
structure behavior_parameter_value_metadata where
  position : Nat
  type : behavior_parameter_value_metadata_type
deriving DecidableEq, Repr

/-- The record `struct behavior_parameter_metadata_custom_set`: `values` with
its length `values_len`. -/
structure behavior_parameter_metadata_custom_set where
  values : List behavior_parameter_value_metadata
deriving DecidableEq, Repr

/-- The record `struct behavior_parameter_metadata_custom`: `sets` with its
length `sets_len`. -/
structure behavior_parameter_metadata_custom where
  sets : List behavior_parameter_metadata_custom_set
deriving DecidableEq, Repr

/-- The record `struct behavior_parameter_metadata`: the tag `type` together
with the member of the union it selects; the custom member is a pointer,
`none` when null. -/
inductive behavior_parameter_metadata where
  | BEHAVIOR_PARAMETER_METADATA_STANDARD (param1 param2 : behavior_parameter_standard_domain)
  | BEHAVIOR_PARAMETER_METADATA_CUSTOM (custom : Option behavior_parameter_metadata_custom)
  | out_of_range
deriving DecidableEq, Repr

/-- A call of the layer interface of `keymap.h`. -/
inductive LayerCall where
  | zmk_keymap_layer_activate (layer : Nat)
  | zmk_keymap_layer_deactivate (layer : Nat)
  | zmk_keymap_layer_toggle (layer : Nat)
  | zmk_keymap_layer_to (layer : Nat)
deriving DecidableEq, Repr

/-- A call that leaves the keymap engine, as recorded in the trace. -/
inductive ExtCall where
  | raise_layer_state_changed (layer : Nat) (state : Bool)
  | behavior_keymap_binding_pressed (binding : zmk_behavior_binding)
      (event : zmk_behavior_binding_event)
  | behavior_keymap_binding_released (binding : zmk_behavior_binding)
      (event : zmk_behavior_binding_event)
  | zmk_split_bt_invoke_behavior (source : Nat) (binding : zmk_behavior_binding)
      (event : zmk_behavior_binding_event) (pressed : Bool)
  | settings_save_one (name : List Char) (value : List Nat)
deriving DecidableEq, Repr

/-- The static variables of `keymap.c`, and the calls made so far. -/
structure KeymapState where
  /-- The bitmask `_zmk_keymap_layer_state`. -/
  _zmk_keymap_layer_state : Nat
  /-- The array `zmk_keymap_active_behavior_layer[ZMK_KEYMAP_LEN]`. -/
  zmk_keymap_active_behavior_layer : Nat → Nat
  /-- The table `zmk_keymap[ZMK_KEYMAP_LAYERS_LEN][ZMK_KEYMAP_LEN]`. -/
  zmk_keymap : Nat → Nat → zmk_behavior_binding
  /-- The bytes `zmk_keymap_layer_pending_changes[ZMK_KEYMAP_LAYERS_LEN][PENDING_ARRAY_SIZE]`. -/
  zmk_keymap_layer_pending_changes : Nat → Nat → Nat
  /-- The calls that left the keymap engine, oldest first. -/
  trace : List ExtCall

/-- The functions the three files call and do not define.  Each one sees the
current state, so that its answer may depend on everything that happened
before; a behavior answers with its return value and the layer calls it makes. -/
structure Env where
  /-- The linker section `zmk_behavior_ref`, in link order. -/
  zmk_behavior_refs : List device
  /-- The linker section `zmk_behavior_local_id_map`, in link order. -/
  zmk_behavior_local_id_maps : List zmk_behavior_local_id_map
  /-- Return value of `raise_layer_state_changed(layer, state)`. -/
  raise_layer_state_changed : KeymapState → Nat → Bool → Int
  /-- Return value of `behavior_keymap_binding_convert_central_state_dependent_params`
  and the binding it leaves behind. -/
  behavior_keymap_binding_convert_central_state_dependent_params :
    KeymapState → zmk_behavior_binding → zmk_behavior_binding_event →
      Int × zmk_behavior_binding
  /-- Return value of `behavior_get_locality` and the locality it leaves in
  the variable, which holds `BEHAVIOR_LOCALITY_CENTRAL` before the call. -/
  behavior_get_locality : KeymapState → device → Int × behavior_locality
  /-- Return value of `behavior_keymap_binding_pressed` and the layer calls
  the behavior makes while it runs. -/
  behavior_keymap_binding_pressed :
    KeymapState → zmk_behavior_binding → zmk_behavior_binding_event → Int × List LayerCall
  /-- Return value of `behavior_keymap_binding_released` and the layer calls
  the behavior makes while it runs. -/
  behavior_keymap_binding_released :
    KeymapState → zmk_behavior_binding → zmk_behavior_binding_event → Int × List LayerCall
  /-- Return value of `zmk_split_bt_invoke_behavior`. -/
  zmk_split_bt_invoke_behavior :
    KeymapState → Nat → zmk_behavior_binding → zmk_behavior_binding_event → Bool → Int
  /-- Return value of `settings_save_one(name, value, len)`. -/
  settings_save_one : KeymapState → List Char → List Nat → Int
  /-- Return value of `behavior_get_parameter_domains` and the metadata it
  stores. -/
  behavior_get_parameter_domains : device → Int × behavior_parameter_metadata

/-! ## Layer state (`keymap.c`, lines 30-157) -/

/-- The static `_zmk_keymap_layer_default`, initialised to 0 and never assigned. -/
def _zmk_keymap_layer_default : Nat := 0

/-- The state the C runtime starts in: `_zmk_keymap_layer_state = 0`, the
zero-initialised press memory and pending bytes, and the keymap table built
from the configuration. -/
def initial_state (keymap : Nat → Nat → zmk_behavior_binding) : KeymapState :=
  { _zmk_keymap_layer_state := 0
    zmk_keymap_active_behavior_layer := fun _ => 0
    zmk_keymap := keymap
    zmk_keymap_layer_pending_changes := fun _ _ => 0
    trace := [] }

/-- The function `set_layer_state` (lines 85-108). -/
def set_layer_state (env : Env) (cfg : Config) (layer : Nat) (state : Bool)
    (s : KeymapState) : Int × KeymapState :=
  let layer := to_uint8_t layer
  if layer ≥ cfg.ZMK_KEYMAP_LAYERS_LEN then (-EINVAL, s)
  else if layer = _zmk_keymap_layer_default ∧ state = false then (0, s)
  else
    let old_state := s._zmk_keymap_layer_state
    let s1 := { s with _zmk_keymap_layer_state := WRITE_BIT 32 old_state layer state }
    if old_state ≠ s1._zmk_keymap_layer_state then
      (env.raise_layer_state_changed s1 layer state,
        { s1 with trace := s1.trace ++ [ExtCall.raise_layer_state_changed layer state] })
    else (0, s1)

/-- The function `zmk_keymap_layer_default` (line 110). -/
def zmk_keymap_layer_default : Nat := _zmk_keymap_layer_default

/-- The function `zmk_keymap_layer_state` (line 112). -/
def zmk_keymap_layer_state (s : KeymapState) : Nat := s._zmk_keymap_layer_state

/-- The function `zmk_keymap_layer_active_with_state` (lines 114-118). -/
def zmk_keymap_layer_active_with_state (layer : Nat) (state_to_test : Nat) : Bool :=
  let layer := to_uint8_t layer
  decide ((state_to_test &&& BIT layer) = BIT layer) || decide (layer = _zmk_keymap_layer_default)

/-- The function `zmk_keymap_layer_active` (lines 120-122). -/
def zmk_keymap_layer_active (layer : Nat) (s : KeymapState) : Bool :=
  zmk_keymap_layer_active_with_state (to_uint8_t layer) s._zmk_keymap_layer_state

/-- The function `zmk_keymap_layer_activate` (line 133). -/
def zmk_keymap_layer_activate (env : Env) (cfg : Config) (layer : Nat) (s : KeymapState) :
    Int × KeymapState :=
  set_layer_state env cfg (to_uint8_t layer) true s

/-- The function `zmk_keymap_layer_deactivate` (line 135). -/
def zmk_keymap_layer_deactivate (env : Env) (cfg : Config) (layer : Nat) (s : KeymapState) :
    Int × KeymapState :=
  set_layer_state env cfg (to_uint8_t layer) false s

/-- The function `zmk_keymap_layer_toggle` (lines 137-143). -/
def zmk_keymap_layer_toggle (env : Env) (cfg : Config) (layer : Nat) (s : KeymapState) :
    Int × KeymapState :=
  let layer := to_uint8_t layer
  if zmk_keymap_layer_active layer s then zmk_keymap_layer_deactivate env cfg layer s
  else zmk_keymap_layer_activate env cfg layer s

/-- The loop of `zmk_keymap_layer_to` (lines 146-148): `n` is `i + 1`, the
layers `n - 1, ..., 0` are still to be deactivated. -/
def zmk_keymap_layer_to_loop (env : Env) (cfg : Config) : Nat → KeymapState → KeymapState
  | 0, s => s
  | i + 1, s => zmk_keymap_layer_to_loop env cfg i (zmk_keymap_layer_deactivate env cfg i s).2

/-- The function `zmk_keymap_layer_to` (lines 145-153). -/
def zmk_keymap_layer_to (env : Env) (cfg : Config) (layer : Nat) (s : KeymapState) :
    Int × KeymapState :=
  let layer := to_uint8_t layer
  let s1 := zmk_keymap_layer_to_loop env cfg cfg.ZMK_KEYMAP_LAYERS_LEN s
  (0, (zmk_keymap_layer_activate env cfg layer s1).2)

/-- Performs one call of the layer interface. -/
def LayerCall.run (env : Env) (cfg : Config) : LayerCall → KeymapState → Int × KeymapState
  | .zmk_keymap_layer_activate l, s => Zmk.zmk_keymap_layer_activate env cfg l s
  | .zmk_keymap_layer_deactivate l, s => Zmk.zmk_keymap_layer_deactivate env cfg l s
  | .zmk_keymap_layer_toggle l, s => Zmk.zmk_keymap_layer_toggle env cfg l s
  | .zmk_keymap_layer_to l, s => Zmk.zmk_keymap_layer_to env cfg l s

/-- Performs a sequence of calls of the layer interface, first call first. -/
def run_layer_calls (env : Env) (cfg : Config) : List LayerCall → KeymapState → KeymapState
  | [], s => s
  | c :: cs, s => run_layer_calls env cfg cs (c.run env cfg s).2

/-! ## Keymap cells and pending changes (`keymap.c`, lines 167-204)

The build modelled is the one with `CONFIG_ZMK_KEYMAP_SETTINGS_STORAGE`
enabled. -/

/-- Assignment `a[i] = v` to a C array. -/
def array_set {α : Type} (a : Nat → α) (i : Nat) (v : α) : Nat → α :=
  fun j => if j = i then v else a j

/-- Assignment `a[i][j] = v` to a two-dimensional C array. -/
def array_set2 {α : Type} (a : Nat → Nat → α) (i j : Nat) (v : α) : Nat → Nat → α :=
  fun i2 j2 => if i2 = i ∧ j2 = j then v else a i2 j2

/-- The function `zmk_keymap_get_layer_binding_at_idx` (lines 167-178); `none`
is the null pointer. -/
def zmk_keymap_get_layer_binding_at_idx (cfg : Config) (layer binding_idx : Nat)
    (s : KeymapState) : Option zmk_behavior_binding :=
  let layer := to_uint8_t layer
  let binding_idx := to_uint8_t binding_idx
  if layer ≥ cfg.ZMK_KEYMAP_LAYERS_LEN then none
  else if binding_idx ≥ cfg.ZMK_KEYMAP_LEN then none
  else some (s.zmk_keymap layer binding_idx)

/-- The test `pending[kp / 8] & BIT(kp % 8)` of line 223 on the pending bytes
of layer `l`. -/
def pending_bit (s : KeymapState) (l kp : Nat) : Bool :=
  decide (s.zmk_keymap_layer_pending_changes l (kp / 8) &&& BIT (kp % 8) ≠ 0)

/-- The function `zmk_keymap_set_layer_binding_at_idx` (lines 188-204). -/
def zmk_keymap_set_layer_binding_at_idx (cfg : Config) (layer binding_idx : Nat)
    (binding : zmk_behavior_binding) (s : KeymapState) : Int × KeymapState :=
  let layer := to_uint8_t layer
  let binding_idx := to_uint8_t binding_idx
  if layer ≥ cfg.ZMK_KEYMAP_LAYERS_LEN ∨ binding_idx ≥ cfg.ZMK_KEYMAP_LEN then (-EINVAL, s)
  else
    let pending := s.zmk_keymap_layer_pending_changes layer
    let s1 : KeymapState :=
      { s with
        zmk_keymap_layer_pending_changes :=
          array_set2 s.zmk_keymap_layer_pending_changes layer (binding_idx / 8)
            (WRITE_BIT 8 (pending (binding_idx / 8)) (binding_idx % 8) true) }
    (0, { s1 with zmk_keymap := array_set2 s1.zmk_keymap layer binding_idx binding })

/-! ## Behavior registry and binding validation (`behavior.c`) -/

/-- The null pointer of type `const char *`. -/
def NULL : CStr := { addr := 0, chars := [] }

/-- The function `z_impl_behavior_get_binding` (lines 32-50): a first pass
compares the name pointers, a second one the characters (`strcmp`); `none` is
the null device pointer. -/
def z_impl_behavior_get_binding (env : Env) (name : CStr) : Option device :=
  if name.addr = 0 ∨ name.chars = [] then none
  else
    match env.zmk_behavior_refs.find? (fun item => item.ready && decide (item.name.addr = name.addr)) with
    | some item => some item
    | none =>
      env.zmk_behavior_refs.find? (fun item => item.ready && decide (item.name.chars = name.chars))

/-- The function `zmk_behavior_get_binding` (lines 28-30). -/
def zmk_behavior_get_binding (env : Env) (name : CStr) : Option device :=
  z_impl_behavior_get_binding env name

/-- The function `zmk_behavior_get_local_id` (lines 54-62). -/
def zmk_behavior_get_local_id (env : Env) (name : CStr) : Nat :=
  match env.zmk_behavior_local_id_maps.find?
      (fun item => item.device.ready && decide (item.device.name.chars = name.chars)) with
  | some item => item.local_id
  | none => UINT16_MAX

/-- The function `zmk_behavior_find_behavior_name_from_local_id` (lines 64-72). -/
def zmk_behavior_find_behavior_name_from_local_id (env : Env) (local_id : Nat) : CStr :=
  let local_id := to_uint16_t local_id
  match env.zmk_behavior_local_id_maps.find?
      (fun item => item.device.ready && decide (item.local_id = local_id)) with
  | some item => item.device.name
  | none => NULL

/-- The function `validate_hid_usage` (lines 168-188). -/
def validate_hid_usage (cfg : Config) (usage_page usage_id : Nat) : Int :=
  let usage_page := to_uint16_t usage_page
  let usage_id := to_uint16_t usage_id
  if usage_page = cfg.HID_USAGE_KEY then
    if usage_id = 0 ∨ usage_id > cfg.ZMK_HID_KEYBOARD_NKRO_MAX_USAGE then -EINVAL else 0
  else if usage_page = cfg.HID_USAGE_CONSUMER then
    if usage_id > (if cfg.CONFIG_ZMK_HID_CONSUMER_REPORT_USAGES_BASIC then 255 else 4095) then
      -EINVAL
    else 0
  else -EINVAL

/-- The function `validate_standard_param` (lines 190-211). -/
def validate_standard_param (cfg : Config)
    (standard_domain : behavior_parameter_standard_domain) (val : Nat) : Int :=
  let val := to_uint32_t val
  match standard_domain with
  | .BEHAVIOR_PARAMETER_STANDARD_DOMAIN_NULL => if val ≠ 0 then -EINVAL else 0
  | .BEHAVIOR_PARAMETER_STANDARD_DOMAIN_HID_USAGE =>
    validate_hid_usage cfg (cfg.ZMK_HID_USAGE_PAGE val) (cfg.ZMK_HID_USAGE_ID val)
  | .BEHAVIOR_PARAMETER_STANDARD_DOMAIN_LAYER_INDEX =>
    if val ≥ cfg.ZMK_KEYMAP_LEN then -EINVAL else 0
  | .BEHAVIOR_PARAMETER_STANDARD_DOMAIN_HSV => 0
  | .out_of_range => 0

/-- The four flags of one pass of the outer loop of `validate_custom_params`. -/
structure custom_set_flags where
  had_param1_metadata : Bool
  had_param2_metadata : Bool
  param1_matched : Bool
  param2_matched : Bool
deriving DecidableEq, Repr

/-- The inner loop of `validate_custom_params` (lines 225-249) over the
values still to be visited. -/
def validate_custom_values (cfg : Config) (param1 param2 : Nat) :
    List behavior_parameter_value_metadata → custom_set_flags → custom_set_flags
  | [], f => f
  | value_meta :: rest, f =>
    if f.param1_matched && f.param2_matched then f
    else
      let param := if value_meta.position = 0 then param1 else param2
      let f1 : custom_set_flags :=
        if value_meta.position = 0 then { f with had_param1_metadata := true }
        else { f with had_param2_metadata := true }
      let hit : Bool :=
        match value_meta.type with
        | .BEHAVIOR_PARAMETER_VALUE_METADATA_TYPE_STANDARD standard =>
          decide (validate_standard_param cfg standard param = 0)
        | .BEHAVIOR_PARAMETER_VALUE_METADATA_TYPE_VALUE value => decide (param = value)
        | .BEHAVIOR_PARAMETER_VALUE_METADATA_TYPE_RANGE min max =>
          decide (param ≥ min ∧ param ≤ max)
        | .out_of_range => false
      let f2 : custom_set_flags :=
        if hit then
          (if value_meta.position = 0 then { f1 with param1_matched := true }
           else { f1 with param2_matched := true })
        else f1
      validate_custom_values cfg param1 param2 rest f2

/-- The outer loop of `validate_custom_params` (lines 219-257) over the sets
still to be visited. -/
def validate_custom_sets (cfg : Config) (param1 param2 : Nat) :
    List behavior_parameter_metadata_custom_set → Int
  | [] => -EINVAL
  | set :: rest =>
    let f := validate_custom_values cfg param1 param2 set.values
      { had_param1_metadata := false, had_param2_metadata := false,
        param1_matched := false, param2_matched := false }
    if (f.param1_matched || (!f.had_param1_metadata && decide (param1 = 0))) &&
        (f.param2_matched || (!f.had_param2_metadata && decide (param2 = 0))) then 0
    else validate_custom_sets cfg param1 param2 rest

/-- The function `validate_custom_params` (lines 213-258). -/
def validate_custom_params (cfg : Config) (custom : Option behavior_parameter_metadata_custom)
    (param1 param2 : Nat) : Int :=
  match custom with
  | none => -ENODEV
  | some c => validate_custom_sets cfg (to_uint32_t param1) (to_uint32_t param2) c.sets

/-- The function `zmk_behavior_validate_binding` (lines 262-294). -/
def zmk_behavior_validate_binding (env : Env) (cfg : Config) (binding : zmk_behavior_binding) :
    Int :=
  if cfg.CONFIG_ZMK_BEHAVIOR_METADATA then
    match zmk_behavior_get_binding env binding.behavior_dev with
    | none => -ENODEV
    | some behavior =>
      let (ret, metadata) := env.behavior_get_parameter_domains behavior
      if ret < 0 then ret
      else
        match metadata with
        | .BEHAVIOR_PARAMETER_METADATA_STANDARD d1 d2 =>
          let ret := validate_standard_param cfg d1 binding.param1
          if ret < 0 then ret else validate_standard_param cfg d2 binding.param2
        | .BEHAVIOR_PARAMETER_METADATA_CUSTOM custom =>
          validate_custom_params cfg custom binding.param1 binding.param2
        | .out_of_range => -ENOTSUP
  else 0

/-! ## The studio handler (`studio/keymap_subsystem.c`, lines 98-137) -/

/-- The message `zmk_keymap_BehaviorBinding`; every field is a `uint32_t`. -/
structure zmk_keymap_BehaviorBinding where
  behavior_id : Nat
  param1 : Nat
  param2 : Nat
deriving DecidableEq, Repr

/-- The message `zmk_keymap_SetLayerBindingRequest`; `layer` and
`key_position` are `uint32_t`. -/
structure zmk_keymap_SetLayerBindingRequest where
  layer : Nat
  key_position : Nat
  binding : zmk_keymap_BehaviorBinding
deriving DecidableEq, Repr

/-- The values of `zmk_keymap_SetLayerBindingResponse`. -/
inductive zmk_keymap_SetLayerBindingResponse where
  | zmk_keymap_SetLayerBindingResponse_SUCCESS
  | zmk_keymap_SetLayerBindingResponse_INVALID_BEHAVIOR
  | zmk_keymap_SetLayerBindingResponse_INVALID_PARAMETERS
  | zmk_keymap_SetLayerBindingResponse_INVALID_LOCATION
deriving DecidableEq, Repr

/-- The responses of the keymap subsystem: `KEYMAP_RESPONSE(set_layer_binding, r)`,
`KEYMAP_RESPONSE(save_changes, b)`, `KEYMAP_RESPONSE(discard_changes, b)` and
`ZMK_RPC_SIMPLE_ERR(GENERIC)`. -/
inductive zmk_Response where
  | set_layer_binding (r : zmk_keymap_SetLayerBindingResponse)
  | save_changes (ok : Bool)
  | discard_changes (ok : Bool)
  | simple_err_GENERIC
deriving DecidableEq, Repr

/-- The handler `set_layer_binding` (lines 98-137). -/
def set_layer_binding (env : Env) (cfg : Config) (set_req : zmk_keymap_SetLayerBindingRequest)
    (s : KeymapState) : zmk_Response × KeymapState :=
  let bid := to_uint16_t set_req.binding.behavior_id
  let behavior_name := zmk_behavior_find_behavior_name_from_local_id env bid
  if behavior_name.addr = 0 then
    (.set_layer_binding .zmk_keymap_SetLayerBindingResponse_INVALID_BEHAVIOR, s)
  else
    let binding : zmk_behavior_binding :=
      { behavior_dev := behavior_name
        param1 := to_uint32_t set_req.binding.param1
        param2 := to_uint32_t set_req.binding.param2 }
    let ret := zmk_behavior_validate_binding env cfg binding
    if ret < 0 then (.set_layer_binding .zmk_keymap_SetLayerBindingResponse_INVALID_PARAMETERS, s)
    else
      let (ret, s1) :=
        zmk_keymap_set_layer_binding_at_idx cfg (to_uint32_t set_req.layer)
          (to_uint32_t set_req.key_position) binding s
      if ret < 0 then
        if ret = -EINVAL then
          (.set_layer_binding .zmk_keymap_SetLayerBindingResponse_INVALID_LOCATION, s1)
        else (.simple_err_GENERIC, s1)
      else (.set_layer_binding .zmk_keymap_SetLayerBindingResponse_SUCCESS, s1)

/-! ## Persistence of bindings (`keymap.c`, lines 206-257 and 440-504) -/

/-- Modelled from the spec: the typedef `zmk_behavior_local_id_t` is declared
in `zmk/behavior.h`, which is not among the sources; the spec gives the local
ID as a 16-bit value (`u16 behavior_local_id`), and `behavior.c` returns
`UINT16_MAX` where no ID is found.  This is `sizeof(zmk_behavior_local_id_t)`. -/
def sizeof_zmk_behavior_local_id_t : Nat := 2

/-- The record `struct zmk_behavior_binding_setting` (lines 212-216). -/
structure zmk_behavior_binding_setting where
  behavior_local_id : Nat
  param1 : Nat
  param2 : Nat
deriving DecidableEq, Repr

/-- The value of `sizeof(struct zmk_behavior_binding_setting)`: the record is
`__packed`, so its members follow each other without padding. -/
def sizeof_zmk_behavior_binding_setting : Nat := sizeof_zmk_behavior_local_id_t + 4 + 4

/-- The `width` bytes of an unsigned integer in memory, least significant
byte first. -/
def le_bytes : Nat → Nat → List Nat
  | 0, _ => []
  | width + 1, n => n % 256 :: le_bytes width (n / 256)

/-- The unsigned integer held by a run of bytes, least significant byte first. -/
def of_le_bytes : List Nat → Nat
  | [] => 0
  | b :: bs => b % 256 + 256 * of_le_bytes bs

/-- The bytes of a `struct zmk_behavior_binding_setting` in memory. -/
def zmk_behavior_binding_setting.bytes (b : zmk_behavior_binding_setting) : List Nat :=
  le_bytes sizeof_zmk_behavior_local_id_t b.behavior_local_id ++ le_bytes 4 b.param1 ++
    le_bytes 4 b.param2

/-- The `struct zmk_behavior_binding_setting` held by its bytes in memory. -/
def zmk_behavior_binding_setting.of_bytes (m : List Nat) : zmk_behavior_binding_setting :=
  { behavior_local_id := of_le_bytes (m.take sizeof_zmk_behavior_local_id_t)
    param1 := of_le_bytes ((m.drop sizeof_zmk_behavior_local_id_t).take 4)
    param2 := of_le_bytes ((m.drop (sizeof_zmk_behavior_local_id_t + 4)).take 4) }

/-- The character of the decimal digit `d`. -/
def digit_char (d : Nat) : Char := Char.ofNat (48 + d)

/-- The conversion `%d` of `sprintf` for a non-negative `int`, with `fuel`
digits at most. -/
def sprintf_d_fuel : Nat → Nat → List Char
  | 0, _ => []
  | fuel + 1, n =>
    if n < 10 then [digit_char n] else sprintf_d_fuel fuel (n / 10) ++ [digit_char (n % 10)]

/-- The conversion `%d` of `sprintf` for a non-negative `int`. -/
def sprintf_d (n : Nat) : List Char := sprintf_d_fuel (n + 1) n

/-- The name `sprintf(setting_name, "keymap/l/%d/%d", l, kp)` of line 245. -/
def setting_name (l kp : Nat) : List Char :=
  "keymap/l/".toList ++ sprintf_d l ++ ['/'] ++ sprintf_d kp

/-- The record lines 227-231 build for a binding. -/
def binding_setting_of (env : Env) (binding : zmk_behavior_binding) :
    zmk_behavior_binding_setting :=
  { behavior_local_id := to_uint16_t (zmk_behavior_get_local_id env binding.behavior_dev)
    param1 := to_uint32_t binding.param1
    param2 := to_uint32_t binding.param2 }

/-- The length lines 235-242 compute for a record. -/
def binding_setting_len (binding_setting : zmk_behavior_binding_setting) : Nat :=
  let len := sizeof_zmk_behavior_binding_setting
  if binding_setting.param2 = 0 then
    let len := len - 4
    if binding_setting.param1 = 0 then len - 4 else len
  else len

/-- The bytes `settings_save_one(setting_name, &binding_setting, len)` of
line 247 hands to the store for a binding. -/
def setting_value (env : Env) (binding : zmk_behavior_binding) : List Nat :=
  (binding_setting_of env binding).bytes.take (binding_setting_len (binding_setting_of env binding))

/-- The body of the inner loop of `zmk_keymap_save_changes` (lines 223-248). -/
def zmk_keymap_save_changes_cell (env : Env) (l : Nat) (s : KeymapState) (kp : Nat) :
    KeymapState :=
  if pending_bit s l kp then
    let binding := s.zmk_keymap l kp
    let call := ExtCall.settings_save_one (setting_name l kp) (setting_value env binding)
    { s with trace := s.trace ++ [call] }
  else s

/-- The body of the outer loop of `zmk_keymap_save_changes` (lines 220-251):
the inner loop over the key positions, then `*pending = 0`. -/
def zmk_keymap_save_changes_layer (env : Env) (cfg : Config) (s : KeymapState) (l : Nat) :
    KeymapState :=
  let s1 := (List.range cfg.ZMK_KEYMAP_LEN).foldl (zmk_keymap_save_changes_cell env l) s
  { s1 with
    zmk_keymap_layer_pending_changes := array_set2 s1.zmk_keymap_layer_pending_changes l 0 0 }

/-- The function `zmk_keymap_save_changes` (lines 218-255). -/
def zmk_keymap_save_changes (env : Env) (cfg : Config) (s : KeymapState) : Int × KeymapState :=
  (0, (List.range cfg.ZMK_KEYMAP_LAYERS_LEN).foldl (zmk_keymap_save_changes_layer env cfg) s)

/-- The function `settings_name_steq` of the settings subsystem: whether
`name` starts with the element `key`, and the rest of the name after the
separator `/`, `none` when there is none. -/
def settings_name_steq : List Char → List Char → Bool × Option (List Char)
  | '/' :: rest, [] => (true, some rest)
  | '=' :: _, [] => (true, none)
  | [], [] => (true, none)
  | _ :: _, [] => (false, none)
  | [], _ :: _ => (false, none)
  | n :: name, k :: key =>
    if k = n ∧ n ≠ '=' then settings_name_steq name key else (false, none)

/-- The function `isspace` of the C library in the C locale. -/
def isspace (c : Char) : Bool :=
  c = ' ' || c = '\t' || c = '\n' || c = Char.ofNat 11 || c = Char.ofNat 12 || c = '\r'

/-- The digits of `strtoul` in base 10: the value read so far and the first
character that is not a digit. -/
def strtoul_digits : List Char → Nat → Nat × List Char
  | [], acc => (acc, [])
  | c :: cs, acc =>
    if c.isDigit then strtoul_digits cs (acc * 10 + (c.toNat - 48)) else (acc, c :: cs)

/-- The optional sign of `strtoul`: whether a minus sign was read, and the
string after the sign. -/
def strtoul_sign : List Char → Bool × List Char
  | '-' :: r => (true, r)
  | '+' :: r => (false, r)
  | s => (false, s)

/-- The call `strtoul(nptr, &endptr, 10)` of the C library: the value returned
and the string `endptr` is left at.  White space and one sign are skipped, a
value above `ULONG_MAX` gives `ULONG_MAX`, a minus sign negates in
`unsigned long`, and without a digit the value is 0 and `endptr` is `nptr`. -/
def strtoul (nptr : List Char) : Nat × List Char :=
  let s := nptr.dropWhile isspace
  let signed := strtoul_sign s
  match signed.2 with
  | [] => (0, nptr)
  | c :: _ =>
    if c.isDigit then
      let r := strtoul_digits signed.2 0
      if r.1 > ULONG_MAX then (ULONG_MAX, r.2)
      else if signed.1 then ((ULONG_MAX + 1 - r.1) % (ULONG_MAX + 1), r.2)
      else (r.1, r.2)
    else (0, nptr)

/-- A `settings_read_cb` with its `cb_arg`: asked for `len` bytes, it answers
with its return value and the bytes it has stored in the buffer. -/
abbrev settings_read_cb := Nat → Int × List Nat

/-- The read callback of a store that holds `value` under the key: it copies
the first `len` bytes of the value and returns their number. -/
def settings_value_read (value : List Nat) : settings_read_cb :=
  fun len => (((value.take len).length : Nat), value.take len)

/-- The bytes of `binding_setting` after `read_cb(cb_arg, &binding_setting, len)`
on the zeroed record of line 478. -/
def binding_setting_memory (len : Nat) (stored : List Nat) : List Nat :=
  (stored.take len ++ List.replicate sizeof_zmk_behavior_binding_setting 0).take
    sizeof_zmk_behavior_binding_setting

/-- The function `keymap_handle_set` (lines 442-502). -/
def keymap_handle_set (env : Env) (cfg : Config) (name : List Char) (len : Nat)
    (read_cb : settings_read_cb) (s : KeymapState) : Int × KeymapState :=
  match settings_name_steq name "l".toList with
  | (true, some next) =>
    let r1 := strtoul next
    let layer := to_uint8_t r1.1
    let endptr := r1.2
    if endptr.head? ≠ some '/' then (-EINVAL, s)
    else
      let r2 := strtoul endptr.tail
      let key_position := to_uint8_t r2.1
      let endptr := r2.2
      if endptr ≠ [] then (-EINVAL, s)
      else if len > sizeof_zmk_behavior_binding_setting then (-EINVAL, s)
      else if layer ≥ cfg.ZMK_KEYMAP_LAYERS_LEN then (-EINVAL, s)
      else if key_position ≥ cfg.ZMK_KEYMAP_LEN then (-EINVAL, s)
      else
        let rd := read_cb len
        let err := rd.1
        if err ≤ 0 then (err, s)
        else
          let binding_setting :=
            zmk_behavior_binding_setting.of_bytes (binding_setting_memory len rd.2)
          let name :=
            zmk_behavior_find_behavior_name_from_local_id env binding_setting.behavior_local_id
          if name.addr = 0 then (-ENODEV, s)
          else
            let cell : zmk_behavior_binding :=
              { behavior_dev := name
                param1 := binding_setting.param1
                param2 := binding_setting.param2 }
            (0, { s with zmk_keymap := array_set2 s.zmk_keymap layer key_position cell })
  | _ => (0, s)

/-! ## Key dispatch (`keymap.c`, lines 267-356) -/

/-- The function `invoke_locally` (lines 267-274): the behavior is called and
the layer calls it makes are carried out. -/
def invoke_locally (env : Env) (cfg : Config) (binding : zmk_behavior_binding)
    (event : zmk_behavior_binding_event) (pressed : Bool) (s : KeymapState) :
    Int × KeymapState :=
  if pressed then
    let r := env.behavior_keymap_binding_pressed s binding event
    let s1 : KeymapState :=
      { s with trace := s.trace ++ [ExtCall.behavior_keymap_binding_pressed binding event] }
    (r.1, run_layer_calls env cfg r.2 s1)
  else
    let r := env.behavior_keymap_binding_released s binding event
    let s1 : KeymapState :=
      { s with trace := s.trace ++ [ExtCall.behavior_keymap_binding_released binding event] }
    (r.1, run_layer_calls env cfg r.2 s1)

/-- One call `zmk_split_bt_invoke_behavior(source, &binding, event, pressed)`. -/
def split_bt_invoke (env : Env) (source : Nat) (binding : zmk_behavior_binding)
    (event : zmk_behavior_binding_event) (pressed : Bool) (s : KeymapState) :
    Int × KeymapState :=
  (env.zmk_split_bt_invoke_behavior s source binding event pressed,
    { s with trace := s.trace ++
        [ExtCall.zmk_split_bt_invoke_behavior source binding event pressed] })

/-- The function `zmk_keymap_apply_position_state` (lines 276-333). -/
def zmk_keymap_apply_position_state (env : Env) (cfg : Config) (source layer position : Nat)
    (pressed : Bool) (timestamp : Int) (s : KeymapState) : Int × KeymapState :=
  let source := to_uint8_t source
  let position := to_uint32_t position
  let binding := s.zmk_keymap layer position
  let event : zmk_behavior_binding_event :=
    { layer := layer, position := position, timestamp := timestamp }
  match zmk_behavior_get_binding env binding.behavior_dev with
  | none => (1, s)
  | some behavior =>
    let conv := env.behavior_keymap_binding_convert_central_state_dependent_params s binding event
    let binding := conv.2
    if conv.1 ≠ 0 then (conv.1, s)
    else
      let loc := env.behavior_get_locality s behavior
      if loc.1 ≠ 0 then (loc.1, s)
      else
        match loc.2 with
        | .BEHAVIOR_LOCALITY_CENTRAL => invoke_locally env cfg binding event pressed s
        | .BEHAVIOR_LOCALITY_EVENT_SOURCE =>
          if cfg.ZMK_BLE_IS_CENTRAL then
            if source = cfg.ZMK_POSITION_STATE_CHANGE_SOURCE_LOCAL then
              invoke_locally env cfg binding event pressed s
            else split_bt_invoke env source binding event pressed s
          else invoke_locally env cfg binding event pressed s
        | .BEHAVIOR_LOCALITY_GLOBAL =>
          let s1 :=
            if cfg.ZMK_BLE_IS_CENTRAL then
              (List.range cfg.ZMK_SPLIT_BLE_PERIPHERAL_COUNT).foldl
                (fun st i => (split_bt_invoke env i binding event pressed st).2) s
            else s
          invoke_locally env cfg binding event pressed s1
        | .out_of_range => (-ENOTSUP, s)

/-- The loop of `zmk_keymap_position_state_changed` (lines 340-353): the first
argument is `layer + 1`, so that 0 stands for `layer = -1`. -/
def zmk_keymap_position_state_changed_loop (env : Env) (cfg : Config) (source position : Nat)
    (pressed : Bool) (timestamp : Int) : Nat → KeymapState → Int × KeymapState
  | 0, s => (-ENOTSUP, s)
  | layer + 1, s =>
    if layer < _zmk_keymap_layer_default then (-ENOTSUP, s)
    else if zmk_keymap_layer_active_with_state layer
        (s.zmk_keymap_active_behavior_layer position) then
      let r := zmk_keymap_apply_position_state env cfg source layer position pressed timestamp s
      if r.1 > 0 then
        zmk_keymap_position_state_changed_loop env cfg source position pressed timestamp layer r.2
      else if r.1 < 0 then r
      else r
    else zmk_keymap_position_state_changed_loop env cfg source position pressed timestamp layer s

/-- The function `zmk_keymap_position_state_changed` (lines 335-356).  The
array `zmk_keymap_active_behavior_layer` has `ZMK_KEYMAP_LEN` elements and the
function indexes it without a check: `none` stands for the access outside the
array, which C leaves undefined. -/
def zmk_keymap_position_state_changed (env : Env) (cfg : Config) (source position : Nat)
    (pressed : Bool) (timestamp : Int) (s : KeymapState) : Option (Int × KeymapState) :=
  let source := to_uint8_t source
  let position := to_uint32_t position
  if position ≥ cfg.ZMK_KEYMAP_LEN ∧ (pressed = true ∨ 0 < cfg.ZMK_KEYMAP_LAYERS_LEN) then none
  else
    let s1 : KeymapState :=
      if pressed then
        { s with
          zmk_keymap_active_behavior_layer :=
            array_set s.zmk_keymap_active_behavior_layer position s._zmk_keymap_layer_state }
      else s
    some (zmk_keymap_position_state_changed_loop env cfg source position pressed timestamp
      cfg.ZMK_KEYMAP_LAYERS_LEN s1)

/-- A call of the keymap engine: a layer call or a key position event. -/
inductive KeymapCall where
  | layer (c : LayerCall)
  | position_state_changed (source position : Nat) (pressed : Bool) (timestamp : Int)
deriving DecidableEq, Repr

/-- Performs one call of the keymap engine; `none` when the call leaves the
defined behaviour of C. -/
def KeymapCall.run (env : Env) (cfg : Config) : KeymapCall → KeymapState → Option KeymapState
  | .layer c, s => some (c.run env cfg s).2
  | .position_state_changed source position pressed timestamp, s =>
    (zmk_keymap_position_state_changed env cfg source position pressed timestamp s).map
      (fun r => r.2)

/-- Performs a sequence of calls of the keymap engine, first call first. -/
def run_keymap_calls (env : Env) (cfg : Config) : List KeymapCall → KeymapState →
    Option KeymapState
  | [], s => some s
  | c :: cs, s =>
    match c.run env cfg s with
    | none => none
    | some s1 => run_keymap_calls env cfg cs s1

/-- Whether a call is a layer call or an event on a key position of the
keymap other than `p`. -/
def KeymapCall.leaves_position (cfg : Config) (p : Nat) : KeymapCall → Bool
  | .layer _ => true
  | .position_state_changed _ position _ _ =>
    decide (to_uint32_t position < cfg.ZMK_KEYMAP_LEN) && !decide (to_uint32_t position = p)

/-- The candidate layers of the dispatch for a press-memory snapshot, as the
specification words them: the layers from `L - 1` down to the default whose
bit is set in the snapshot, and the default layer, highest first. -/
def candidate_layers (cfg : Config) (snapshot : Nat) : List Nat :=
  (List.range cfg.ZMK_KEYMAP_LAYERS_LEN).reverse.filter
    (fun layer => decide (_zmk_keymap_layer_default ≤ layer) &&
      (snapshot.testBit layer || decide (layer = _zmk_keymap_layer_default)))

/-- The cascade of the dispatch, as the specification words it: the event is
offered to the candidates in order; a positive result passes it on to the
next candidate, the first result that is zero or negative ends the cascade
and is returned, and without such a result the event is unhandled. -/
def cascade (env : Env) (cfg : Config) (source position : Nat) (pressed : Bool)
    (timestamp : Int) : List Nat → KeymapState → Int × KeymapState
  | [], s => (-ENOTSUP, s)
  | layer :: lower, s =>
    let r := zmk_keymap_apply_position_state env cfg source layer position pressed timestamp s
    if r.1 > 0 then cascade env cfg source position pressed timestamp lower r.2 else r

/-- Two states hold the same press memory, keymap table and pending bytes. -/
def same_tables (s t : KeymapState) : Prop :=
  t.zmk_keymap_active_behavior_layer = s.zmk_keymap_active_behavior_layer ∧
    t.zmk_keymap = s.zmk_keymap ∧
    t.zmk_keymap_layer_pending_changes = s.zmk_keymap_layer_pending_changes

/-- The name under which the settings subsystem hands the record of cell
`(l, kp)` to the handler registered for `"keymap"`: the name of
`setting_name` without the leading `keymap/`. -/
def handler_name (l kp : Nat) : List Char :=
  "l/".toList ++ sprintf_d l ++ ['/'] ++ sprintf_d kp

/-- The call `settings_save_one` that saves cell `(l, kp)` of a state. -/
def save_call (env : Env) (s : KeymapState) (l kp : Nat) : ExtCall :=
  ExtCall.settings_save_one (setting_name l kp) (setting_value env (s.zmk_keymap l kp))

/-- The calls `settings_save_one` for the pending cells of layer `l` among
the key positions `kps`, in order. -/
def layer_save_calls (env : Env) (s : KeymapState) (l : Nat) (kps : List Nat) : List ExtCall :=
  (kps.filter (fun kp => pending_bit s l kp)).map (save_call env s l)

/-- The calls `settings_save_one` for the pending cells of the layers `ls`
among the key positions `kps`, in order. -/
def save_calls (env : Env) (s : KeymapState) (kps : List Nat) : List Nat → List ExtCall
  | [] => []
  | l :: ls => layer_save_calls env s l kps ++ save_calls env s kps ls

/-- An environment in which every outside call returns 0, no behavior is
registered and no behavior makes a layer call. -/
def quiet_env : Env :=
  { zmk_behavior_refs := []
    zmk_behavior_local_id_maps := []
    raise_layer_state_changed := fun _ _ _ => 0
    behavior_keymap_binding_convert_central_state_dependent_params := fun _ b _ => (0, b)
    behavior_get_locality := fun _ _ => (0, behavior_locality.BEHAVIOR_LOCALITY_CENTRAL)
    behavior_keymap_binding_pressed := fun _ _ _ => (0, [])
    behavior_keymap_binding_released := fun _ _ _ => (0, [])
    zmk_split_bt_invoke_behavior := fun _ _ _ _ _ => 0
    settings_save_one := fun _ _ _ => 0
    behavior_get_parameter_domains := fun _ =>
      (0, behavior_parameter_metadata.BEHAVIOR_PARAMETER_METADATA_STANDARD
        behavior_parameter_standard_domain.BEHAVIOR_PARAMETER_STANDARD_DOMAIN_HSV
        behavior_parameter_standard_domain.BEHAVIOR_PARAMETER_STANDARD_DOMAIN_HSV) }

/-- A build with `L` layers and `K` key positions, not split, without
parameter metadata. -/
def plain_config (L K : Nat) : Config :=
  { ZMK_KEYMAP_LAYERS_LEN := L
    ZMK_KEYMAP_LEN := K
    ZMK_BLE_IS_CENTRAL := false
    ZMK_SPLIT_BLE_PERIPHERAL_COUNT := 0
    ZMK_POSITION_STATE_CHANGE_SOURCE_LOCAL := 255
    CONFIG_ZMK_BEHAVIOR_METADATA := false
    ZMK_HID_USAGE_PAGE := fun usage => (usage >>> 16) &&& 255
    ZMK_HID_USAGE_ID := fun usage => usage &&& 65535
    HID_USAGE_KEY := 7
    HID_USAGE_CONSUMER := 12
    ZMK_HID_KEYBOARD_NKRO_MAX_USAGE := 231
    CONFIG_ZMK_HID_CONSUMER_REPORT_USAGES_BASIC := false }

/-- A keymap table whose cells all hold the null binding. -/
def empty_keymap : Nat → Nat → zmk_behavior_binding :=
  fun _ _ => { behavior_dev := { addr := 0, chars := [] }, param1 := 0, param2 := 0 }

/-- A ready behavior device named `A`. -/
def device_A : device := { name := { addr := 64, chars := ['A'] }, ready := true }

/-- A ready behavior device named `B`. -/
def device_B : device := { name := { addr := 80, chars := ['B'] }, ready := true }

/-- An environment with the two behaviors `A` (local ID 1) and `B` (local
ID 2), both central, in which every outside call returns 0. -/
def two_behavior_env : Env :=
  { quiet_env with
    zmk_behavior_refs := [device_A, device_B]
    zmk_behavior_local_id_maps :=
      [{ device := device_A, local_id := 1 }, { device := device_B, local_id := 2 }] }

/-- A keymap of two layers where position 2 binds `A` on layer 1 and `B` on
layer 0, and every other cell holds the null binding. -/
def two_layer_keymap : Nat → Nat → zmk_behavior_binding :=
  fun layer position =>
    if layer = 1 ∧ position = 2 then
      { behavior_dev := device_A.name, param1 := 0, param2 := 0 }
    else if layer = 0 ∧ position = 2 then
      { behavior_dev := device_B.name, param1 := 0, param2 := 0 }
    else { behavior_dev := NULL, param1 := 0, param2 := 0 }

/-- The state of the persistence scenario: cell `(1, 3)` of the two-layer
keymap edited to behavior `A` with `param1 = 0x2A` and `param2 = 0`. -/
def edited_state : KeymapState :=
  (zmk_keymap_set_layer_binding_at_idx (plain_config 2 4) 1 3
    { behavior_dev := device_A.name, param1 := 42, param2 := 0 }
    (initial_state two_layer_keymap)).2

/-- A build with `L` layers and `K` key positions, not split, with parameter
metadata compiled in. -/
def metadata_config (L K : Nat) : Config :=
  { plain_config L K with CONFIG_ZMK_BEHAVIOR_METADATA := true }

/-! ## Definitions for the layer names, the save handler and the custom metadata -/

/-- The function `zmk_keymap_layer_name` (lines 159-165); the table
`zmk_keymap_layer_names` the source builds from the configuration is a
parameter, and the null pointer is `NULL`. -/
def zmk_keymap_layer_name (cfg : Config) (zmk_keymap_layer_names : Nat → CStr) (layer : Nat) :
    CStr :=
  let layer := to_uint8_t layer
  if layer ≥ cfg.ZMK_KEYMAP_LAYERS_LEN then NULL else zmk_keymap_layer_names layer

/-- The handler `save_changes` (`studio/keymap_subsystem.c`, lines 139-146). -/
def save_changes (env : Env) (cfg : Config) (s : KeymapState) : zmk_Response × KeymapState :=
  let r := zmk_keymap_save_changes env cfg s
  if r.1 < 0 then (zmk_Response.simple_err_GENERIC, r.2)
  else (zmk_Response.save_changes true, r.2)

/-- Whether an entry of the custom metadata matches a parameter value, as the
specification words it: a literal value equal to the parameter, an inclusive
range that holds it, or a standard domain whose validator accepts it. -/
def entry_matches (cfg : Config) (entry : behavior_parameter_value_metadata) (param : Nat) :
    Bool :=
  match entry.type with
  | .BEHAVIOR_PARAMETER_VALUE_METADATA_TYPE_STANDARD standard =>
    decide (validate_standard_param cfg standard param = 0)
  | .BEHAVIOR_PARAMETER_VALUE_METADATA_TYPE_VALUE value => decide (param = value)
  | .BEHAVIOR_PARAMETER_VALUE_METADATA_TYPE_RANGE min max => decide (min ≤ param ∧ param ≤ max)
  | .out_of_range => false

/-- Whether a set accepts a parameter at a position, as the specification
words it: an entry of that position matches the parameter, or the set has no
entry of that position and the parameter is 0. -/
def set_accepts_at (cfg : Config) (set : behavior_parameter_metadata_custom_set)
    (position param : Nat) : Bool :=
  set.values.any (fun entry => decide (entry.position = position) && entry_matches cfg entry param)
    || (!set.values.any (fun entry => decide (entry.position = position)) && decide (param = 0))

/-- Whether the custom metadata accepts a pair of parameters, as the
specification words it: some set accepts `param1` at position 0 and `param2`
at position 1. -/
def custom_accepts (cfg : Config) (custom : behavior_parameter_metadata_custom)
    (param1 param2 : Nat) : Bool :=
  custom.sets.any (fun set => set_accepts_at cfg set 0 param1 && set_accepts_at cfg set 1 param2)

/-- The inner loop of `validate_custom_params` without the exit
`(!param1_matched || !param2_matched)` from its condition: every entry of the
set is visited. -/
def validate_custom_values_all (cfg : Config) (param1 param2 : Nat) :
    List behavior_parameter_value_metadata → custom_set_flags → custom_set_flags
  | [], f => f
  | value_meta :: rest, f =>
    let param := if value_meta.position = 0 then param1 else param2
    let f1 : custom_set_flags :=
      if value_meta.position = 0 then { f with had_param1_metadata := true }
      else { f with had_param2_metadata := true }
    let hit : Bool :=
      match value_meta.type with
      | .BEHAVIOR_PARAMETER_VALUE_METADATA_TYPE_STANDARD standard =>
        decide (validate_standard_param cfg standard param = 0)
      | .BEHAVIOR_PARAMETER_VALUE_METADATA_TYPE_VALUE value => decide (param = value)
      | .BEHAVIOR_PARAMETER_VALUE_METADATA_TYPE_RANGE min max =>
        decide (param ≥ min ∧ param ≤ max)
      | .out_of_range => false
    let f2 : custom_set_flags :=
      if hit then
        (if value_meta.position = 0 then { f1 with param1_matched := true }
         else { f1 with param2_matched := true })
      else f1
    validate_custom_values_all cfg param1 param2 rest f2

/-- The test of lines 251-252 on the flags a pass of the inner loop leaves. -/
def custom_set_flags.accepted (f : custom_set_flags) (param1 param2 : Nat) : Bool :=
  (f.param1_matched || (!f.had_param1_metadata && decide (param1 = 0))) &&
    (f.param2_matched || (!f.had_param2_metadata && decide (param2 = 0)))

/-- The flags at the start of a pass of the outer loop of
`validate_custom_params` (lines 222-223). -/
def custom_set_flags.start : custom_set_flags :=
  { had_param1_metadata := false, had_param2_metadata := false,
    param1_matched := false, param2_matched := false }

/-- The flags after one pass of the body of the inner loop of
`validate_custom_params` (lines 226-248) for the entry `value_meta`. -/
def custom_set_flags.visit (cfg : Config) (param1 param2 : Nat) (f : custom_set_flags)
    (value_meta : behavior_parameter_value_metadata) : custom_set_flags :=
  if value_meta.position = 0 then
    { had_param1_metadata := true
      had_param2_metadata := f.had_param2_metadata
      param1_matched := f.param1_matched || entry_matches cfg value_meta param1
      param2_matched := f.param2_matched }
  else
    { had_param1_metadata := f.had_param1_metadata
      had_param2_metadata := true
      param1_matched := f.param1_matched
      param2_matched := f.param2_matched || entry_matches cfg value_meta param2 }

/-- The acceptance of a set as the specification words it, computed from the
flags held before the entries `values` are visited. -/
def accepted_with (cfg : Config) (param1 param2 : Nat)
    (values : List behavior_parameter_value_metadata) (f : custom_set_flags) : Bool :=
  ((f.param1_matched ||
      values.any (fun entry => decide (entry.position = 0) && entry_matches cfg entry param1)) ||
    (!(f.had_param1_metadata || values.any (fun entry => decide (entry.position = 0))) &&
      decide (param1 = 0))) &&
  ((f.param2_matched ||
      values.any (fun entry => decide (entry.position = 1) && entry_matches cfg entry param2)) ||
    (!(f.had_param2_metadata || values.any (fun entry => decide (entry.position = 1))) &&
      decide (param2 = 0)))

/-- A custom metadata with one set: position 0 takes the literal value 5,
position 1 a value from 1 to 3. -/
def example_custom : behavior_parameter_metadata_custom :=
  { sets :=
      [{ values :=
          [{ position := 0
             type := behavior_parameter_value_metadata_type.BEHAVIOR_PARAMETER_VALUE_METADATA_TYPE_VALUE
               5 },
           { position := 1
             type := behavior_parameter_value_metadata_type.BEHAVIOR_PARAMETER_VALUE_METADATA_TYPE_RANGE
               1 3 }] }] }

/-- A custom metadata with one set whose only entry, the literal value 5,
has position 2. -/
def position_2_custom : behavior_parameter_metadata_custom :=
  { sets :=
      [{ values :=
          [{ position := 2
             type := behavior_parameter_value_metadata_type.BEHAVIOR_PARAMETER_VALUE_METADATA_TYPE_VALUE
               5 }] }] }

/-- An environment like `two_behavior_env` whose store fails: every
`settings_save_one` returns `-EIO`, that is -5. -/
def failing_store_env : Env :=
  { two_behavior_env with settings_save_one := fun _ _ _ => -5 }

/-- The state of the pending scenario: in a build of one layer and nine keys,
cell `(0, 8)` of the two-layer keymap edited to behavior `A` with
`param1 = 4` and `param2 = 0`. -/
def edited_state_9 : KeymapState :=
  (zmk_keymap_set_layer_binding_at_idx (plain_config 1 9) 0 8
    { behavior_dev := device_A.name, param1 := 4, param2 := 0 }
    (initial_state two_layer_keymap)).2

/-! ## Definitions for the cascade of the key dispatch -/

/-- The layers on which the loop of `zmk_keymap_position_state_changed` (lines
340-353) calls `zmk_keymap_apply_position_state`, in the order of the calls:
the loop of `zmk_keymap_position_state_changed_loop`, with each call recorded.
The first argument is `layer + 1`. -/
def zmk_keymap_position_state_changed_loop_visits (env : Env) (cfg : Config)
    (source position : Nat) (pressed : Bool) (timestamp : Int) : Nat → KeymapState → List Nat
  | 0, _ => []
  | layer + 1, s =>
    if layer < _zmk_keymap_layer_default then []
    else if zmk_keymap_layer_active_with_state layer
        (s.zmk_keymap_active_behavior_layer position) then
      let r := zmk_keymap_apply_position_state env cfg source layer position pressed timestamp s
      if r.1 > 0 then
        layer :: zmk_keymap_position_state_changed_loop_visits env cfg source position pressed
          timestamp layer r.2
      else [layer]
    else
      zmk_keymap_position_state_changed_loop_visits env cfg source position pressed timestamp
        layer s

/-- The layers on which one call of `zmk_keymap_position_state_changed` (lines
335-356) with a key position inside the keymap calls
`zmk_keymap_apply_position_state`, in the order of the calls. -/
def zmk_keymap_position_state_changed_visits (env : Env) (cfg : Config) (source position : Nat)
    (pressed : Bool) (timestamp : Int) (s : KeymapState) : List Nat :=
  let source := to_uint8_t source
  let position := to_uint32_t position
  let s1 : KeymapState :=
    if pressed then
      { s with
        zmk_keymap_active_behavior_layer :=
          array_set s.zmk_keymap_active_behavior_layer position s._zmk_keymap_layer_state }
    else s
  zmk_keymap_position_state_changed_loop_visits env cfg source position pressed timestamp
    cfg.ZMK_KEYMAP_LAYERS_LEN s1

/-- Whether a recorded call is the event `zmk_layer_state_changed` raised by
`set_layer_state`. -/
def ExtCall.is_layer_state_changed : ExtCall → Bool
  | .raise_layer_state_changed _ _ => true
  | _ => false

/-- An environment like `two_behavior_env` in which the conversion of the
central-state-dependent parameters returns `err` for a binding on layer 1 and
0 elsewhere. -/
def conversion_result_env (err : Int) : Env :=
  { two_behavior_env with
    behavior_keymap_binding_convert_central_state_dependent_params :=
      fun _ binding event => (if event.layer = 1 then err else 0, binding) }

/-- The initial state of the two-layer keymap after layer 1 was activated. -/
def layer_1_active_state : KeymapState :=
  (zmk_keymap_layer_activate two_behavior_env (plain_config 2 4) 1
    (initial_state two_layer_keymap)).2

/-- A split central with `L` layers, `K` key positions and `count`
peripherals; events of the central itself carry the source 255. -/
def central_config (L K count : Nat) : Config :=
  { plain_config L K with
    ZMK_BLE_IS_CENTRAL := true
    ZMK_SPLIT_BLE_PERIPHERAL_COUNT := count }

/-- An environment like `two_behavior_env` in which every behavior has the
locality `locality`. -/
def locality_env (locality : behavior_locality) : Env :=
  { two_behavior_env with behavior_get_locality := fun _ _ => (0, locality) }

/-! ## Assignment of the local IDs (`behavior.c`, lines 74-159) -/

/-- The bytes of a C string of ASCII characters, without the closing NUL. -/
def string_bytes (chars : List Char) : List Nat := chars.map Char.toNat

/-- One step of the inner loop of `crc16_reflect` of Zephyr
(`zephyr/sys/crc.h`): the register is shifted right by one bit, and `poly` is
added when the bit shifted out is set. -/
def crc16_reflect_bit (poly crc : Nat) : Nat :=
  if crc &&& 1 = 1 then (crc >>> 1) ^^^ poly else crc >>> 1

/-- The body of the outer loop of `crc16_reflect` of Zephyr: the byte is
added to the register, which then takes eight steps. -/
def crc16_reflect_byte (poly crc byte : Nat) : Nat :=
  crc16_reflect_bit poly (crc16_reflect_bit poly (crc16_reflect_bit poly
    (crc16_reflect_bit poly (crc16_reflect_bit poly (crc16_reflect_bit poly
      (crc16_reflect_bit poly (crc16_reflect_bit poly (to_uint16_t (crc ^^^ byte)))))))))

/-- The function `crc16_reflect` of Zephyr, over the bytes of `src`. -/
def crc16_reflect (poly seed : Nat) (src : List Nat) : Nat :=
  src.foldl (crc16_reflect_byte poly) (to_uint16_t seed)

/-- The function `crc16_ansi` of Zephyr: `crc16_reflect` with the polynomial
`0xA001` and the seed `0xffff`. -/
def crc16_ansi (src : List Nat) : Nat := crc16_reflect 40961 65535 src

/-- The function `behavior_local_id_init` of the build with
`CONFIG_ZMK_BEHAVIOR_LOCAL_ID_TYPE_CRC16` (lines 76-82), on the items of the
section `zmk_behavior_local_id_map` in table order; `crc` stands for the
function `crc16_ansi`, applied to the `strlen` bytes of the name. -/
def behavior_local_id_init_CRC16 (crc : List Nat → Nat)
    (maps : List zmk_behavior_local_id_map) : List zmk_behavior_local_id_map :=
  maps.map (fun item =>
    { item with local_id := to_uint16_t (crc (string_bytes item.device.name.chars)) })

/-- The statics of `behavior.c` in the build with
`CONFIG_ZMK_BEHAVIOR_LOCAL_ID_TYPE_SETTINGS_TABLE`: the items of the section
`zmk_behavior_local_id_map` in table order, the counter `largest_local_id`
(line 86), and the calls of `settings_save_one` made so far. -/
structure LocalIdState where
  zmk_behavior_local_id_maps : List zmk_behavior_local_id_map
  largest_local_id : Nat
  trace : List ExtCall
deriving DecidableEq, Repr

/-- Whether `strcmp(name, item_name) == 0` for the buffer `name` of
`behavior_handle_set`, whose string ends at its first NUL byte. -/
def strcmp_eq (name : List Nat) (item_name : List Char) : Bool :=
  decide (name.takeWhile (fun b => decide (b ≠ 0)) = string_bytes item_name)

/-- The loop of `behavior_handle_set` over the section (lines 116-122): the
first item whose name equals `name` receives `local_id`; `none` when the loop
ends without such an item. -/
def behavior_handle_set_loop (name : List Nat) (local_id : Nat) :
    List zmk_behavior_local_id_map → Option (List zmk_behavior_local_id_map)
  | [] => none
  | item :: rest =>
    if strcmp_eq name item.device.name.chars then
      some ({ item with local_id := local_id } :: rest)
    else (behavior_handle_set_loop name local_id rest).map (fun r => item :: r)

/-- The function `behavior_handle_set` (lines 88-127).  The buffer `name` holds
the bytes the callback stored, followed by the NUL of line 115. -/
def behavior_handle_set (name : List Char) (len : Nat) (read_cb : settings_read_cb)
    (st : LocalIdState) : Int × LocalIdState :=
  match settings_name_steq name "local_id".toList with
  | (true, some next) =>
    let r := strtoul next
    let local_id := to_uint8_t r.1
    let endptr := r.2
    if endptr ≠ [] then (-EINVAL, st)
    else if len ≥ 64 then (-EINVAL, st)
    else
      let rd := read_cb len
      let err := rd.1
      if err ≤ 0 then (err, st)
      else
        let name := rd.2.take len
        match behavior_handle_set_loop name local_id st.zmk_behavior_local_id_maps with
        | some maps =>
          (0, { st with
                zmk_behavior_local_id_maps := maps
                largest_local_id := max st.largest_local_id local_id })
        | none => (-EINVAL, st)
  | _ => (0, st)

/-- The name `sprintf(setting_name, "behavior/local_id/%d", item->local_id)` of
line 141. -/
def local_id_setting_name (local_id : Nat) : List Char :=
  "behavior/local_id/".toList ++ sprintf_d local_id

/-- The loop of `behavior_handle_commit` (lines 131-143) from an item of the
section on: the rest of the section, the counter `largest_local_id` and the
calls made so far go in, and come out as the loop leaves them. -/
def behavior_handle_commit_loop :
    List zmk_behavior_local_id_map → Nat → List ExtCall →
      List zmk_behavior_local_id_map × Nat × List ExtCall
  | [], largest_local_id, trace => ([], largest_local_id, trace)
  | item :: rest, largest_local_id, trace =>
    if item.local_id ≠ 0 then
      let r := behavior_handle_commit_loop rest largest_local_id trace
      (item :: r.1, r.2)
    else
      let largest_local_id := to_uint16_t (largest_local_id + 1)
      let item1 : zmk_behavior_local_id_map := { item with local_id := largest_local_id }
      let call := ExtCall.settings_save_one (local_id_setting_name item1.local_id)
        (string_bytes item1.device.name.chars)
      let r := behavior_handle_commit_loop rest largest_local_id (trace ++ [call])
      (item1 :: r.1, r.2)

/-- The function `behavior_handle_commit` (lines 129-146). -/
def behavior_handle_commit (st : LocalIdState) : Int × LocalIdState :=
  let r := behavior_handle_commit_loop st.zmk_behavior_local_id_maps st.largest_local_id st.trace
  (0, { zmk_behavior_local_id_maps := r.1, largest_local_id := r.2.1, trace := r.2.2 })

/-- The statics of `behavior.c` before `behavior_local_id_init` runs: the
section holds the behaviors with the `local_id` members zero, and
`largest_local_id` is 0 (line 86). -/
def local_id_boot_state (devices : List device) : LocalIdState :=
  { zmk_behavior_local_id_maps := devices.map (fun d => { device := d, local_id := 0 })
    largest_local_id := 0
    trace := [] }

/-- The calls `settings_load_subtree("behavior")` makes to
`behavior_handle_set` for the stored entries, in order: each entry is the
name below `behavior/` and the stored value. -/
def behavior_load_entries (entries : List (List Char × List Nat)) (st : LocalIdState) :
    LocalIdState :=
  entries.foldl
    (fun st entry =>
      (behavior_handle_set entry.1 entry.2.length (settings_value_read entry.2) st).2) st

/-- The function `behavior_local_id_init` of the build with
`CONFIG_ZMK_BEHAVIOR_LOCAL_ID_TYPE_SETTINGS_TABLE` (lines 151-155):
`settings_load_subtree("behavior")` hands the stored entries to
`behavior_handle_set` and then calls `behavior_handle_commit`. -/
def behavior_local_id_init_SETTINGS_TABLE (entries : List (List Char × List Nat))
    (st : LocalIdState) : Int × LocalIdState :=
  (0, (behavior_handle_commit (behavior_load_entries entries st)).2)

/-- An environment whose section `zmk_behavior_local_id_map` holds `maps` and
in which every outside call returns 0. -/
def local_id_env (maps : List zmk_behavior_local_id_map) : Env :=
  { quiet_env with zmk_behavior_local_id_maps := maps }

/-- A ready behavior device with the name `chars`, placed at `addr`. -/
def named_device (addr : Nat) (chars : List Char) : device :=
  { name := { addr := addr, chars := chars }, ready := true }

/-- The section of two ready behaviors named `n1` and `n2`, in this order,
after `behavior_local_id_init` of the CRC16 build with the function `crc`. -/
def two_name_maps (crc : List Nat → Nat) (n1 n2 : List Char) :
    List zmk_behavior_local_id_map :=
  behavior_local_id_init_CRC16 crc
    [{ device := named_device 64 n1, local_id := 0 },
      { device := named_device 80 n2, local_id := 0 }]

/-- The name under which the settings subsystem hands the entry
`behavior/local_id/<id>` to the handler registered for `"behavior"`: the name
of `local_id_setting_name` without the leading `behavior/`. -/
def local_id_handler_name (local_id : Nat) : List Char :=
  "local_id/".toList ++ sprintf_d local_id

/-! ## Selection of the physical layout (`physical_layouts.c`, lines 87-203) -/

/-- An object of `struct zmk_physical_layout`: the address of the object and
its member `kscan`, the address of the scan device, 0 for a null pointer.
The selection reads no other member. -/
structure zmk_physical_layout where
  addr : Nat
  kscan : Nat
deriving DecidableEq, Repr

/-- The actions of `enum pm_device_action` that the selection runs. -/
inductive pm_device_action where
  | PM_DEVICE_ACTION_SUSPEND
  | PM_DEVICE_ACTION_RESUME
deriving DecidableEq, Repr

/-- The calls `zmk_physical_layouts_select_layout` makes to the scan driver
and to the power management of a scan device. -/
inductive KscanCall where
  | kscan_disable_callback (dev : Nat)
  | pm_device_runtime_put (dev : Nat)
  | pm_device_action_run (dev : Nat) (action : pm_device_action)
  | pm_device_runtime_get (dev : Nat)
  | kscan_config (dev : Nat)
  | kscan_enable_callback (dev : Nat)
deriving DecidableEq, Repr

/-- The build of `physical_layouts.c`: the objects the array `layouts` (lines
58, 70 and 82) points to, in order, and the power-management options. -/
structure LayoutConfig where
  layouts : List zmk_physical_layout
  CONFIG_PM_DEVICE_RUNTIME : Bool
  CONFIG_PM_DEVICE : Bool

/-- The variable `active` (line 87), `none` for the null pointer, and the
calls made so far. -/
structure LayoutState where
  active : Option zmk_physical_layout
  trace : List KscanCall
deriving DecidableEq, Repr

/-- The outside function whose result the selection looks at:
`pm_device_runtime_get` for a scan device. -/
structure LayoutEnv where
  pm_device_runtime_get : LayoutState → Nat → Int

/-- The function `zmk_physical_layouts_select_layout` (lines 148-185).  Two
pointers are equal when they hold the same address. -/
def zmk_physical_layouts_select_layout (env : LayoutEnv) (cfg : LayoutConfig)
    (layout : Option zmk_physical_layout) (s : LayoutState) : Int × LayoutState :=
  match layout with
  | none => (-ENODEV, s)
  | some layout =>
    if s.active.map (fun a => a.addr) = some layout.addr then (0, s)
    else
      let s1 : LayoutState :=
        match s.active with
        | some active =>
          if active.kscan ≠ 0 then
            let t := s.trace ++ [KscanCall.kscan_disable_callback active.kscan]
            if cfg.CONFIG_PM_DEVICE_RUNTIME then
              { s with trace := t ++ [KscanCall.pm_device_runtime_put active.kscan] }
            else if cfg.CONFIG_PM_DEVICE then
              { s with
                trace := t ++ [KscanCall.pm_device_action_run active.kscan
                  pm_device_action.PM_DEVICE_ACTION_SUSPEND] }
            else { s with trace := t }
          else s
        | none => s
      let s2 : LayoutState := { s1 with active := some layout }
      if layout.kscan ≠ 0 then
        if cfg.CONFIG_PM_DEVICE_RUNTIME then
          let err := env.pm_device_runtime_get s2 layout.kscan
          let s3 : LayoutState :=
            { s2 with trace := s2.trace ++ [KscanCall.pm_device_runtime_get layout.kscan] }
          if err < 0 then (err, s3)
          else
            (0, { s3 with
                  trace := s3.trace ++ [KscanCall.kscan_config layout.kscan,
                    KscanCall.kscan_enable_callback layout.kscan] })
        else
          let s3 : LayoutState :=
            if cfg.CONFIG_PM_DEVICE then
              { s2 with
                trace := s2.trace ++ [KscanCall.pm_device_action_run layout.kscan
                  pm_device_action.PM_DEVICE_ACTION_RESUME] }
            else s2
          (0, { s3 with
                trace := s3.trace ++ [KscanCall.kscan_config layout.kscan,
                  KscanCall.kscan_enable_callback layout.kscan] })
      else (0, s2)

/-- The function `zmk_physical_layouts_select` (lines 187-193). -/
def zmk_physical_layouts_select (env : LayoutEnv) (cfg : LayoutConfig) (index : Nat)
    (s : LayoutState) : Int × LayoutState :=
  let index := to_uint8_t index
  if index ≥ cfg.layouts.length then (-EINVAL, s)
  else zmk_physical_layouts_select_layout env cfg cfg.layouts[index]? s

/-- The loop of `zmk_physical_layouts_get_selected` (lines 196-200) from the
index `i` on, over the rest of the array. -/
def zmk_physical_layouts_get_selected_loop (active : Option zmk_physical_layout) :
    List zmk_physical_layout → Nat → Int
  | [], _ => -ENODEV
  | layout :: rest, i =>
    if some layout.addr = active.map (fun a => a.addr) then (i : Int)
    else zmk_physical_layouts_get_selected_loop active rest (i + 1)

/-- The function `zmk_physical_layouts_get_selected` (lines 195-203). -/
def zmk_physical_layouts_get_selected (cfg : LayoutConfig) (s : LayoutState) : Int :=
  zmk_physical_layouts_get_selected_loop s.active cfg.layouts 0

/-- A build with two layouts, the first with the scan device at address 16,
the second with the one at address 32, and runtime power management. -/
def two_layout_config : LayoutConfig :=
  { layouts := [{ addr := 1024, kscan := 16 }, { addr := 2048, kscan := 32 }]
    CONFIG_PM_DEVICE_RUNTIME := true
    CONFIG_PM_DEVICE := true }

/-- An environment in which `pm_device_runtime_get` returns 0. -/
def quiet_layout_env : LayoutEnv := { pm_device_runtime_get := fun _ _ => 0 }

/-- The initial state of the two-layer keymap with the layer state `mask`. -/
def state_with_layers (mask : Nat) : KeymapState :=
  { initial_state two_layer_keymap with _zmk_keymap_layer_state := mask }

/-! ## Discarding unsaved changes (`keymap.c`, line 257) -/

/-- The function `settings_load_subtree("keymap/l")` of the settings subsystem
on a store that holds, for every entry `(l, kp, value)`, the record `value`
under the key `keymap/l/<l>/<kp>`: every stored record is handed to
`keymap_handle_set` under its name after `keymap/`, with its length and a
callback that reads it.  The results of the handler are not passed on, and
the load itself is taken to succeed. -/
def settings_load_subtree_keymap_l (env : Env) (cfg : Config)
    (stored : List (Nat × Nat × List Nat)) (s : KeymapState) : Int × KeymapState :=
  (0, stored.foldl
    (fun st entry =>
      (keymap_handle_set env cfg (handler_name entry.1 entry.2.1) entry.2.2.length
        (settings_value_read entry.2.2) st).2) s)

/-- The function `zmk_keymap_discard_changes` (line 257). -/
def zmk_keymap_discard_changes (env : Env) (cfg : Config)
    (stored : List (Nat × Nat × List Nat)) (s : KeymapState) : Int × KeymapState :=
  settings_load_subtree_keymap_l env cfg stored s

/-- The binding that `keymap_handle_set` stores in cell `(l, kp)` for the
stored record `value`; `none` when the handler returns without storing one:
the record is empty or longer than the packed record, the cell is outside the
keymap, or no ready behavior has the local ID of the record. -/
def stored_record_binding (env : Env) (cfg : Config) (l kp : Nat) (value : List Nat) :
    Option zmk_behavior_binding :=
  if value.length > sizeof_zmk_behavior_binding_setting then none
  else if l ≥ cfg.ZMK_KEYMAP_LAYERS_LEN then none
  else if kp ≥ cfg.ZMK_KEYMAP_LEN then none
  else if value.length = 0 then none
  else
    let binding_setting :=
      zmk_behavior_binding_setting.of_bytes (binding_setting_memory value.length value)
    let name := zmk_behavior_find_behavior_name_from_local_id env binding_setting.behavior_local_id
    if name.addr = 0 then none
    else
      some { behavior_dev := name
             param1 := binding_setting.param1
             param2 := binding_setting.param2 }

/-! ## Sensor dispatch (`keymap.c`, lines 359-411) -/

/-- The type `enum behavior_sensor_binding_process_mode`. -/
inductive behavior_sensor_binding_process_mode where
  | BEHAVIOR_SENSOR_BINDING_PROCESS_MODE_TRIGGER
  | BEHAVIOR_SENSOR_BINDING_PROCESS_MODE_DISCARD
deriving DecidableEq, Repr

/-- The calls `zmk_keymap_sensor_event` makes to a sensor behavior, with the
value each call returned.  With a call of `process` the value of
`_zmk_keymap_layer_state` at the time of the call is kept as well; it is not
an argument of the call. -/
inductive SensorCall where
  | behavior_sensor_keymap_binding_accept_data (binding : zmk_behavior_binding)
      (event : zmk_behavior_binding_event) (ret : Int)
  | behavior_sensor_keymap_binding_process (binding : zmk_behavior_binding)
      (event : zmk_behavior_binding_event) (mode : behavior_sensor_binding_process_mode)
      (layer_state : Nat) (ret : Int)
deriving DecidableEq, Repr

/-- The layer of the event of a recorded call. -/
def SensorCall.layer : SensorCall → Nat
  | .behavior_sensor_keymap_binding_accept_data _ event _ => event.layer
  | .behavior_sensor_keymap_binding_process _ event _ _ _ => event.layer

/-- The binding of a recorded call. -/
def SensorCall.binding : SensorCall → zmk_behavior_binding
  | .behavior_sensor_keymap_binding_accept_data binding _ _ => binding
  | .behavior_sensor_keymap_binding_process binding _ _ _ _ => binding

/-- The event of a recorded call. -/
def SensorCall.event : SensorCall → zmk_behavior_binding_event
  | .behavior_sensor_keymap_binding_accept_data _ event _ => event
  | .behavior_sensor_keymap_binding_process _ event _ _ _ => event

/-- Whether a recorded call is a call of `process`. -/
def SensorCall.is_process : SensorCall → Bool
  | .behavior_sensor_keymap_binding_process _ _ _ _ _ => true
  | _ => false

/-- Whether a recorded call is a call of `process` that returned the value
`opaque_value`. -/
def SensorCall.is_opaque_response (opaque_value : Int) : SensorCall → Bool
  | .behavior_sensor_keymap_binding_process _ _ _ _ ret => decide (ret = opaque_value)
  | _ => false

/-- Whether a recorded call is a call of `process` that returned a negative
value other than `opaque_value`. -/
def SensorCall.is_error_response (opaque_value : Int) : SensorCall → Bool
  | .behavior_sensor_keymap_binding_process _ _ _ _ ret => decide (ret ≠ opaque_value ∧ ret < 0)
  | _ => false

/-- The sensor part of the build and the outside functions of the sensor
dispatch: the constants `ZMK_KEYMAP_SENSORS_LEN` and `ZMK_BEHAVIOR_OPAQUE`, the
macro `ZMK_VIRTUAL_KEY_POSITION_SENSOR`, the table `zmk_sensor_keymap` (line
80), and the two calls of a sensor behavior, which see the state and the calls
made so far and may call the layer interface. -/
structure SensorEnv where
  ZMK_KEYMAP_SENSORS_LEN : Nat
  ZMK_BEHAVIOR_OPAQUE : Int
  ZMK_VIRTUAL_KEY_POSITION_SENSOR : Nat → Nat
  zmk_sensor_keymap : Nat → Nat → zmk_behavior_binding
  behavior_sensor_keymap_binding_accept_data : KeymapState → List SensorCall →
    zmk_behavior_binding → zmk_behavior_binding_event → Nat → Nat → List Nat →
    Int × List LayerCall
  behavior_sensor_keymap_binding_process : KeymapState → List SensorCall →
    zmk_behavior_binding → zmk_behavior_binding_event →
    behavior_sensor_binding_process_mode → Int × List LayerCall

/-- The body of the loop of `zmk_keymap_sensor_event` (lines 365-407) for one
layer: the value to return when the body returns, the flag `opaque_response`,
the state and the recorded calls after the body. -/
def zmk_keymap_sensor_event_layer (env : Env) (cfg : Config) (senv : SensorEnv)
    (sensor_index channel_data_size : Nat) (channel_data : List Nat) (timestamp : Int)
    (layer : Nat) (opaque_response : Bool) (s : KeymapState) (calls : List SensorCall) :
    Option Int × Bool × KeymapState × List SensorCall :=
  let binding := senv.zmk_sensor_keymap layer sensor_index
  match zmk_behavior_get_binding env binding.behavior_dev with
  | none => (none, opaque_response, s, calls)
  | some _ =>
    let event : zmk_behavior_binding_event :=
      { layer := layer
        position := senv.ZMK_VIRTUAL_KEY_POSITION_SENSOR sensor_index
        timestamp := timestamp }
    let accepted := senv.behavior_sensor_keymap_binding_accept_data s calls binding event
      sensor_index channel_data_size channel_data
    let s1 := run_layer_calls env cfg accepted.2 s
    let calls1 := calls ++
      [SensorCall.behavior_sensor_keymap_binding_accept_data binding event accepted.1]
    if accepted.1 < 0 then (none, opaque_response, s1, calls1)
    else
      let mode :=
        if (!opaque_response && decide (layer ≥ _zmk_keymap_layer_default) &&
            zmk_keymap_layer_active layer s1) = true then
          behavior_sensor_binding_process_mode.BEHAVIOR_SENSOR_BINDING_PROCESS_MODE_TRIGGER
        else behavior_sensor_binding_process_mode.BEHAVIOR_SENSOR_BINDING_PROCESS_MODE_DISCARD
      let processed := senv.behavior_sensor_keymap_binding_process s1 calls1 binding event mode
      let s2 := run_layer_calls env cfg processed.2 s1
      let calls2 := calls1 ++
        [SensorCall.behavior_sensor_keymap_binding_process binding event mode
          s1._zmk_keymap_layer_state processed.1]
      if processed.1 = senv.ZMK_BEHAVIOR_OPAQUE then (none, true, s2, calls2)
      else if processed.1 < 0 then (some processed.1, opaque_response, s2, calls2)
      else (none, opaque_response, s2, calls2)

/-- The loop of `zmk_keymap_sensor_event` (lines 364-408) with the final
`return 0`: the first argument is `layer + 1`. -/
def zmk_keymap_sensor_event_loop (env : Env) (cfg : Config) (senv : SensorEnv)
    (sensor_index channel_data_size : Nat) (channel_data : List Nat) (timestamp : Int) :
    Nat → Bool → KeymapState → List SensorCall → Int × KeymapState × List SensorCall
  | 0, _, s, calls => (0, s, calls)
  | layer + 1, opaque_response, s, calls =>
    let r := zmk_keymap_sensor_event_layer env cfg senv sensor_index channel_data_size
      channel_data timestamp layer opaque_response s calls
    match r.1 with
    | some ret => (ret, r.2.2.1, r.2.2.2)
    | none =>
      zmk_keymap_sensor_event_loop env cfg senv sensor_index channel_data_size channel_data
        timestamp layer r.2.1 r.2.2.1 r.2.2.2

/-- The function `zmk_keymap_sensor_event` (lines 359-411), entered with the
calls recorded so far.  The table `zmk_sensor_keymap` has
`ZMK_KEYMAP_SENSORS_LEN` columns and the function indexes it without a check:
`none` stands for the access outside the table. -/
def zmk_keymap_sensor_event (env : Env) (cfg : Config) (senv : SensorEnv)
    (sensor_index channel_data_size : Nat) (channel_data : List Nat) (timestamp : Int)
    (s : KeymapState) (calls : List SensorCall) :
    Option (Int × KeymapState × List SensorCall) :=
  let sensor_index := to_uint8_t sensor_index
  if sensor_index ≥ senv.ZMK_KEYMAP_SENSORS_LEN ∧ 0 < cfg.ZMK_KEYMAP_LAYERS_LEN then none
  else
    some (zmk_keymap_sensor_event_loop env cfg senv sensor_index channel_data_size channel_data
      timestamp cfg.ZMK_KEYMAP_LAYERS_LEN false s calls)

/-- A sensor build with one sensor whose binding is `A` on layer 1 and `B` on
layer 0; `accept_data` returns 0, `process` returns `upper` for the binding of
layer 1 and 1 for the binding of layer 0, and `ZMK_BEHAVIOR_OPAQUE` is 0. -/
def two_layer_sensor_env (upper : Int) : SensorEnv :=
  { ZMK_KEYMAP_SENSORS_LEN := 1
    ZMK_BEHAVIOR_OPAQUE := 0
    ZMK_VIRTUAL_KEY_POSITION_SENSOR := fun index => 4 + index
    zmk_sensor_keymap := fun layer _ =>
      if layer = 1 then { behavior_dev := device_A.name, param1 := 0, param2 := 0 }
      else { behavior_dev := device_B.name, param1 := 0, param2 := 0 }
    behavior_sensor_keymap_binding_accept_data := fun _ _ _ _ _ _ _ => (0, [])
    behavior_sensor_keymap_binding_process := fun _ _ _ event _ =>
      (if event.layer = 1 then upper else 1, []) }

/-- The value a recorded call returned. -/
def SensorCall.ret : SensorCall → Int
  | .behavior_sensor_keymap_binding_accept_data _ _ ret => ret
  | .behavior_sensor_keymap_binding_process _ _ _ _ ret => ret

/-- The mode lines 393-397 compute for a layer from the flag
`opaque_response` and the value of `_zmk_keymap_layer_state`. -/
def sensor_process_mode (opaque_response : Bool) (layer layer_state : Nat) :
    behavior_sensor_binding_process_mode :=
  if (!opaque_response && decide (layer ≥ _zmk_keymap_layer_default) &&
      zmk_keymap_layer_active_with_state (to_uint8_t layer) layer_state) = true then
    behavior_sensor_binding_process_mode.BEHAVIOR_SENSOR_BINDING_PROCESS_MODE_TRIGGER
  else behavior_sensor_binding_process_mode.BEHAVIOR_SENSOR_BINDING_PROCESS_MODE_DISCARD

/-- The sensor dispatch as the specification words it, on the recorded calls:
`SensorLog n flag calls ret` says that `calls` and the return value `ret` are
what a pass over the layers `n - 1, ..., 0` entered with the flag `flag` may
record.  An unresolved layer records nothing; a layer whose `accept_data`
fails records that call only; any other layer records `accept_data` and
`process` in the mode computed from the flag and the layer state, after which
an `opaque` response sets the flag and a negative response ends the pass. -/
inductive SensorLog (env : Env) (senv : SensorEnv) (sensor_index : Nat) (timestamp : Int) :
    Nat → Bool → List SensorCall → Int → Prop
  | done (flag : Bool) : SensorLog env senv sensor_index timestamp 0 flag [] 0
  | unresolved (layer : Nat) (flag : Bool) (rest : List SensorCall) (ret : Int) :
    zmk_behavior_get_binding env (senv.zmk_sensor_keymap layer sensor_index).behavior_dev =
      none →
    SensorLog env senv sensor_index timestamp layer flag rest ret →
    SensorLog env senv sensor_index timestamp (layer + 1) flag rest ret
  | rejected (layer : Nat) (flag : Bool) (rest : List SensorCall) (ret accepted : Int) :
    zmk_behavior_get_binding env (senv.zmk_sensor_keymap layer sensor_index).behavior_dev ≠
      none →
    accepted < 0 →
    SensorLog env senv sensor_index timestamp layer flag rest ret →
    SensorLog env senv sensor_index timestamp (layer + 1) flag
      (SensorCall.behavior_sensor_keymap_binding_accept_data
        (senv.zmk_sensor_keymap layer sensor_index)
        { layer := layer
          position := senv.ZMK_VIRTUAL_KEY_POSITION_SENSOR sensor_index
          timestamp := timestamp } accepted :: rest) ret
  | processed (layer : Nat) (flag : Bool) (rest : List SensorCall) (ret accepted : Int)
      (layer_state : Nat) (response : Int) :
    zmk_behavior_get_binding env (senv.zmk_sensor_keymap layer sensor_index).behavior_dev ≠
      none →
    0 ≤ accepted →
    (response = senv.ZMK_BEHAVIOR_OPAQUE ∨ 0 ≤ response) →
    SensorLog env senv sensor_index timestamp layer
      (flag || decide (response = senv.ZMK_BEHAVIOR_OPAQUE)) rest ret →
    SensorLog env senv sensor_index timestamp (layer + 1) flag
      (SensorCall.behavior_sensor_keymap_binding_accept_data
        (senv.zmk_sensor_keymap layer sensor_index)
        { layer := layer
          position := senv.ZMK_VIRTUAL_KEY_POSITION_SENSOR sensor_index
          timestamp := timestamp } accepted ::
        SensorCall.behavior_sensor_keymap_binding_process
          (senv.zmk_sensor_keymap layer sensor_index)
          { layer := layer
            position := senv.ZMK_VIRTUAL_KEY_POSITION_SENSOR sensor_index
            timestamp := timestamp }
          (sensor_process_mode flag layer layer_state) layer_state response :: rest) ret
  | failed (layer : Nat) (flag : Bool) (accepted : Int) (layer_state : Nat) (response : Int) :
    zmk_behavior_get_binding env (senv.zmk_sensor_keymap layer sensor_index).behavior_dev ≠
      none →
    0 ≤ accepted →
    response ≠ senv.ZMK_BEHAVIOR_OPAQUE →
    response < 0 →
    SensorLog env senv sensor_index timestamp (layer + 1) flag
      [SensorCall.behavior_sensor_keymap_binding_accept_data
        (senv.zmk_sensor_keymap layer sensor_index)
        { layer := layer
          position := senv.ZMK_VIRTUAL_KEY_POSITION_SENSOR sensor_index
          timestamp := timestamp } accepted,
        SensorCall.behavior_sensor_keymap_binding_process
          (senv.zmk_sensor_keymap layer sensor_index)
          { layer := layer
            position := senv.ZMK_VIRTUAL_KEY_POSITION_SENSOR sensor_index
            timestamp := timestamp }
          (sensor_process_mode flag layer layer_state) layer_state response] response

/-! ## Theorems -/

/-! ### Layer state -/

theorem BIT_eq (n : Nat) : BIT n = 2 ^ n := Nat.one_shiftLeft n

theorem testBit_WRITE_BIT_set (w var bit i : Nat) :
    (WRITE_BIT w var bit true).testBit i =
      (decide (i < w) && (var.testBit i || decide (bit = i))) := by
  simp [WRITE_BIT, Nat.testBit_mod_two_pow, Nat.testBit_or, BIT_eq, Nat.testBit_two_pow]

theorem testBit_WRITE_BIT_clear (w var bit i : Nat) :
    (WRITE_BIT w var bit false).testBit i =
      (decide (i < w) && (var.testBit i && (decide (i < 32) && !decide (bit = i)))) := by
  have h : ULONG_MAX = 2 ^ 32 - 1 := by norm_num [ULONG_MAX]
  simp only [WRITE_BIT, Bool.false_eq_true, if_false, Nat.testBit_mod_two_pow, Nat.testBit_and,
    Nat.testBit_xor, BIT_eq, Nat.testBit_two_pow, h, Nat.testBit_two_pow_sub_one]
  by_cases hi : i < 32 <;> by_cases hb : bit = i <;> simp [hi, hb]

theorem WRITE_BIT_keeps_bit (w var bit i : Nat) (set : Bool) (hw : i < w) (h32 : i < 32)
    (h : var.testBit i = true) (hne : ¬ (bit = i ∧ set = false)) :
    (WRITE_BIT w var bit set).testBit i = true := by
  cases set
  · rw [testBit_WRITE_BIT_clear]
    have hb : ¬ bit = i := fun hc => hne ⟨hc, rfl⟩
    simp [hw, h32, h, hb]
  · rw [testBit_WRITE_BIT_set]
    simp [hw, h]

theorem WRITE_BIT_sets_bit (w var bit : Nat) (hw : bit < w) :
    (WRITE_BIT w var bit true).testBit bit = true := by
  rw [testBit_WRITE_BIT_set]
  simp [hw]

theorem set_layer_state_keeps_default_bit (env : Env) (cfg : Config) (layer : Nat)
    (state : Bool) (s : KeymapState)
    (h : s._zmk_keymap_layer_state.testBit _zmk_keymap_layer_default = true) :
    (set_layer_state env cfg layer state s).2._zmk_keymap_layer_state.testBit
      _zmk_keymap_layer_default = true := by
  have hd : _zmk_keymap_layer_default < 32 := by decide
  unfold set_layer_state
  simp only
  split_ifs with h1 h2 h3
  · exact h
  · exact h
  · exact WRITE_BIT_keeps_bit 32 _ _ _ state hd hd h h2
  · exact WRITE_BIT_keeps_bit 32 _ _ _ state hd hd h h2

theorem layer_to_loop_keeps_default_bit (env : Env) (cfg : Config) (n : Nat) :
    ∀ s : KeymapState, s._zmk_keymap_layer_state.testBit _zmk_keymap_layer_default = true →
      (zmk_keymap_layer_to_loop env cfg n s)._zmk_keymap_layer_state.testBit
        _zmk_keymap_layer_default = true := by
  induction n with
  | zero => intro s h; exact h
  | succ i ih =>
    intro s h
    exact ih _ (set_layer_state_keeps_default_bit env cfg _ _ s h)

theorem layer_call_keeps_default_bit (env : Env) (cfg : Config) (c : LayerCall)
    (s : KeymapState)
    (h : s._zmk_keymap_layer_state.testBit _zmk_keymap_layer_default = true) :
    (c.run env cfg s).2._zmk_keymap_layer_state.testBit _zmk_keymap_layer_default = true := by
  cases c with
  | zmk_keymap_layer_activate l => exact set_layer_state_keeps_default_bit env cfg _ _ s h
  | zmk_keymap_layer_deactivate l => exact set_layer_state_keeps_default_bit env cfg _ _ s h
  | zmk_keymap_layer_toggle l =>
    show (zmk_keymap_layer_toggle env cfg l s).2._zmk_keymap_layer_state.testBit _ = true
    unfold zmk_keymap_layer_toggle
    simp only
    split_ifs
    · exact set_layer_state_keeps_default_bit env cfg _ _ s h
    · exact set_layer_state_keeps_default_bit env cfg _ _ s h
  | zmk_keymap_layer_to l =>
    exact set_layer_state_keeps_default_bit env cfg _ _ _
      (layer_to_loop_keeps_default_bit env cfg _ s h)

theorem run_layer_calls_keeps_default_bit (env : Env) (cfg : Config) (calls : List LayerCall) :
    ∀ s : KeymapState, s._zmk_keymap_layer_state.testBit _zmk_keymap_layer_default = true →
      (run_layer_calls env cfg calls s)._zmk_keymap_layer_state.testBit
        _zmk_keymap_layer_default = true := by
  induction calls with
  | nil => intro s h; exact h
  | cons c cs ih => intro s h; exact ih _ (layer_call_keeps_default_bit env cfg c s h)

theorem layer_active_default (s : KeymapState) :
    zmk_keymap_layer_active zmk_keymap_layer_default s = true := by
  simp [zmk_keymap_layer_active, zmk_keymap_layer_active_with_state, zmk_keymap_layer_default,
    _zmk_keymap_layer_default, to_uint8_t]

theorem activate_default_sets_bit (env : Env) (cfg : Config) (s : KeymapState)
    (hL : 0 < cfg.ZMK_KEYMAP_LAYERS_LEN) :
    (zmk_keymap_layer_activate env cfg zmk_keymap_layer_default
      s).2._zmk_keymap_layer_state.testBit _zmk_keymap_layer_default = true := by
  have hd : _zmk_keymap_layer_default < 32 := by decide
  have hu : to_uint8_t (to_uint8_t zmk_keymap_layer_default) = _zmk_keymap_layer_default := by
    decide
  unfold zmk_keymap_layer_activate set_layer_state
  simp only [hu]
  have h0 : ¬ (_zmk_keymap_layer_default ≥ cfg.ZMK_KEYMAP_LAYERS_LEN) := by
    simp only [_zmk_keymap_layer_default]; omega
  simp only [h0, if_false]
  split_ifs
  all_goals first
    | exact WRITE_BIT_sets_bit 32 _ _ hd
    | simp_all

/-- Claim C1, as the code has it: in every state reachable from the initial
state by layer calls the default layer is reported active by
`zmk_keymap_layer_active`; the default layer's bit of the mask starts at 0, is
set by `zmk_keymap_layer_activate(default)` when there is at least one layer,
and once it is 1 no further sequence of layer calls clears it. -/
theorem default_layer_stays_active (env : Env) (cfg : Config)
    (keymap : Nat → Nat → zmk_behavior_binding) (calls more : List LayerCall) :
    zmk_keymap_layer_active zmk_keymap_layer_default
        (run_layer_calls env cfg calls (initial_state keymap)) = true ∧
      (zmk_keymap_layer_state (initial_state keymap)).testBit zmk_keymap_layer_default = false ∧
      (0 < cfg.ZMK_KEYMAP_LAYERS_LEN →
        (zmk_keymap_layer_state (zmk_keymap_layer_activate env cfg zmk_keymap_layer_default
          (run_layer_calls env cfg calls (initial_state keymap))).2).testBit
            zmk_keymap_layer_default = true) ∧
      ((zmk_keymap_layer_state
          (run_layer_calls env cfg calls (initial_state keymap))).testBit
            zmk_keymap_layer_default = true →
        (zmk_keymap_layer_state (run_layer_calls env cfg more
          (run_layer_calls env cfg calls (initial_state keymap)))).testBit
            zmk_keymap_layer_default = true) :=
  ⟨layer_active_default _, by simp [zmk_keymap_layer_state, initial_state],
    activate_default_sets_bit env cfg _,
    run_layer_calls_keeps_default_bit env cfg more _⟩

/-- Instance of `default_layer_stays_active`: three layers, the bit set by
`zmk_keymap_layer_to(0)` and kept through a deactivation and a toggle of
layer 0. -/
theorem default_layer_stays_active_witness :
    zmk_keymap_layer_active zmk_keymap_layer_default
        (run_layer_calls quiet_env (plain_config 3 4) [LayerCall.zmk_keymap_layer_to 0]
          (initial_state empty_keymap)) = true ∧
      (zmk_keymap_layer_state (run_layer_calls quiet_env (plain_config 3 4)
          [LayerCall.zmk_keymap_layer_deactivate 0, LayerCall.zmk_keymap_layer_toggle 0]
          (run_layer_calls quiet_env (plain_config 3 4) [LayerCall.zmk_keymap_layer_to 0]
            (initial_state empty_keymap)))).testBit zmk_keymap_layer_default = true :=
  ⟨(default_layer_stays_active quiet_env (plain_config 3 4) empty_keymap
      [LayerCall.zmk_keymap_layer_to 0] []).1,
    (default_layer_stays_active quiet_env (plain_config 3 4) empty_keymap
      [LayerCall.zmk_keymap_layer_to 0]
      [LayerCall.zmk_keymap_layer_deactivate 0, LayerCall.zmk_keymap_layer_toggle 0]).2.2.2
      (by decide)⟩

/-- Claim C1 fails as stated: the mask returned by `zmk_keymap_layer_state`
in the initial state is 0, and it is still 0 after deactivating and toggling
the default layer and toggling layer 1 twice, so the default layer's bit is
not set. -/
theorem default_bit_clear_initially :
    (zmk_keymap_layer_state (initial_state empty_keymap)).testBit
        zmk_keymap_layer_default = false ∧
      zmk_keymap_layer_state (run_layer_calls quiet_env (plain_config 3 4)
        [LayerCall.zmk_keymap_layer_deactivate 0, LayerCall.zmk_keymap_layer_toggle 0,
          LayerCall.zmk_keymap_layer_toggle 1, LayerCall.zmk_keymap_layer_toggle 1]
        (initial_state empty_keymap)) = 0 := by
  decide

/-! ### Keymap cells and pending bits -/

theorem and_BIT_ne_zero_iff (x i : Nat) : (x &&& BIT i ≠ 0) ↔ x.testBit i = true := by
  rw [BIT_eq, Nat.and_two_pow]
  cases h : x.testBit i <;> simp

theorem and_BIT_eq_iff (x i : Nat) : (x &&& BIT i = BIT i) ↔ x.testBit i = true := by
  rw [BIT_eq, Nat.and_two_pow]
  cases h : x.testBit i
  · simpa using (Nat.two_pow_pos i).ne
  · simp

theorem pending_bit_eq (s : KeymapState) (l kp : Nat) :
    pending_bit s l kp = (s.zmk_keymap_layer_pending_changes l (kp / 8)).testBit (kp % 8) := by
  unfold pending_bit
  cases h : (s.zmk_keymap_layer_pending_changes l (kp / 8)).testBit (kp % 8)
  · have := (and_BIT_ne_zero_iff (s.zmk_keymap_layer_pending_changes l (kp / 8)) (kp % 8)).not
    simp only [h, Bool.false_eq_true, not_false_eq_true, iff_true] at this
    simpa using this
  · have := (and_BIT_ne_zero_iff (s.zmk_keymap_layer_pending_changes l (kp / 8)) (kp % 8)).2 h
    simpa using this

theorem to_uint8_t_of_lt {n : Nat} (h : n < 256) : to_uint8_t n = n :=
  Nat.mod_eq_of_lt h

/-- Claim C4: for `uint8_t` arguments `l` and `p` with `l ≥ L` or `p ≥ K`,
`zmk_keymap_set_layer_binding_at_idx(l, p, b)` returns `-EINVAL` and leaves
the whole state, every keymap cell and every pending bit included, as it was. -/
theorem set_layer_binding_at_idx_out_of_range (cfg : Config) (l p : Nat)
    (b : zmk_behavior_binding) (s : KeymapState) (hl : l < 256) (hp : p < 256)
    (h : l ≥ cfg.ZMK_KEYMAP_LAYERS_LEN ∨ p ≥ cfg.ZMK_KEYMAP_LEN) :
    zmk_keymap_set_layer_binding_at_idx cfg l p b s = (-EINVAL, s) := by
  unfold zmk_keymap_set_layer_binding_at_idx
  simp only [to_uint8_t_of_lt hl, to_uint8_t_of_lt hp, h, if_true]

/-- Instance of `set_layer_binding_at_idx_out_of_range`: two layers of four
keys, layer 2 does not exist. -/
theorem set_layer_binding_at_idx_out_of_range_witness :
    zmk_keymap_set_layer_binding_at_idx (plain_config 2 4) 2 1
        { behavior_dev := { addr := 64, chars := ['k', 'p'] }, param1 := 4, param2 := 0 }
        (initial_state empty_keymap) = (-EINVAL, initial_state empty_keymap) :=
  set_layer_binding_at_idx_out_of_range (plain_config 2 4) 2 1 _ _ (by decide) (by decide)
    (Or.inl (by decide))

/-- Claim C6: for `uint8_t` arguments `l < L` and `p < K`,
`zmk_keymap_set_layer_binding_at_idx(l, p, b)` returns 0, the cell `(l, p)`
then read through `zmk_keymap_get_layer_binding_at_idx` is `b`, the pending
bit `(l, p)` is set, and every other keymap cell and every other pending bit
of the `L × K` table is as before. -/
theorem set_layer_binding_at_idx_in_range (cfg : Config) (l p : Nat)
    (b : zmk_behavior_binding) (s : KeymapState) (hl8 : l < 256) (hp8 : p < 256)
    (hl : l < cfg.ZMK_KEYMAP_LAYERS_LEN) (hp : p < cfg.ZMK_KEYMAP_LEN) :
    (zmk_keymap_set_layer_binding_at_idx cfg l p b s).1 = 0 ∧
      zmk_keymap_get_layer_binding_at_idx cfg l p
        (zmk_keymap_set_layer_binding_at_idx cfg l p b s).2 = some b ∧
      pending_bit (zmk_keymap_set_layer_binding_at_idx cfg l p b s).2 l p = true ∧
      (∀ l2 p2, (l2, p2) ≠ (l, p) →
        (zmk_keymap_set_layer_binding_at_idx cfg l p b s).2.zmk_keymap l2 p2 =
            s.zmk_keymap l2 p2 ∧
          pending_bit (zmk_keymap_set_layer_binding_at_idx cfg l p b s).2 l2 p2 =
            pending_bit s l2 p2) := by
  have hcond : ¬ (l ≥ cfg.ZMK_KEYMAP_LAYERS_LEN ∨ p ≥ cfg.ZMK_KEYMAP_LEN) := by omega
  have hres : zmk_keymap_set_layer_binding_at_idx cfg l p b s =
      (0, { s with
        zmk_keymap_layer_pending_changes :=
          array_set2 s.zmk_keymap_layer_pending_changes l (p / 8)
            (WRITE_BIT 8 (s.zmk_keymap_layer_pending_changes l (p / 8)) (p % 8) true)
        zmk_keymap := array_set2 s.zmk_keymap l p b }) := by
    unfold zmk_keymap_set_layer_binding_at_idx
    simp only [to_uint8_t_of_lt hl8, to_uint8_t_of_lt hp8, hcond, if_false]
  rw [hres]
  refine ⟨rfl, ?_, ?_, ?_⟩
  · unfold zmk_keymap_get_layer_binding_at_idx
    have h1 : ¬ (l ≥ cfg.ZMK_KEYMAP_LAYERS_LEN) := by omega
    have h2 : ¬ (p ≥ cfg.ZMK_KEYMAP_LEN) := by omega
    simp [to_uint8_t_of_lt hl8, to_uint8_t_of_lt hp8, h1, h2, array_set2]
  · rw [pending_bit_eq]
    simp only [array_set2, and_self, if_true]
    exact WRITE_BIT_sets_bit 8 _ _ (by omega)
  · intro l2 p2 hne
    constructor
    · have : ¬ (l2 = l ∧ p2 = p) := fun hc => hne (by rw [hc.1, hc.2])
      simp [array_set2, this]
    · rw [pending_bit_eq, pending_bit_eq]
      simp only [array_set2]
      by_cases hb : l2 = l ∧ p2 / 8 = p / 8
      · simp only [hb, and_self, if_true]
        rw [testBit_WRITE_BIT_set]
        have hmod : ¬ (p % 8 = p2 % 8) := by
          intro hm
          apply hne
          have : p2 = p := by omega
          rw [hb.1, this]
        have hlt : p2 % 8 < 8 := Nat.mod_lt _ (by norm_num)
        simp [hmod, hlt]
      · simp [hb]

/-- Instance of `set_layer_binding_at_idx_in_range`: two layers of four keys,
cell `(1, 3)`. -/
theorem set_layer_binding_at_idx_in_range_witness :
    (zmk_keymap_set_layer_binding_at_idx (plain_config 2 4) 1 3
        { behavior_dev := { addr := 64, chars := ['k', 'p'] }, param1 := 4, param2 := 0 }
        (initial_state empty_keymap)).1 = 0 :=
  (set_layer_binding_at_idx_in_range (plain_config 2 4) 1 3 _ _ (by decide) (by decide)
    (by decide) (by decide)).1

/-! ### Key dispatch -/

theorem same_tables_refl (s : KeymapState) : same_tables s s := ⟨rfl, rfl, rfl⟩

theorem same_tables_trans {s t u : KeymapState} (h1 : same_tables s t) (h2 : same_tables t u) :
    same_tables s u :=
  ⟨h2.1.trans h1.1, h2.2.1.trans h1.2.1, h2.2.2.trans h1.2.2⟩

theorem set_layer_state_same_tables (env : Env) (cfg : Config) (layer : Nat) (state : Bool)
    (s : KeymapState) : same_tables s (set_layer_state env cfg layer state s).2 := by
  unfold set_layer_state
  simp only
  split_ifs <;> exact ⟨rfl, rfl, rfl⟩

theorem layer_to_loop_same_tables (env : Env) (cfg : Config) (n : Nat) :
    ∀ s : KeymapState, same_tables s (zmk_keymap_layer_to_loop env cfg n s) := by
  induction n with
  | zero => intro s; exact same_tables_refl s
  | succ i ih =>
    intro s
    exact same_tables_trans (set_layer_state_same_tables env cfg _ _ s) (ih _)

theorem layer_call_same_tables (env : Env) (cfg : Config) (c : LayerCall) (s : KeymapState) :
    same_tables s (c.run env cfg s).2 := by
  cases c with
  | zmk_keymap_layer_activate l => exact set_layer_state_same_tables env cfg _ _ s
  | zmk_keymap_layer_deactivate l => exact set_layer_state_same_tables env cfg _ _ s
  | zmk_keymap_layer_toggle l =>
    show same_tables s (zmk_keymap_layer_toggle env cfg l s).2
    unfold zmk_keymap_layer_toggle
    simp only
    split_ifs
    · exact set_layer_state_same_tables env cfg _ _ s
    · exact set_layer_state_same_tables env cfg _ _ s
  | zmk_keymap_layer_to l =>
    exact same_tables_trans (layer_to_loop_same_tables env cfg _ s)
      (set_layer_state_same_tables env cfg _ _ _)

theorem run_layer_calls_same_tables (env : Env) (cfg : Config) (calls : List LayerCall) :
    ∀ s : KeymapState, same_tables s (run_layer_calls env cfg calls s) := by
  induction calls with
  | nil => intro s; exact same_tables_refl s
  | cons c cs ih =>
    intro s
    exact same_tables_trans (layer_call_same_tables env cfg c s) (ih _)

theorem invoke_locally_same_tables (env : Env) (cfg : Config) (binding : zmk_behavior_binding)
    (event : zmk_behavior_binding_event) (pressed : Bool) (s : KeymapState) :
    same_tables s (invoke_locally env cfg binding event pressed s).2 := by
  unfold invoke_locally
  split_ifs
  · exact same_tables_trans ⟨rfl, rfl, rfl⟩ (run_layer_calls_same_tables env cfg _ _)
  · exact same_tables_trans ⟨rfl, rfl, rfl⟩ (run_layer_calls_same_tables env cfg _ _)

theorem split_bt_invoke_fold_same_tables (env : Env) (binding : zmk_behavior_binding)
    (event : zmk_behavior_binding_event) (pressed : Bool) (is : List Nat) :
    ∀ s : KeymapState, same_tables s
      (is.foldl (fun st i => (split_bt_invoke env i binding event pressed st).2) s) := by
  induction is with
  | nil => intro s; exact same_tables_refl s
  | cons i rest ih =>
    intro s
    exact same_tables_trans (⟨rfl, rfl, rfl⟩ :
      same_tables s (split_bt_invoke env i binding event pressed s).2) (ih _)

theorem apply_position_state_same_tables (env : Env) (cfg : Config) (source layer position : Nat)
    (pressed : Bool) (timestamp : Int) (s : KeymapState) :
    same_tables s
      (zmk_keymap_apply_position_state env cfg source layer position pressed timestamp s).2 := by
  unfold zmk_keymap_apply_position_state
  simp only
  repeat' split
  all_goals first
    | exact same_tables_refl s
    | exact invoke_locally_same_tables env cfg _ _ _ s
    | exact (⟨rfl, rfl, rfl⟩ : same_tables s (split_bt_invoke env _ _ _ _ s).2)
    | exact same_tables_trans (split_bt_invoke_fold_same_tables env _ _ _ _ s)
        (invoke_locally_same_tables env cfg _ _ _ _)

theorem cascade_same_tables (env : Env) (cfg : Config) (source position : Nat) (pressed : Bool)
    (timestamp : Int) (layers : List Nat) :
    ∀ s : KeymapState,
      same_tables s (cascade env cfg source position pressed timestamp layers s).2 := by
  induction layers with
  | nil => intro s; exact same_tables_refl s
  | cons layer lower ih =>
    intro s
    unfold cascade
    simp only
    split_ifs
    · exact same_tables_trans (apply_position_state_same_tables env cfg _ _ _ _ _ s) (ih _)
    · exact apply_position_state_same_tables env cfg _ _ _ _ _ s

theorem layer_active_with_state_eq (layer snapshot : Nat) (h : layer < 256) :
    zmk_keymap_layer_active_with_state layer snapshot =
      (snapshot.testBit layer || decide (layer = _zmk_keymap_layer_default)) := by
  unfold zmk_keymap_layer_active_with_state
  simp only [to_uint8_t_of_lt h]
  congr 1
  cases hb : snapshot.testBit layer
  · have := (and_BIT_eq_iff snapshot layer).not
    simp only [hb, Bool.false_eq_true, not_false_eq_true, iff_true] at this
    simpa using this
  · simpa using (and_BIT_eq_iff snapshot layer).2 hb

theorem position_state_changed_loop_eq_cascade (env : Env) (cfg : Config)
    (source position : Nat) (pressed : Bool) (timestamp : Int) (n : Nat) (hn : n ≤ 256) :
    ∀ s : KeymapState,
      zmk_keymap_position_state_changed_loop env cfg source position pressed timestamp n s =
        cascade env cfg source position pressed timestamp
          ((List.range n).reverse.filter
            (fun layer => decide (_zmk_keymap_layer_default ≤ layer) &&
              ((s.zmk_keymap_active_behavior_layer position).testBit layer ||
                decide (layer = _zmk_keymap_layer_default)))) s := by
  induction n with
  | zero => intro s; rfl
  | succ layer ih =>
    intro s
    have hlt : layer < 256 := by omega
    have hdef : ¬ layer < _zmk_keymap_layer_default := by
      simp [_zmk_keymap_layer_default]
    have hdef2 : _zmk_keymap_layer_default ≤ layer := by
      simp [_zmk_keymap_layer_default]
    rw [List.range_succ, List.reverse_append, List.reverse_singleton, List.singleton_append,
      List.filter_cons]
    unfold zmk_keymap_position_state_changed_loop
    simp only [hdef, if_false, layer_active_with_state_eq layer _ hlt, hdef2, decide_True,
      Bool.true_and]
    by_cases hc : ((s.zmk_keymap_active_behavior_layer position).testBit layer ||
        decide (layer = _zmk_keymap_layer_default)) = true
    · simp only [hc, if_true]
      unfold cascade
      simp only
      have hframe := (apply_position_state_same_tables env cfg source layer position pressed
        timestamp s).1
      by_cases hr : (zmk_keymap_apply_position_state env cfg source layer position pressed
          timestamp s).1 > 0
      · simp only [hr, if_true]
        rw [ih (by omega), hframe]
      · simp only [hr, if_false, ite_self]
    · simp only [hc, if_false, Bool.false_eq_true]
      exact ih (by omega) s

theorem candidate_layers_sorted (cfg : Config) (snapshot : Nat) :
    (candidate_layers cfg snapshot).Pairwise (fun a b => a > b) := by
  unfold candidate_layers
  apply List.Pairwise.filter
  rw [List.pairwise_reverse]
  exact List.pairwise_lt_range _

theorem mem_candidate_layers (cfg : Config) (snapshot layer : Nat) :
    layer ∈ candidate_layers cfg snapshot ↔
      (_zmk_keymap_layer_default ≤ layer ∧ layer < cfg.ZMK_KEYMAP_LAYERS_LEN ∧
        (snapshot.testBit layer = true ∨ layer = _zmk_keymap_layer_default)) := by
  unfold candidate_layers
  simp only [List.mem_filter, List.mem_reverse, List.mem_range, Bool.and_eq_true,
    Bool.or_eq_true, decide_eq_true_eq]
  tauto

theorem position_state_changed_eq_cascade (env : Env) (cfg : Config) (source p : Nat)
    (pressed : Bool) (timestamp : Int) (s : KeymapState)
    (hL : cfg.ZMK_KEYMAP_LAYERS_LEN ≤ 32) (hp : p < cfg.ZMK_KEYMAP_LEN)
    (hp32 : p < 4294967296) :
    zmk_keymap_position_state_changed env cfg source p pressed timestamp s =
      some (cascade env cfg (to_uint8_t source) p pressed timestamp
        (candidate_layers cfg
          (if pressed then s._zmk_keymap_layer_state
            else s.zmk_keymap_active_behavior_layer p))
        (if pressed then
          { s with
            zmk_keymap_active_behavior_layer :=
              array_set s.zmk_keymap_active_behavior_layer p s._zmk_keymap_layer_state }
          else s)) := by
  have hp' : to_uint32_t p = p := Nat.mod_eq_of_lt hp32
  have hnot : ¬ (p ≥ cfg.ZMK_KEYMAP_LEN ∧ (pressed = true ∨ 0 < cfg.ZMK_KEYMAP_LAYERS_LEN)) := by
    intro hc; omega
  unfold zmk_keymap_position_state_changed
  simp only [hp', hnot, if_false]
  rw [position_state_changed_loop_eq_cascade env cfg _ _ _ _ _ (by omega)]
  cases pressed
  · rfl
  · simp [candidate_layers, array_set]

theorem position_state_changed_loop_same_tables (env : Env) (cfg : Config)
    (source position : Nat) (pressed : Bool) (timestamp : Int) (n : Nat) :
    ∀ s : KeymapState, same_tables s
      (zmk_keymap_position_state_changed_loop env cfg source position pressed timestamp
        n s).2 := by
  induction n with
  | zero => intro s; exact same_tables_refl s
  | succ layer ih =>
    intro s
    unfold zmk_keymap_position_state_changed_loop
    simp only
    split_ifs
    · exact same_tables_refl s
    · exact same_tables_trans (apply_position_state_same_tables env cfg _ _ _ _ _ s) (ih _)
    · exact apply_position_state_same_tables env cfg _ _ _ _ _ s
    · exact apply_position_state_same_tables env cfg _ _ _ _ _ s
    · exact ih s

theorem keymap_call_keeps_press_memory (env : Env) (cfg : Config) (p : Nat) (c : KeymapCall)
    (s : KeymapState) (hc : c.leaves_position cfg p = true) :
    ∃ t, c.run env cfg s = some t ∧
      t.zmk_keymap_active_behavior_layer p = s.zmk_keymap_active_behavior_layer p := by
  cases c with
  | layer c =>
    exact ⟨_, rfl, by rw [(layer_call_same_tables env cfg c s).1]⟩
  | position_state_changed source position pressed timestamp =>
    simp only [KeymapCall.leaves_position, Bool.and_eq_true, decide_eq_true_eq,
      Bool.not_eq_true', decide_eq_false_iff_not] at hc
    have hnot : ¬ (to_uint32_t position ≥ cfg.ZMK_KEYMAP_LEN ∧
        (pressed = true ∨ 0 < cfg.ZMK_KEYMAP_LAYERS_LEN)) := by
      intro h; omega
    simp only [KeymapCall.run, zmk_keymap_position_state_changed, hnot, if_false, Option.map_some']
    refine ⟨_, rfl, ?_⟩
    rw [(position_state_changed_loop_same_tables env cfg _ _ _ _ _ _).1]
    cases pressed
    · rfl
    · have hne : ¬ p = to_uint32_t position := fun h => hc.2 h.symm
      simp [array_set, hne]

theorem run_keymap_calls_keeps_press_memory (env : Env) (cfg : Config) (p : Nat)
    (calls : List KeymapCall) :
    ∀ s : KeymapState, calls.all (fun c => c.leaves_position cfg p) = true →
      ∃ t, run_keymap_calls env cfg calls s = some t ∧
        t.zmk_keymap_active_behavior_layer p = s.zmk_keymap_active_behavior_layer p := by
  induction calls with
  | nil => intro s _; exact ⟨s, rfl, rfl⟩
  | cons c cs ih =>
    intro s h
    simp only [List.all_cons, Bool.and_eq_true] at h
    obtain ⟨t, ht, hm⟩ := keymap_call_keeps_press_memory env cfg p c s h.1
    obtain ⟨u, hu, hm2⟩ := ih t h.2
    refine ⟨u, ?_, hm2.trans hm⟩
    simp only [run_keymap_calls, ht]
    exact hu

/-- Claim C2: for a key position `p < K` (with at most 32 layers, the width of
the layer mask), a press of `p` dispatched while the live layer state is `S`
returns, any following sequence of layer calls and of events on other key
positions returns, and in the state reached the press memory of `p` still
holds `S`, so that the release of `p` is the cascade over the candidate
layers of `S` (the layers from `L - 1` down to the default whose bit is set
in `S`, and the default layer), whatever the live layer state is by then. -/
theorem release_uses_press_snapshot (env : Env) (cfg : Config) (p : Nat)
    (hL : cfg.ZMK_KEYMAP_LAYERS_LEN ≤ 32) (hp : p < cfg.ZMK_KEYMAP_LEN) (hp32 : p < 4294967296)
    (source : Nat) (timestamp : Int) (s0 : KeymapState) (calls : List KeymapCall)
    (hcalls : calls.all (fun c => c.leaves_position cfg p) = true)
    (source2 : Nat) (timestamp2 : Int) :
    ∃ r1 s2,
      zmk_keymap_position_state_changed env cfg source p true timestamp s0 = some r1 ∧
      run_keymap_calls env cfg calls r1.2 = some s2 ∧
      s2.zmk_keymap_active_behavior_layer p = zmk_keymap_layer_state s0 ∧
      zmk_keymap_position_state_changed env cfg source2 p false timestamp2 s2 =
        some (cascade env cfg (to_uint8_t source2) p false timestamp2
          (candidate_layers cfg (zmk_keymap_layer_state s0)) s2) ∧
      ∀ layer, layer ∈ candidate_layers cfg (zmk_keymap_layer_state s0) ↔
        (_zmk_keymap_layer_default ≤ layer ∧ layer < cfg.ZMK_KEYMAP_LAYERS_LEN ∧
          ((zmk_keymap_layer_state s0).testBit layer = true ∨
            layer = _zmk_keymap_layer_default)) := by
  have hpress := position_state_changed_eq_cascade env cfg source p true timestamp s0 hL hp hp32
  simp only [if_true] at hpress
  obtain ⟨s2, hrun, hmem⟩ := run_keymap_calls_keeps_press_memory env cfg p calls _ hcalls
  refine ⟨_, s2, hpress, hrun, ?_, ?_, mem_candidate_layers cfg _⟩
  · rw [hmem, (cascade_same_tables env cfg _ _ _ _ _ _).1]
    simp [array_set, zmk_keymap_layer_state]
  · have hrel := position_state_changed_eq_cascade env cfg source2 p false timestamp2 s2 hL hp
      hp32
    simp only [Bool.false_eq_true, if_false] at hrel
    rw [hrel, hmem, (cascade_same_tables env cfg _ _ _ _ _ _).1]
    simp [array_set, zmk_keymap_layer_state]

/-- Instance of `release_uses_press_snapshot`: position 2 is pressed while
layer 1 is active, layer 1 is deactivated and position 0 is pressed and
released, and the press memory of position 2 still holds the mask `0b10`. -/
theorem release_uses_press_snapshot_witness :
    ∃ s2,
      run_keymap_calls two_behavior_env (plain_config 2 4)
        [KeymapCall.layer (LayerCall.zmk_keymap_layer_activate 1),
          KeymapCall.position_state_changed 255 2 true 10,
          KeymapCall.layer (LayerCall.zmk_keymap_layer_deactivate 1),
          KeymapCall.position_state_changed 255 0 true 11,
          KeymapCall.position_state_changed 255 0 false 12]
        (initial_state two_layer_keymap) = some s2 ∧
      s2.zmk_keymap_active_behavior_layer 2 = 2 := by
  obtain ⟨r1, s2, h1, h2, h3, -⟩ :=
    release_uses_press_snapshot two_behavior_env (plain_config 2 4) 2 (by decide) (by decide)
      (by decide) 255 10
      (zmk_keymap_layer_activate two_behavior_env (plain_config 2 4) 1
        (initial_state two_layer_keymap)).2
      [KeymapCall.layer (LayerCall.zmk_keymap_layer_deactivate 1),
        KeymapCall.position_state_changed 255 0 true 11,
        KeymapCall.position_state_changed 255 0 false 12]
      (by decide) 255 20
  refine ⟨s2, ?_, h3⟩
  simp only [run_keymap_calls, KeymapCall.run, LayerCall.run, h1, Option.map_some']
  exact h2

/-- Claim C3: for an event on a key position `p < K` (with at most 32 layers,
the width of the layer mask), `zmk_keymap_position_state_changed` returns the
result of the cascade over the candidate layers of the press memory of `p`
(the live layer state if the event is a press); the candidates are in
strictly decreasing order, and are the layers from `L - 1` down to the
default whose bit is set in the press memory, and the default layer; a
candidate whose binding resolves to no behavior yields the positive value 1;
a positive value passes the event on to the next lower candidate, the first
value that is zero or negative is returned with no lower layer applied, and
with no candidate left the result is `-ENOTSUP`. -/
theorem dispatch_is_cascade (env : Env) (cfg : Config) (source p : Nat) (pressed : Bool)
    (timestamp : Int) (s : KeymapState)
    (hL : cfg.ZMK_KEYMAP_LAYERS_LEN ≤ 32) (hp : p < cfg.ZMK_KEYMAP_LEN)
    (hp32 : p < 4294967296) :
    zmk_keymap_position_state_changed env cfg source p pressed timestamp s =
        some (cascade env cfg (to_uint8_t source) p pressed timestamp
          (candidate_layers cfg
            (if pressed then s._zmk_keymap_layer_state
              else s.zmk_keymap_active_behavior_layer p))
          (if pressed then
            { s with
              zmk_keymap_active_behavior_layer :=
                array_set s.zmk_keymap_active_behavior_layer p s._zmk_keymap_layer_state }
            else s)) ∧
      (∀ snapshot, (candidate_layers cfg snapshot).Pairwise (fun a b => a > b)) ∧
      (∀ snapshot layer, layer ∈ candidate_layers cfg snapshot ↔
        (_zmk_keymap_layer_default ≤ layer ∧ layer < cfg.ZMK_KEYMAP_LAYERS_LEN ∧
          (snapshot.testBit layer = true ∨ layer = _zmk_keymap_layer_default))) ∧
      (∀ layer t, zmk_behavior_get_binding env (t.zmk_keymap layer p).behavior_dev = none →
        zmk_keymap_apply_position_state env cfg (to_uint8_t source) layer p pressed timestamp t =
          (1, t)) ∧
      (∀ layer t behavior,
        zmk_behavior_get_binding env (t.zmk_keymap layer p).behavior_dev = some behavior →
        (env.behavior_keymap_binding_convert_central_state_dependent_params t
          (t.zmk_keymap layer p) { layer := layer, position := p, timestamp := timestamp }).1 = 0 →
        env.behavior_get_locality t behavior =
          (0, behavior_locality.BEHAVIOR_LOCALITY_CENTRAL) →
        (zmk_keymap_apply_position_state env cfg (to_uint8_t source) layer p pressed
          timestamp t).1 =
          if pressed then
            (env.behavior_keymap_binding_pressed t
              (env.behavior_keymap_binding_convert_central_state_dependent_params t
                (t.zmk_keymap layer p)
                { layer := layer, position := p, timestamp := timestamp }).2
              { layer := layer, position := p, timestamp := timestamp }).1
          else
            (env.behavior_keymap_binding_released t
              (env.behavior_keymap_binding_convert_central_state_dependent_params t
                (t.zmk_keymap layer p)
                { layer := layer, position := p, timestamp := timestamp }).2
              { layer := layer, position := p, timestamp := timestamp }).1) ∧
      (∀ t, cascade env cfg (to_uint8_t source) p pressed timestamp [] t = (-ENOTSUP, t)) ∧
      (∀ layer lower t,
        (zmk_keymap_apply_position_state env cfg (to_uint8_t source) layer p pressed
          timestamp t).1 > 0 →
        cascade env cfg (to_uint8_t source) p pressed timestamp (layer :: lower) t =
          cascade env cfg (to_uint8_t source) p pressed timestamp lower
            (zmk_keymap_apply_position_state env cfg (to_uint8_t source) layer p pressed
              timestamp t).2) ∧
      (∀ layer lower t,
        (zmk_keymap_apply_position_state env cfg (to_uint8_t source) layer p pressed
          timestamp t).1 ≤ 0 →
        cascade env cfg (to_uint8_t source) p pressed timestamp (layer :: lower) t =
          zmk_keymap_apply_position_state env cfg (to_uint8_t source) layer p pressed
            timestamp t) := by
  refine ⟨position_state_changed_eq_cascade env cfg source p pressed timestamp s hL hp hp32,
    candidate_layers_sorted cfg, mem_candidate_layers cfg, ?_, ?_, fun t => rfl, ?_, ?_⟩
  · intro layer t h
    have hp' : to_uint32_t p = p := Nat.mod_eq_of_lt hp32
    unfold zmk_keymap_apply_position_state
    simp only [hp', h]
  · intro layer t behavior hb hconv hloc
    have hp' : to_uint32_t p = p := Nat.mod_eq_of_lt hp32
    unfold zmk_keymap_apply_position_state
    simp only [hp', hb, hconv, hloc, ne_eq, not_true_eq_false, if_false]
    unfold invoke_locally
    cases pressed <;> simp
  · intro layer lower t h
    rw [cascade]
    simp only [h, if_true]
  · intro layer lower t h
    rw [cascade]
    have : ¬ (zmk_keymap_apply_position_state env cfg (to_uint8_t source) layer p pressed
        timestamp t).1 > 0 := by omega
    simp only [this, if_false]

/-! ### Persistence of bindings -/

theorem of_le_bytes_le_bytes_2 (n : Nat) : of_le_bytes (le_bytes 2 n) = n % 65536 := by
  simp only [le_bytes, of_le_bytes]
  omega

theorem of_le_bytes_le_bytes_4 (n : Nat) : of_le_bytes (le_bytes 4 n) = n % 4294967296 := by
  simp only [le_bytes, of_le_bytes]
  omega

theorem bytes_length (b : zmk_behavior_binding_setting) :
    b.bytes.length = sizeof_zmk_behavior_binding_setting := by
  simp [zmk_behavior_binding_setting.bytes, le_bytes, sizeof_zmk_behavior_binding_setting,
    sizeof_zmk_behavior_local_id_t]

theorem binding_setting_len_cases (b : zmk_behavior_binding_setting) :
    binding_setting_len b =
      if b.param2 ≠ 0 then 10 else if b.param1 ≠ 0 then 6 else 2 := by
  unfold binding_setting_len
  simp only [sizeof_zmk_behavior_binding_setting, sizeof_zmk_behavior_local_id_t]
  split_ifs <;> first | rfl | contradiction

theorem setting_value_length (env : Env) (binding : zmk_behavior_binding) :
    (setting_value env binding).length =
      if to_uint32_t binding.param2 ≠ 0 then 10
      else if to_uint32_t binding.param1 ≠ 0 then 6 else 2 := by
  unfold setting_value
  rw [List.length_take, bytes_length, binding_setting_len_cases]
  simp only [binding_setting_of, sizeof_zmk_behavior_binding_setting,
    sizeof_zmk_behavior_local_id_t]
  split_ifs <;> rfl

theorem of_bytes_saved (b : zmk_behavior_binding_setting) (hid : b.behavior_local_id < 65536)
    (h1 : b.param1 < 4294967296) (h2 : b.param2 < 4294967296) :
    zmk_behavior_binding_setting.of_bytes
      (binding_setting_memory (binding_setting_len b) (b.bytes.take (binding_setting_len b))) =
        b := by
  obtain ⟨id, p1, p2⟩ := b
  simp only at hid h1 h2
  rw [binding_setting_len_cases]
  simp only [zmk_behavior_binding_setting.bytes, zmk_behavior_binding_setting.of_bytes,
    binding_setting_memory, sizeof_zmk_behavior_binding_setting, sizeof_zmk_behavior_local_id_t,
    le_bytes]
  by_cases hp2 : p2 = 0
  · by_cases hp1 : p1 = 0
    · subst hp1 hp2
      simp [of_le_bytes, List.replicate]
      omega
    · subst hp2
      simp [hp1, of_le_bytes, List.replicate]
      constructor <;> omega
  · simp [hp2, of_le_bytes, List.replicate]
    refine ⟨?_, ?_, ?_⟩ <;> omega

theorem digit_char_isDigit (d : Nat) (h : d < 10) : (digit_char d).isDigit = true := by
  unfold digit_char
  interval_cases d <;> rfl

theorem digit_char_value (d : Nat) (h : d < 10) : (digit_char d).toNat - 48 = d := by
  unfold digit_char
  interval_cases d <;> rfl

theorem sprintf_d_fuel_digits (fuel : Nat) :
    ∀ n, ∀ c ∈ sprintf_d_fuel fuel n, c.isDigit = true := by
  induction fuel with
  | zero => intro n c hc; simp [sprintf_d_fuel] at hc
  | succ f ih =>
    intro n c hc
    unfold sprintf_d_fuel at hc
    split_ifs at hc with h
    · simp only [List.mem_singleton] at hc
      rw [hc]; exact digit_char_isDigit n h
    · simp only [List.mem_append, List.mem_singleton] at hc
      rcases hc with hc | hc
      · exact ih _ c hc
      · rw [hc]; exact digit_char_isDigit _ (Nat.mod_lt _ (by norm_num))

theorem sprintf_d_fuel_ne_nil (fuel n : Nat) : sprintf_d_fuel (fuel + 1) n ≠ [] := by
  unfold sprintf_d_fuel
  split_ifs <;> simp

theorem strtoul_digits_append (ds : List Char) (rest : List Char)
    (hds : ∀ c ∈ ds, c.isDigit = true) (hrest : ∀ c, rest.head? = some c → c.isDigit = false) :
    ∀ acc, strtoul_digits (ds ++ rest) acc =
      (ds.foldl (fun a c => a * 10 + (c.toNat - 48)) acc, rest) := by
  induction ds with
  | nil =>
    intro acc
    cases rest with
    | nil => rfl
    | cons c cs =>
      have := hrest c rfl
      simp [strtoul_digits, this]
  | cons d ds ih =>
    intro acc
    have hd : d.isDigit = true := hds d (List.mem_cons_self _ _)
    simp only [List.cons_append, strtoul_digits, hd, if_true, List.foldl_cons]
    exact ih (fun c hc => hds c (List.mem_cons_of_mem _ hc)) _

theorem sprintf_d_fuel_value (fuel : Nat) :
    ∀ n, n < fuel → (sprintf_d_fuel fuel n).foldl (fun a c => a * 10 + (c.toNat - 48)) 0 = n := by
  induction fuel with
  | zero => intro n h; omega
  | succ f ih =>
    intro n h
    unfold sprintf_d_fuel
    split_ifs with h10
    · simp [digit_char_value n h10]
    · rw [List.foldl_append, ih (n / 10) (by omega)]
      simp only [List.foldl_cons, List.foldl_nil]
      rw [digit_char_value _ (Nat.mod_lt _ (by norm_num))]
      omega

theorem isspace_not_digit (c : Char) (h : c.isDigit = true) : isspace c = false := by
  by_contra hs
  simp only [Bool.not_eq_false] at hs
  unfold isspace at hs
  simp only [Bool.or_eq_true, decide_eq_true_eq] at hs
  rcases hs with ((((rfl | rfl) | rfl) | rfl) | rfl) | rfl <;> exact absurd h (by decide)

theorem strtoul_of_digit (c : Char) (cs : List Char) (h : c.isDigit = true) :
    strtoul (c :: cs) =
      if (strtoul_digits (c :: cs) 0).1 > ULONG_MAX then
        (ULONG_MAX, (strtoul_digits (c :: cs) 0).2)
      else ((strtoul_digits (c :: cs) 0).1, (strtoul_digits (c :: cs) 0).2) := by
  have hm : c ≠ '-' := by rintro rfl; exact absurd h (by decide)
  have hpl : c ≠ '+' := by rintro rfl; exact absurd h (by decide)
  unfold strtoul
  simp only [List.dropWhile_cons, isspace_not_digit c h, Bool.false_eq_true, if_false]
  have hsign : strtoul_sign (c :: cs) = (false, c :: cs) := by
    unfold strtoul_sign
    split
    · rename_i heq; simp only [List.cons.injEq] at heq; exact absurd heq.1 hm
    · rename_i heq; simp only [List.cons.injEq] at heq; exact absurd heq.1 hpl
    · rfl
  simp only [hsign, h, if_true, Bool.false_eq_true, if_false]

theorem strtoul_sprintf_d (n : Nat) (rest : List Char)
    (hrest : ∀ c, rest.head? = some c → c.isDigit = false) :
    strtoul (sprintf_d n ++ rest) = (if n > ULONG_MAX then ULONG_MAX else n, rest) := by
  unfold sprintf_d
  have hne := sprintf_d_fuel_ne_nil n n
  have hdig := sprintf_d_fuel_digits (n + 1) n
  have hval := sprintf_d_fuel_value (n + 1) n (by omega)
  cases hds : sprintf_d_fuel (n + 1) n with
  | nil => exact absurd hds hne
  | cons c cs =>
    rw [hds] at hdig hval
    rw [List.cons_append, strtoul_of_digit c _ (hdig c (List.mem_cons_self _ _)),
      ← List.cons_append, strtoul_digits_append (c :: cs) rest hdig hrest, hval]
    split_ifs <;> rfl

theorem handler_name_eq (l kp : Nat) :
    handler_name l kp = 'l' :: '/' :: (sprintf_d l ++ '/' :: (sprintf_d kp ++ [])) := by
  simp [handler_name]

theorem setting_name_eq (l kp : Nat) :
    setting_name l kp = "keymap/".toList ++ handler_name l kp := by
  simp [setting_name, handler_name]

theorem keymap_handle_set_handler_name (env : Env) (cfg : Config) (l kp len : Nat)
    (read_cb : settings_read_cb) (s : KeymapState) :
    keymap_handle_set env cfg (handler_name l kp) len read_cb s =
      if len > sizeof_zmk_behavior_binding_setting then (-EINVAL, s)
      else if to_uint8_t (if l > ULONG_MAX then ULONG_MAX else l) ≥ cfg.ZMK_KEYMAP_LAYERS_LEN then
        (-EINVAL, s)
      else if to_uint8_t (if kp > ULONG_MAX then ULONG_MAX else kp) ≥ cfg.ZMK_KEYMAP_LEN then
        (-EINVAL, s)
      else if (read_cb len).1 ≤ 0 then ((read_cb len).1, s)
      else if (zmk_behavior_find_behavior_name_from_local_id env
          (zmk_behavior_binding_setting.of_bytes
            (binding_setting_memory len (read_cb len).2)).behavior_local_id).addr = 0 then
        (-ENODEV, s)
      else
        (0, { s with
          zmk_keymap := array_set2 s.zmk_keymap
            (to_uint8_t (if l > ULONG_MAX then ULONG_MAX else l))
            (to_uint8_t (if kp > ULONG_MAX then ULONG_MAX else kp))
            { behavior_dev := zmk_behavior_find_behavior_name_from_local_id env
                (zmk_behavior_binding_setting.of_bytes
                  (binding_setting_memory len (read_cb len).2)).behavior_local_id
              param1 := (zmk_behavior_binding_setting.of_bytes
                (binding_setting_memory len (read_cb len).2)).param1
              param2 := (zmk_behavior_binding_setting.of_bytes
                (binding_setting_memory len (read_cb len).2)).param2 } }) := by
  have hsteq : settings_name_steq (handler_name l kp) "l".toList =
      (true, some (sprintf_d l ++ '/' :: (sprintf_d kp ++ []))) := by
    rw [handler_name_eq]
    simp [settings_name_steq]
  have h1 : strtoul (sprintf_d l ++ '/' :: (sprintf_d kp ++ [])) =
      (if l > ULONG_MAX then ULONG_MAX else l, '/' :: (sprintf_d kp ++ [])) :=
    strtoul_sprintf_d l _ (by intro c hc; simp at hc; rw [← hc]; decide)
  have h2 : strtoul (sprintf_d kp ++ []) = (if kp > ULONG_MAX then ULONG_MAX else kp, []) :=
    strtoul_sprintf_d kp [] (by intro c hc; simp at hc)
  unfold keymap_handle_set
  rw [hsteq]
  simp only [h1, h2, List.head?_cons, List.tail_cons, ne_eq, not_true_eq_false, if_false]

theorem of_le_bytes_take_2_lt (m : List Nat) : of_le_bytes (m.take 2) < 65536 := by
  rcases m with _ | ⟨a, _ | ⟨b, r⟩⟩
  · simp [of_le_bytes]
  · simp only [List.take, of_le_bytes]; omega
  · simp only [List.take, of_le_bytes]; omega

theorem of_bytes_id_lt (m : List Nat) :
    (zmk_behavior_binding_setting.of_bytes m).behavior_local_id < 65536 := by
  simp only [zmk_behavior_binding_setting.of_bytes, sizeof_zmk_behavior_local_id_t]
  exact of_le_bytes_take_2_lt m

theorem to_uint8_t_saturated_le (n : Nat) :
    to_uint8_t (if n > ULONG_MAX then ULONG_MAX else n) ≤ n := by
  unfold to_uint8_t ULONG_MAX
  split_ifs <;> omega

theorem to_uint8_t_saturated_eq (n : Nat) (h : n < 256) :
    to_uint8_t (if n > ULONG_MAX then ULONG_MAX else n) = n := by
  unfold to_uint8_t ULONG_MAX
  split_ifs <;> omega

theorem find_name_unknown (env : Env) (id : Nat) (hid : id < 65536)
    (h : ∀ item ∈ env.zmk_behavior_local_id_maps, item.device.ready = true →
      item.local_id ≠ id) :
    zmk_behavior_find_behavior_name_from_local_id env id = NULL := by
  unfold zmk_behavior_find_behavior_name_from_local_id
  have hu : to_uint16_t id = id := Nat.mod_eq_of_lt hid
  simp only [hu]
  have hnone : env.zmk_behavior_local_id_maps.find?
      (fun item => item.device.ready && decide (item.local_id = id)) = none := by
    rw [List.find?_eq_none]
    intro item hitem
    simp only [Bool.and_eq_true, decide_eq_true_eq, not_and]
    exact fun hr => h item hitem hr
  rw [hnone]

theorem settings_value_read_self (value : List Nat) :
    settings_value_read value value.length = (((value.length : Nat) : Int), value) := by
  simp [settings_value_read]

/-- Claim C10: for a key `l/<layer>/<position>` with `layer < L` and
`position < K` and a stored record of 1 to 10 bytes (the size of the packed
record) whose `behavior_local_id` is the local ID of no ready behavior,
`keymap_handle_set` returns `-ENODEV` and leaves the whole state, every
keymap cell included, as it was. -/
theorem keymap_handle_set_unknown_id (env : Env) (cfg : Config) (l p : Nat)
    (value : List Nat) (s : KeymapState)
    (hl : l < cfg.ZMK_KEYMAP_LAYERS_LEN) (hp : p < cfg.ZMK_KEYMAP_LEN)
    (hpos : 0 < value.length) (hlen : value.length ≤ sizeof_zmk_behavior_binding_setting)
    (hunknown : ∀ item ∈ env.zmk_behavior_local_id_maps, item.device.ready = true →
      item.local_id ≠ (zmk_behavior_binding_setting.of_bytes
        (binding_setting_memory value.length value)).behavior_local_id) :
    keymap_handle_set env cfg (handler_name l p) value.length (settings_value_read value) s =
      (-ENODEV, s) := by
  rw [keymap_handle_set_handler_name, settings_value_read_self]
  have h1 : ¬ value.length > sizeof_zmk_behavior_binding_setting := by omega
  have h2 : ¬ to_uint8_t (if l > ULONG_MAX then ULONG_MAX else l) ≥
      cfg.ZMK_KEYMAP_LAYERS_LEN := by
    have := to_uint8_t_saturated_le l; omega
  have h3 : ¬ to_uint8_t (if p > ULONG_MAX then ULONG_MAX else p) ≥ cfg.ZMK_KEYMAP_LEN := by
    have := to_uint8_t_saturated_le p; omega
  have h4 : ¬ ((value.length : Nat) : Int) ≤ 0 := by omega
  simp only [h1, h2, h3, h4, if_false]
  rw [find_name_unknown env _ (of_bytes_id_lt _) hunknown]
  simp [NULL]

/-- Instance of `keymap_handle_set_unknown_id`: the scenario of local ID 9999
stored for cell `(0, 0)` while the behaviors have the local IDs 1 and 2. -/
theorem keymap_handle_set_unknown_id_witness :
    keymap_handle_set two_behavior_env (plain_config 2 4) (handler_name 0 0) [15, 39].length
        (settings_value_read [15, 39]) (initial_state two_layer_keymap) =
      (-ENODEV, initial_state two_layer_keymap) :=
  keymap_handle_set_unknown_id two_behavior_env (plain_config 2 4) 0 0 [15, 39] _ (by decide)
    (by decide) (by decide) (by decide) (by decide)

theorem find_name_known (env : Env) (id : Nat) (hid : id < 65536)
    (h : ∃ item ∈ env.zmk_behavior_local_id_maps, item.device.ready = true ∧
      item.local_id = id) :
    ∃ item ∈ env.zmk_behavior_local_id_maps, item.device.ready = true ∧ item.local_id = id ∧
      zmk_behavior_find_behavior_name_from_local_id env id = item.device.name := by
  unfold zmk_behavior_find_behavior_name_from_local_id
  have hu : to_uint16_t id = id := Nat.mod_eq_of_lt hid
  simp only [hu]
  cases hf : env.zmk_behavior_local_id_maps.find?
      (fun item => item.device.ready && decide (item.local_id = id)) with
  | none =>
    rw [List.find?_eq_none] at hf
    obtain ⟨item, hitem, hr, hi⟩ := h
    exact absurd (by simp [hr, hi]) (hf item hitem)
  | some item =>
    have hp := List.find?_some hf
    simp only [Bool.and_eq_true, decide_eq_true_eq] at hp
    exact ⟨item, List.mem_of_find?_eq_some hf, hp.1, hp.2, rfl⟩

theorem length_succ_split {α : Type} (xs : List α) (n : Nat) (h : xs.length = n + 1) :
    ∃ a r, xs = a :: r ∧ r.length = n := by
  cases xs with
  | nil => simp at h
  | cons a r => exact ⟨a, r, rfl, by simpa using h⟩

theorem of_bytes_memory_record (value : List Nat)
    (hlen : value.length = 2 ∨ value.length = 6 ∨ value.length = 10) :
    zmk_behavior_binding_setting.of_bytes (binding_setting_memory value.length value) =
      { behavior_local_id := of_le_bytes (value.take 2)
        param1 := of_le_bytes ((value.drop 2).take 4)
        param2 := of_le_bytes ((value.drop 6).take 4) } := by
  rcases hlen with h | h | h
  ·
    obtain ⟨a0, r0, rfl, h0⟩ := length_succ_split value _ h
    obtain ⟨a1, r1, rfl, h1⟩ := length_succ_split r0 _ h0
    obtain rfl := List.eq_nil_of_length_eq_zero h1
    simp [zmk_behavior_binding_setting.of_bytes, binding_setting_memory,
      sizeof_zmk_behavior_binding_setting, sizeof_zmk_behavior_local_id_t, of_le_bytes,
      List.replicate]
  ·
    obtain ⟨a0, r0, rfl, h0⟩ := length_succ_split value _ h
    obtain ⟨a1, r1, rfl, h1⟩ := length_succ_split r0 _ h0
    obtain ⟨a2, r2, rfl, h2⟩ := length_succ_split r1 _ h1
    obtain ⟨a3, r3, rfl, h3⟩ := length_succ_split r2 _ h2
    obtain ⟨a4, r4, rfl, h4⟩ := length_succ_split r3 _ h3
    obtain ⟨a5, r5, rfl, h5⟩ := length_succ_split r4 _ h4
    obtain rfl := List.eq_nil_of_length_eq_zero h5
    simp [zmk_behavior_binding_setting.of_bytes, binding_setting_memory,
      sizeof_zmk_behavior_binding_setting, sizeof_zmk_behavior_local_id_t, of_le_bytes,
      List.replicate]
  ·
    obtain ⟨a0, r0, rfl, h0⟩ := length_succ_split value _ h
    obtain ⟨a1, r1, rfl, h1⟩ := length_succ_split r0 _ h0
    obtain ⟨a2, r2, rfl, h2⟩ := length_succ_split r1 _ h1
    obtain ⟨a3, r3, rfl, h3⟩ := length_succ_split r2 _ h2
    obtain ⟨a4, r4, rfl, h4⟩ := length_succ_split r3 _ h3
    obtain ⟨a5, r5, rfl, h5⟩ := length_succ_split r4 _ h4
    obtain ⟨a6, r6, rfl, h6⟩ := length_succ_split r5 _ h5
    obtain ⟨a7, r7, rfl, h7⟩ := length_succ_split r6 _ h6
    obtain ⟨a8, r8, rfl, h8⟩ := length_succ_split r7 _ h7
    obtain ⟨a9, r9, rfl, h9⟩ := length_succ_split r8 _ h8
    obtain rfl := List.eq_nil_of_length_eq_zero h9
    simp [zmk_behavior_binding_setting.of_bytes, binding_setting_memory,
      sizeof_zmk_behavior_binding_setting, sizeof_zmk_behavior_local_id_t, of_le_bytes,
      List.replicate]

theorem of_le_bytes_drop_take_short (value : List Nat) (k : Nat) (h : value.length ≤ k) :
    of_le_bytes ((value.drop k).take 4) = 0 := by
  rw [List.drop_eq_nil_of_le h]
  rfl

/-- Claim C9, as the code has it: `keymap_handle_set` accepts a stored record
of each of the lengths 2, 6 and 10 bytes (the packed record and its two
trimmed forms): for a key `l/<l>/<p>` of a cell addressable by `uint8_t`
indices with `l < L` and `p < K`, and a record of one of these lengths whose
local ID (its first two bytes) is that of a ready behavior with a non-null
name, it returns 0 and sets cell `(l, p)` to the name that local ID resolves
to, a ready behavior with that ID, with `param1` read from bytes 2-5 and
`param2` from bytes 6-9 of the record, each 0 when the record ends before
it; every other cell is as before. -/
theorem keymap_handle_set_accepts_record (env : Env) (cfg : Config) (l p : Nat)
    (value : List Nat) (s : KeymapState)
    (hl : l < cfg.ZMK_KEYMAP_LAYERS_LEN) (hp : p < cfg.ZMK_KEYMAP_LEN)
    (hl8 : l < 256) (hp8 : p < 256)
    (hlen : value.length = 2 ∨ value.length = 6 ∨ value.length = 10)
    (hknown : ∃ item ∈ env.zmk_behavior_local_id_maps, item.device.ready = true ∧
      item.local_id = of_le_bytes (value.take 2))
    (hnames : ∀ item ∈ env.zmk_behavior_local_id_maps, item.device.name.addr ≠ 0) :
    (keymap_handle_set env cfg (handler_name l p) value.length (settings_value_read value)
        s).1 = 0 ∧
      (∃ item ∈ env.zmk_behavior_local_id_maps, item.device.ready = true ∧
        item.local_id = of_le_bytes (value.take 2) ∧
        (keymap_handle_set env cfg (handler_name l p) value.length (settings_value_read value)
          s).2.zmk_keymap l p =
          { behavior_dev := item.device.name
            param1 := of_le_bytes ((value.drop 2).take 4)
            param2 := of_le_bytes ((value.drop 6).take 4) }) ∧
      (value.length = 2 → of_le_bytes ((value.drop 2).take 4) = 0) ∧
      (value.length ≤ 6 → of_le_bytes ((value.drop 6).take 4) = 0) ∧
      (∀ l2 p2, (l2, p2) ≠ (l, p) →
        (keymap_handle_set env cfg (handler_name l p) value.length (settings_value_read value)
          s).2.zmk_keymap l2 p2 = s.zmk_keymap l2 p2) := by
  have hsz : sizeof_zmk_behavior_binding_setting = 10 := rfl
  obtain ⟨item, hitem, hready, hid, hfind⟩ :=
    find_name_known env _ (of_le_bytes_take_2_lt value) hknown
  rw [keymap_handle_set_handler_name, settings_value_read_self, of_bytes_memory_record value hlen]
  have h1 : ¬ value.length > sizeof_zmk_behavior_binding_setting := by omega
  have h2 : ¬ l ≥ cfg.ZMK_KEYMAP_LAYERS_LEN := by omega
  have h3 : ¬ p ≥ cfg.ZMK_KEYMAP_LEN := by omega
  have h4 : ¬ ((value.length : Nat) : Int) ≤ 0 := by omega
  have h5 : ¬ item.device.name.addr = 0 := hnames item hitem
  simp only [to_uint8_t_saturated_eq l hl8, to_uint8_t_saturated_eq p hp8, h1, h2, h3, h4,
    if_false, hfind, h5]
  refine ⟨trivial, ⟨item, hitem, hready, hid, ?_⟩, ?_, ?_, ?_⟩
  · simp [array_set2]
  · intro h; exact of_le_bytes_drop_take_short value 2 (by omega)
  · intro h; exact of_le_bytes_drop_take_short value 6 h
  · intro l2 p2 hne
    have : ¬ (l2 = l ∧ p2 = p) := fun hc => hne (by rw [hc.1, hc.2])
    simp [array_set2, this]

/-- Instance of `keymap_handle_set_accepts_record`: the 6-byte record of
behavior `A` (local ID 1) with `param1 = 42` loaded into cell `(1, 3)`. -/
theorem keymap_handle_set_accepts_record_witness :
    (keymap_handle_set two_behavior_env (plain_config 2 4) (handler_name 1 3)
        [1, 0, 42, 0, 0, 0].length (settings_value_read [1, 0, 42, 0, 0, 0])
        (initial_state two_layer_keymap)).1 = 0 :=
  (keymap_handle_set_accepts_record two_behavior_env (plain_config 2 4) 1 3
    [1, 0, 42, 0, 0, 0] (initial_state two_layer_keymap) (by decide) (by decide) (by decide)
    (by decide) (by decide) ⟨{ device := device_A, local_id := 1 }, by decide, by decide,
      by decide⟩ (by decide)).1

/-- Claim C9 fails as stated: handed the 12-byte record of the ready behavior
`A` (local ID 1) for the in-range key `l/1/3`, `keymap_handle_set` returns
`-EINVAL` and leaves cell `(1, 3)` as it was; the 8-byte record of the same
behavior is accepted, and its bytes 2-5 become `param1`. -/
theorem keymap_handle_set_rejects_12_bytes :
    (keymap_handle_set two_behavior_env (plain_config 2 4) (handler_name 1 3) 12
        (settings_value_read [1, 0, 0, 0, 42, 0, 0, 0, 0, 0, 0, 0])
        (initial_state two_layer_keymap)).1 = -EINVAL ∧
      (keymap_handle_set two_behavior_env (plain_config 2 4) (handler_name 1 3) 12
        (settings_value_read [1, 0, 0, 0, 42, 0, 0, 0, 0, 0, 0, 0])
        (initial_state two_layer_keymap)).2.zmk_keymap 1 3 =
        (initial_state two_layer_keymap).zmk_keymap 1 3 ∧
      (keymap_handle_set two_behavior_env (plain_config 2 4) (handler_name 1 3) 8
        (settings_value_read [1, 0, 0, 0, 42, 0, 0, 0])
        (initial_state two_layer_keymap)).2.zmk_keymap 1 3 =
        { behavior_dev := device_A.name, param1 := 2752512, param2 := 0 } := by
  decide

theorem layer_save_calls_congr (env : Env) (s t : KeymapState) (l : Nat) (kps : List Nat)
    (hk : t.zmk_keymap = s.zmk_keymap)
    (hpend : t.zmk_keymap_layer_pending_changes l = s.zmk_keymap_layer_pending_changes l) :
    layer_save_calls env t l kps = layer_save_calls env s l kps := by
  unfold layer_save_calls save_call pending_bit
  rw [hk, hpend]

theorem layer_save_calls_cons (env : Env) (s : KeymapState) (l kp : Nat) (rest : List Nat) :
    layer_save_calls env s l (kp :: rest) =
      (if pending_bit s l kp = true then [save_call env s l kp] else []) ++
        layer_save_calls env s l rest := by
  unfold layer_save_calls
  rw [List.filter_cons]
  split_ifs <;> simp

theorem save_cells_fold (env : Env) (l : Nat) (kps : List Nat) :
    ∀ s : KeymapState,
      kps.foldl (zmk_keymap_save_changes_cell env l) s =
        { s with trace := s.trace ++ layer_save_calls env s l kps } := by
  induction kps with
  | nil => intro s; simp [layer_save_calls]
  | cons kp rest ih =>
    intro s
    rw [List.foldl_cons, ih, layer_save_calls_cons]
    unfold zmk_keymap_save_changes_cell
    by_cases hpend : pending_bit s l kp = true
    · simp only [hpend, if_true, List.append_assoc, save_call]
      congr 3
    · simp only [hpend, if_false, Bool.false_eq_true, List.nil_append]

theorem save_layers_fold (env : Env) (cfg : Config) (ls : List Nat) (hnd : ls.Nodup) :
    ∀ s : KeymapState,
      (ls.foldl (zmk_keymap_save_changes_layer env cfg) s).trace =
          s.trace ++ save_calls env s (List.range cfg.ZMK_KEYMAP_LEN) ls ∧
        (ls.foldl (zmk_keymap_save_changes_layer env cfg) s).zmk_keymap = s.zmk_keymap ∧
        (∀ l, l ∉ ls →
          (ls.foldl (zmk_keymap_save_changes_layer env cfg) s).zmk_keymap_layer_pending_changes l =
            s.zmk_keymap_layer_pending_changes l) := by
  induction ls with
  | nil => intro s; simp [save_calls]
  | cons l rest ih =>
    intro s
    rw [List.nodup_cons] at hnd
    have hstep : zmk_keymap_save_changes_layer env cfg s l =
        { s with
          trace := s.trace ++ layer_save_calls env s l (List.range cfg.ZMK_KEYMAP_LEN)
          zmk_keymap_layer_pending_changes :=
            array_set2 s.zmk_keymap_layer_pending_changes l 0 0 } := by
      unfold zmk_keymap_save_changes_layer
      rw [save_cells_fold]
    obtain ⟨ht, hk, hp⟩ := ih hnd.2 (zmk_keymap_save_changes_layer env cfg s l)
    rw [List.foldl_cons]
    refine ⟨?_, ?_, ?_⟩
    · rw [ht, hstep]
      simp only [save_calls, List.append_assoc]
      congr 2
      have hcongr : ∀ (ls2 : List Nat), l ∉ ls2 →
          save_calls env
            { s with
              trace := s.trace ++ layer_save_calls env s l (List.range cfg.ZMK_KEYMAP_LEN)
              zmk_keymap_layer_pending_changes :=
                array_set2 s.zmk_keymap_layer_pending_changes l 0 0 }
            (List.range cfg.ZMK_KEYMAP_LEN) ls2 =
          save_calls env s (List.range cfg.ZMK_KEYMAP_LEN) ls2 := by
        intro ls2
        induction ls2 with
        | nil => intro _; rfl
        | cons l2 r2 ih2 =>
          intro hnot
          simp only [List.mem_cons, not_or] at hnot
          simp only [save_calls]
          rw [ih2 hnot.2]
          congr 1
          apply layer_save_calls_congr
          · rfl
          · funext j
            have : ¬ l2 = l := fun h => hnot.1 h.symm
            simp [array_set2, this]
      exact hcongr rest hnd.1
    · rw [hk, hstep]
    · intro l2 hl2
      simp only [List.mem_cons, not_or] at hl2
      rw [hp l2 hl2.2, hstep]
      funext j
      simp [array_set2, hl2.1]

theorem mem_layer_save_calls (env : Env) (s : KeymapState) (l : Nat) (kps : List Nat)
    (c : ExtCall) :
    c ∈ layer_save_calls env s l kps ↔
      ∃ kp ∈ kps, pending_bit s l kp = true ∧ c = save_call env s l kp := by
  unfold layer_save_calls
  simp only [List.mem_map, List.mem_filter]
  constructor
  · rintro ⟨kp, ⟨hk, hp⟩, rfl⟩; exact ⟨kp, hk, hp, rfl⟩
  · rintro ⟨kp, hk, hp, rfl⟩; exact ⟨kp, ⟨hk, hp⟩, rfl⟩

theorem mem_save_calls (env : Env) (s : KeymapState) (kps ls : List Nat) (c : ExtCall) :
    c ∈ save_calls env s kps ls ↔
      ∃ l ∈ ls, ∃ kp ∈ kps, pending_bit s l kp = true ∧ c = save_call env s l kp := by
  induction ls with
  | nil => simp [save_calls]
  | cons l rest ih =>
    simp only [save_calls, List.mem_append, mem_layer_save_calls, ih, List.mem_cons]
    constructor
    · rintro (⟨kp, hk, hp, hc⟩ | ⟨l2, hl2, kp, hk, hp, hc⟩)
      · exact ⟨l, Or.inl rfl, kp, hk, hp, hc⟩
      · exact ⟨l2, Or.inr hl2, kp, hk, hp, hc⟩
    · rintro ⟨l2, (rfl | hl2), kp, hk, hp, hc⟩
      · exact Or.inl ⟨kp, hk, hp, hc⟩
      · exact Or.inr ⟨l2, hl2, kp, hk, hp, hc⟩

theorem save_changes_trace (env : Env) (cfg : Config) (s : KeymapState) :
    (zmk_keymap_save_changes env cfg s).2.trace =
      s.trace ++ save_calls env s (List.range cfg.ZMK_KEYMAP_LEN)
        (List.range cfg.ZMK_KEYMAP_LAYERS_LEN) :=
  (save_layers_fold env cfg _ (List.nodup_range _) s).1

/-- Claim C7, as the code has it: `zmk_keymap_save_changes` calls
`settings_save_one` exactly for the pending cells of the `L × K` table, and
the record it hands over for a pending cell `(l, p)` has 10 bytes when
`param2 != 0`, 6 bytes when `param2 == 0` and `param1 != 0`, and 2 bytes when
`param1 == param2 == 0`: the packed `{u16, u32, u32}` record of 10 bytes with
trailing zero parameters dropped. -/
theorem save_changes_record_length (env : Env) (cfg : Config) (s : KeymapState) (l p : Nat)
    (hl : l < cfg.ZMK_KEYMAP_LAYERS_LEN) (hp : p < cfg.ZMK_KEYMAP_LEN)
    (hpend : pending_bit s l p = true) :
    ∃ written,
      (zmk_keymap_save_changes env cfg s).2.trace = s.trace ++ written ∧
      ExtCall.settings_save_one (setting_name l p) (setting_value env (s.zmk_keymap l p)) ∈
        written ∧
      (∀ c ∈ written, ∃ l2 p2, l2 < cfg.ZMK_KEYMAP_LAYERS_LEN ∧ p2 < cfg.ZMK_KEYMAP_LEN ∧
        pending_bit s l2 p2 = true ∧
        c = ExtCall.settings_save_one (setting_name l2 p2)
          (setting_value env (s.zmk_keymap l2 p2))) ∧
      (setting_value env (s.zmk_keymap l p)).length =
        (if to_uint32_t (s.zmk_keymap l p).param2 ≠ 0 then 10
          else if to_uint32_t (s.zmk_keymap l p).param1 ≠ 0 then 6 else 2) := by
  refine ⟨_, save_changes_trace env cfg s, ?_, ?_, setting_value_length env _⟩
  · rw [mem_save_calls]
    exact ⟨l, List.mem_range.2 hl, p, List.mem_range.2 hp, hpend, rfl⟩
  · intro c hc
    rw [mem_save_calls] at hc
    obtain ⟨l2, hl2, p2, hp2, hpend2, rfl⟩ := hc
    exact ⟨l2, p2, List.mem_range.1 hl2, List.mem_range.1 hp2, hpend2, rfl⟩

/-- Instance of `save_changes_record_length`: cell `(1, 3)` edited to behavior
`A` with `param1 = 42` and `param2 = 0` is saved as a record of 6 bytes. -/
theorem save_changes_record_length_witness :
    (setting_value two_behavior_env
      ((zmk_keymap_set_layer_binding_at_idx (plain_config 2 4) 1 3
        { behavior_dev := device_A.name, param1 := 42, param2 := 0 }
        (initial_state two_layer_keymap)).2.zmk_keymap 1 3)).length = 6 := by
  obtain ⟨written, -, -, -, hlen⟩ :=
    save_changes_record_length two_behavior_env (plain_config 2 4)
      (zmk_keymap_set_layer_binding_at_idx (plain_config 2 4) 1 3
        { behavior_dev := device_A.name, param1 := 42, param2 := 0 }
        (initial_state two_layer_keymap)).2 1 3 (by decide) (by decide) (by decide)
  rw [hlen]
  decide

/-- Claim C7 fails as stated: with cell `(0, 0)` edited to behavior `A` with
`param1 = 4` and `param2 = 1`, `zmk_keymap_save_changes` writes one record,
of 10 bytes and not 12; with `param2 = 0` the record has 6 bytes and not 8. -/
theorem save_changes_writes_10_bytes :
    (zmk_keymap_save_changes two_behavior_env (plain_config 2 4)
        (zmk_keymap_set_layer_binding_at_idx (plain_config 2 4) 0 0
          { behavior_dev := device_A.name, param1 := 4, param2 := 1 }
          (initial_state two_layer_keymap)).2).2.trace =
        [ExtCall.settings_save_one "keymap/l/0/0".toList [1, 0, 4, 0, 0, 0, 1, 0, 0, 0]] ∧
      (zmk_keymap_save_changes two_behavior_env (plain_config 2 4)
        (zmk_keymap_set_layer_binding_at_idx (plain_config 2 4) 0 0
          { behavior_dev := device_A.name, param1 := 4, param2 := 0 }
          (initial_state two_layer_keymap)).2).2.trace =
        [ExtCall.settings_save_one "keymap/l/0/0".toList [1, 0, 4, 0, 0, 0]] := by
  decide

theorem get_local_id_found (env : Env) (name : CStr)
    (h : ∃ item ∈ env.zmk_behavior_local_id_maps, item.device.ready = true ∧
      item.device.name.chars = name.chars) :
    ∃ item ∈ env.zmk_behavior_local_id_maps, item.device.ready = true ∧
      item.device.name.chars = name.chars ∧ zmk_behavior_get_local_id env name = item.local_id := by
  unfold zmk_behavior_get_local_id
  cases hf : env.zmk_behavior_local_id_maps.find?
      (fun item => item.device.ready && decide (item.device.name.chars = name.chars)) with
  | none =>
    rw [List.find?_eq_none] at hf
    obtain ⟨item, hitem, hr, hi⟩ := h
    exact absurd (by simp [hr, hi]) (hf item hitem)
  | some item =>
    have hp := List.find?_some hf
    simp only [Bool.and_eq_true, decide_eq_true_eq] at hp
    exact ⟨item, List.mem_of_find?_eq_some hf, hp.1, hp.2, rfl⟩

/-- Claim C8: for a cell `(l, p)` of the table addressable by `uint8_t`
indices, whose binding has 32-bit parameters and names a ready behavior whose
local ID is a 16-bit value that no ready behavior of another name has (the
names in the table being non-null), the name of the record
`zmk_keymap_save_changes` writes for the cell when it is pending is
`keymap/` followed by `l/<l>/<p>`, and that record handed to
`keymap_handle_set` under the key `l/<l>/<p>` with its bytes and length, in
any state, returns 0 and sets cell `(l, p)` to the same behavior name,
`param1` and `param2`, whether or not trailing zero parameters were dropped. -/
theorem save_then_load_round_trip (env : Env) (cfg : Config) (s t : KeymapState) (l p : Nat)
    (hl : l < cfg.ZMK_KEYMAP_LAYERS_LEN) (hp : p < cfg.ZMK_KEYMAP_LEN)
    (hl8 : l < 256) (hp8 : p < 256)
    (hp1 : (s.zmk_keymap l p).param1 < 4294967296)
    (hp2 : (s.zmk_keymap l p).param2 < 4294967296)
    (hready : ∃ item ∈ env.zmk_behavior_local_id_maps, item.device.ready = true ∧
      item.device.name.chars = (s.zmk_keymap l p).behavior_dev.chars)
    (hunique : ∀ item ∈ env.zmk_behavior_local_id_maps, item.device.ready = true →
      item.local_id = zmk_behavior_get_local_id env (s.zmk_keymap l p).behavior_dev →
        item.device.name.chars = (s.zmk_keymap l p).behavior_dev.chars)
    (hid : zmk_behavior_get_local_id env (s.zmk_keymap l p).behavior_dev < 65536)
    (hnames : ∀ item ∈ env.zmk_behavior_local_id_maps, item.device.name.addr ≠ 0) :
    (pending_bit s l p = true →
        ExtCall.settings_save_one (setting_name l p) (setting_value env (s.zmk_keymap l p)) ∈
          (zmk_keymap_save_changes env cfg s).2.trace) ∧
      setting_name l p = "keymap/".toList ++ handler_name l p ∧
      (keymap_handle_set env cfg (handler_name l p)
        (setting_value env (s.zmk_keymap l p)).length
        (settings_value_read (setting_value env (s.zmk_keymap l p))) t).1 = 0 ∧
      ((keymap_handle_set env cfg (handler_name l p)
        (setting_value env (s.zmk_keymap l p)).length
        (settings_value_read (setting_value env (s.zmk_keymap l p))) t).2.zmk_keymap l
          p).behavior_dev.chars = (s.zmk_keymap l p).behavior_dev.chars ∧
      ((keymap_handle_set env cfg (handler_name l p)
        (setting_value env (s.zmk_keymap l p)).length
        (settings_value_read (setting_value env (s.zmk_keymap l p))) t).2.zmk_keymap l
          p).param1 = (s.zmk_keymap l p).param1 ∧
      ((keymap_handle_set env cfg (handler_name l p)
        (setting_value env (s.zmk_keymap l p)).length
        (settings_value_read (setting_value env (s.zmk_keymap l p))) t).2.zmk_keymap l
          p).param2 = (s.zmk_keymap l p).param2 := by
  obtain ⟨item0, hitem0, hready0, hchars0, hid0⟩ := get_local_id_found env _ hready
  have hids0 : item0.local_id < 65536 := by rw [← hid0]; exact hid
  have hid16 : to_uint16_t item0.local_id = item0.local_id := Nat.mod_eq_of_lt hids0
  have hbs : binding_setting_of env (s.zmk_keymap l p) =
      { behavior_local_id := item0.local_id
        param1 := (s.zmk_keymap l p).param1
        param2 := (s.zmk_keymap l p).param2 } := by
    simp only [binding_setting_of, hid0, hid16, to_uint32_t, Nat.mod_eq_of_lt hp1,
      Nat.mod_eq_of_lt hp2]
  have hlenle : binding_setting_len (binding_setting_of env (s.zmk_keymap l p)) ≤ 10 := by
    rw [binding_setting_len_cases]; split_ifs <;> omega
  have hlenpos : 0 < binding_setting_len (binding_setting_of env (s.zmk_keymap l p)) := by
    rw [binding_setting_len_cases]; split_ifs <;> omega
  have hvlen : (setting_value env (s.zmk_keymap l p)).length =
      binding_setting_len (binding_setting_of env (s.zmk_keymap l p)) := by
    unfold setting_value
    rw [List.length_take, bytes_length]
    have : sizeof_zmk_behavior_binding_setting = 10 := rfl
    omega
  have hmem : zmk_behavior_binding_setting.of_bytes
      (binding_setting_memory (setting_value env (s.zmk_keymap l p)).length
        (setting_value env (s.zmk_keymap l p))) =
      binding_setting_of env (s.zmk_keymap l p) := by
    rw [hvlen]
    unfold setting_value
    apply of_bytes_saved
    · rw [hbs]; exact hids0
    · rw [hbs]; exact hp1
    · rw [hbs]; exact hp2
  obtain ⟨item1, hitem1, hready1, hid1, hfind⟩ :=
    find_name_known env item0.local_id hids0 ⟨item0, hitem0, hready0, rfl⟩
  have hchars1 : item1.device.name.chars = (s.zmk_keymap l p).behavior_dev.chars :=
    hunique item1 hitem1 hready1 (hid1.trans hid0.symm)
  have hres : keymap_handle_set env cfg (handler_name l p)
      (setting_value env (s.zmk_keymap l p)).length
      (settings_value_read (setting_value env (s.zmk_keymap l p))) t =
      (0, { t with
        zmk_keymap := array_set2 t.zmk_keymap l p
          { behavior_dev := item1.device.name
            param1 := (s.zmk_keymap l p).param1
            param2 := (s.zmk_keymap l p).param2 } }) := by
    rw [keymap_handle_set_handler_name, settings_value_read_self, hmem, hbs]
    have h1 : ¬ (setting_value env (s.zmk_keymap l p)).length >
        sizeof_zmk_behavior_binding_setting := by
      have : sizeof_zmk_behavior_binding_setting = 10 := rfl
      omega
    have h2 : ¬ l ≥ cfg.ZMK_KEYMAP_LAYERS_LEN := by omega
    have h3 : ¬ p ≥ cfg.ZMK_KEYMAP_LEN := by omega
    have h4 : ¬ (((setting_value env (s.zmk_keymap l p)).length : Nat) : Int) ≤ 0 := by omega
    have h5 : ¬ item1.device.name.addr = 0 := hnames item1 hitem1
    simp only [to_uint8_t_saturated_eq l hl8, to_uint8_t_saturated_eq p hp8, h1, h2, h3, h4,
      if_false, hfind, h5]
  rw [hres]
  refine ⟨?_, setting_name_eq l p, rfl, ?_, ?_, ?_⟩
  · intro hpend
    rw [save_changes_trace]
    apply List.mem_append_right
    rw [mem_save_calls]
    exact ⟨l, List.mem_range.2 hl, p, List.mem_range.2 hp, hpend, rfl⟩
  · simp [array_set2, hchars1]
  · simp [array_set2]
  · simp [array_set2]

/-- Instance of `save_then_load_round_trip`: cell `(1, 3)` edited to
`{A, 0x2A, 0}` is saved as a record of 6 bytes which, loaded after a restart
into the initial state, gives the cell the parameters `0x2A` and 0 again. -/
theorem save_then_load_round_trip_witness :
    ((keymap_handle_set two_behavior_env (plain_config 2 4) (handler_name 1 3)
        (setting_value two_behavior_env (edited_state.zmk_keymap 1 3)).length
        (settings_value_read (setting_value two_behavior_env (edited_state.zmk_keymap 1 3)))
        (initial_state two_layer_keymap)).2.zmk_keymap 1 3).param1 = 42 ∧
      (setting_value two_behavior_env (edited_state.zmk_keymap 1 3)).length = 6 :=
  ⟨(save_then_load_round_trip two_behavior_env (plain_config 2 4) edited_state
      (initial_state two_layer_keymap) 1 3 (by decide) (by decide) (by decide) (by decide)
      (by decide) (by decide) (by decide) (by decide) (by decide) (by decide)).2.2.2.2.1,
    by decide⟩

/-- Instance of `dispatch_is_cascade`: in the initial state of the two-layer
keymap a press of position 2 reaches the default layer only, whose behavior
`B` consumes it. -/
theorem dispatch_is_cascade_witness :
    (zmk_keymap_position_state_changed two_behavior_env (plain_config 2 4) 255 2 true 10
        (initial_state two_layer_keymap)).map (fun r => (r.1, r.2.trace)) =
      some (0, [ExtCall.behavior_keymap_binding_pressed
        { behavior_dev := device_B.name, param1 := 0, param2 := 0 }
        { layer := 0, position := 2, timestamp := 10 }]) := by
  rw [(dispatch_is_cascade two_behavior_env (plain_config 2 4) 255 2 true 10
    (initial_state two_layer_keymap) (by decide) (by decide) (by decide)).1]
  decide

/-- Claim C5 fails on the code: with two layers of four keys, the request
`{layer = 256, key_position = 0}` for the known behavior `A` with accepted
parameters is answered `SUCCESS` and overwrites cell `(0, 0)`, because the
32-bit layer is converted to the `uint8_t` parameter of
`zmk_keymap_set_layer_binding_at_idx`; the same request for layer 2 is
answered `INVALID_LOCATION`. -/
theorem set_layer_binding_layer_256 :
    (set_layer_binding two_behavior_env (metadata_config 2 4)
        { layer := 256, key_position := 0,
          binding := { behavior_id := 1, param1 := 4, param2 := 0 } }
        (initial_state two_layer_keymap)).1 =
        zmk_Response.set_layer_binding
          zmk_keymap_SetLayerBindingResponse.zmk_keymap_SetLayerBindingResponse_SUCCESS ∧
      (set_layer_binding two_behavior_env (metadata_config 2 4)
        { layer := 256, key_position := 0,
          binding := { behavior_id := 1, param1 := 4, param2 := 0 } }
        (initial_state two_layer_keymap)).2.zmk_keymap 0 0 =
        { behavior_dev := device_A.name, param1 := 4, param2 := 0 } ∧
      (initial_state two_layer_keymap).zmk_keymap 0 0 =
        { behavior_dev := NULL, param1 := 0, param2 := 0 } ∧
      (set_layer_binding two_behavior_env (metadata_config 2 4)
        { layer := 2, key_position := 0,
          binding := { behavior_id := 1, param1 := 4, param2 := 0 } }
        (initial_state two_layer_keymap)).1 =
        zmk_Response.set_layer_binding
          zmk_keymap_SetLayerBindingResponse.zmk_keymap_SetLayerBindingResponse_INVALID_LOCATION := by
  decide

/-! ### Range checks of the load handler, pending bits after a save, store failures -/

/-- Claim C11 fails on the code: with two layers of four keys, the key
`l/256/3` with the 6-byte record of the ready behavior `A` makes
`keymap_handle_set` return 0 and overwrite cell `(0, 3)`, and the key
`l/1/259` overwrites cell `(1, 3)`, because the numbers read by `strtoul` are
stored in `uint8_t` variables before the range checks; the key `l/2/3`, whose
layer fits a `uint8_t`, is refused with `-EINVAL`. -/
theorem keymap_handle_set_layer_256 :
    (keymap_handle_set two_behavior_env (plain_config 2 4) "l/256/3".toList 6
        (settings_value_read [1, 0, 42, 0, 0, 0]) (initial_state two_layer_keymap)).1 = 0 ∧
      (keymap_handle_set two_behavior_env (plain_config 2 4) "l/256/3".toList 6
        (settings_value_read [1, 0, 42, 0, 0, 0]) (initial_state two_layer_keymap)).2.zmk_keymap
          0 3 = { behavior_dev := device_A.name, param1 := 42, param2 := 0 } ∧
      (initial_state two_layer_keymap).zmk_keymap 0 3 =
        { behavior_dev := NULL, param1 := 0, param2 := 0 } ∧
      (keymap_handle_set two_behavior_env (plain_config 2 4) "l/1/259".toList 6
        (settings_value_read [1, 0, 42, 0, 0, 0]) (initial_state two_layer_keymap)).2.zmk_keymap
          1 3 = { behavior_dev := device_A.name, param1 := 42, param2 := 0 } ∧
      (keymap_handle_set two_behavior_env (plain_config 2 4) "l/2/3".toList 6
        (settings_value_read [1, 0, 42, 0, 0, 0]) (initial_state two_layer_keymap)).1 =
        -EINVAL := by
  decide

/-- Claim C12 fails on the code: in a build of one layer and nine keys with
cell `(0, 8)` pending, the cell is still pending after
`zmk_keymap_save_changes` (only the first of the two pending bytes of the
layer is cleared), and a second `zmk_keymap_save_changes` right after the
first writes the record of the cell again. -/
theorem save_changes_leaves_cell_pending :
    pending_bit edited_state_9 0 8 = true ∧
      pending_bit (zmk_keymap_save_changes two_behavior_env (plain_config 1 9)
        edited_state_9).2 0 8 = true ∧
      (zmk_keymap_save_changes two_behavior_env (plain_config 1 9) edited_state_9).2.trace =
        [ExtCall.settings_save_one "keymap/l/0/8".toList [1, 0, 4, 0, 0, 0]] ∧
      (zmk_keymap_save_changes two_behavior_env (plain_config 1 9)
        (zmk_keymap_save_changes two_behavior_env (plain_config 1 9)
          edited_state_9).2).2.trace =
        [ExtCall.settings_save_one "keymap/l/0/8".toList [1, 0, 4, 0, 0, 0],
          ExtCall.settings_save_one "keymap/l/0/8".toList [1, 0, 4, 0, 0, 0]] := by
  refine ⟨by decide, by decide, by decide, ?_⟩
  rw [save_changes_trace, save_changes_trace]
  decide

/-- Claim C13 fails on the code: `zmk_keymap_save_changes` returns 0 and the
handler `save_changes` answers success in every environment and state, and so
they do with the pending cell `(1, 3)` in an environment whose
`settings_save_one` returns `-EIO` for the record that is written. -/
theorem save_changes_ignores_store_failure :
    (∀ (env : Env) (cfg : Config) (s : KeymapState),
        (zmk_keymap_save_changes env cfg s).1 = 0 ∧
          (save_changes env cfg s).1 = zmk_Response.save_changes true) ∧
      (zmk_keymap_save_changes failing_store_env (plain_config 2 4) edited_state).2.trace =
        [ExtCall.settings_save_one "keymap/l/1/3".toList [1, 0, 42, 0, 0, 0]] ∧
      failing_store_env.settings_save_one edited_state "keymap/l/1/3".toList
        [1, 0, 42, 0, 0, 0] = -5 ∧
      (zmk_keymap_save_changes failing_store_env (plain_config 2 4) edited_state).1 = 0 ∧
      (save_changes failing_store_env (plain_config 2 4) edited_state).1 =
        zmk_Response.save_changes true := by
  refine ⟨fun env cfg s => ⟨rfl, ?_⟩, by decide, by decide, by decide, by decide⟩
  simp [save_changes, zmk_keymap_save_changes]

/-! ### Layer calls: notifications, the default layer, toggles, range checks -/

/-- Claim C15: when the keymap has at least one layer, in every state
`zmk_keymap_layer_deactivate(default layer)` returns 0 and leaves the state
as it was, so that the layer mask is unchanged and no notification is
raised, and `zmk_keymap_layer_active(default layer)` is true before and
after. -/
theorem deactivate_default_is_noop (env : Env) (cfg : Config) (s : KeymapState)
    (hL : 0 < cfg.ZMK_KEYMAP_LAYERS_LEN) :
    zmk_keymap_layer_deactivate env cfg zmk_keymap_layer_default s = (0, s) ∧
      zmk_keymap_layer_active zmk_keymap_layer_default s = true ∧
      zmk_keymap_layer_active zmk_keymap_layer_default
        (zmk_keymap_layer_deactivate env cfg zmk_keymap_layer_default s).2 = true := by
  have hu : to_uint8_t (to_uint8_t zmk_keymap_layer_default) = _zmk_keymap_layer_default := by
    decide
  have h0 : ¬ (_zmk_keymap_layer_default ≥ cfg.ZMK_KEYMAP_LAYERS_LEN) := by
    simp only [_zmk_keymap_layer_default]; omega
  have hres : zmk_keymap_layer_deactivate env cfg zmk_keymap_layer_default s = (0, s) := by
    unfold zmk_keymap_layer_deactivate set_layer_state
    simp only [hu, h0, if_false, and_self, if_true]
  exact ⟨hres, layer_active_default s, layer_active_default _⟩

/-- Instance of the no-op: three layers, the state after layer 2 was
activated. -/
theorem deactivate_default_is_noop_witness :
    zmk_keymap_layer_deactivate quiet_env (plain_config 3 4) zmk_keymap_layer_default
        (zmk_keymap_layer_activate quiet_env (plain_config 3 4) 2
          (initial_state empty_keymap)).2 =
      (0, (zmk_keymap_layer_activate quiet_env (plain_config 3 4) 2
        (initial_state empty_keymap)).2) :=
  (deactivate_default_is_noop quiet_env (plain_config 3 4) _ (by decide)).1

/-- Claim C17: for every layer index `l` with `L ≤ l ≤ 255`,
`zmk_keymap_layer_activate(l)`, `zmk_keymap_layer_deactivate(l)` and
`zmk_keymap_layer_toggle(l)` return `-EINVAL` and leave the state as it was,
so that the layer mask is unchanged and no notification is raised, and
`zmk_keymap_layer_name(l)` returns the null pointer. -/
theorem layer_calls_out_of_range (env : Env) (cfg : Config) (names : Nat → CStr) (l : Nat)
    (s : KeymapState) (hl : cfg.ZMK_KEYMAP_LAYERS_LEN ≤ l) (h8 : l ≤ 255) :
    zmk_keymap_layer_activate env cfg l s = (-EINVAL, s) ∧
      zmk_keymap_layer_deactivate env cfg l s = (-EINVAL, s) ∧
      zmk_keymap_layer_toggle env cfg l s = (-EINVAL, s) ∧
      zmk_keymap_layer_name cfg names l = NULL := by
  have hu : to_uint8_t l = l := to_uint8_t_of_lt (by omega)
  have hge : l ≥ cfg.ZMK_KEYMAP_LAYERS_LEN := hl
  have ha : zmk_keymap_layer_activate env cfg l s = (-EINVAL, s) := by
    unfold zmk_keymap_layer_activate set_layer_state
    simp only [hu, hge, if_true]
  have hd : zmk_keymap_layer_deactivate env cfg l s = (-EINVAL, s) := by
    unfold zmk_keymap_layer_deactivate set_layer_state
    simp only [hu, hge, if_true]
  refine ⟨ha, hd, ?_, ?_⟩
  · unfold zmk_keymap_layer_toggle
    simp only [hu]
    split_ifs
    · exact hd
    · exact ha
  · unfold zmk_keymap_layer_name
    simp only [hu, hge, if_true]

/-- Instance of the range check: three layers, layer index 3. -/
theorem layer_calls_out_of_range_witness :
    zmk_keymap_layer_toggle quiet_env (plain_config 3 4) 3 (initial_state empty_keymap) =
      (-EINVAL, initial_state empty_keymap) :=
  (layer_calls_out_of_range quiet_env (plain_config 3 4) (fun _ => NULL) 3 _ (by decide)
    (by decide)).2.2.1

/-- Claim C18 fails on the code: `validate_standard_param` compares a value
of the layer-index domain with the key count `ZMK_KEYMAP_LEN`: a 32-bit value
is accepted if and only if it is below `K`; with two layers of four keys the
value 3 is accepted although there is no layer 3, and with four layers of two
keys the layer index 3 is rejected. -/
theorem layer_index_checked_against_key_count :
    (∀ (cfg : Config) (v : Nat), v < 4294967296 →
        (validate_standard_param cfg
          behavior_parameter_standard_domain.BEHAVIOR_PARAMETER_STANDARD_DOMAIN_LAYER_INDEX v =
            0 ↔ v < cfg.ZMK_KEYMAP_LEN)) ∧
      validate_standard_param (plain_config 2 4)
        behavior_parameter_standard_domain.BEHAVIOR_PARAMETER_STANDARD_DOMAIN_LAYER_INDEX 3 =
          0 ∧
      validate_standard_param (plain_config 4 2)
        behavior_parameter_standard_domain.BEHAVIOR_PARAMETER_STANDARD_DOMAIN_LAYER_INDEX 3 =
          -EINVAL := by
  refine ⟨?_, by decide, by decide⟩
  intro cfg v hv
  have hv' : to_uint32_t v = v := Nat.mod_eq_of_lt hv
  simp only [validate_standard_param, hv']
  split_ifs with h
  · simp [EINVAL]; omega
  · simp; omega

theorem testBit_of_lt_two_pow_32 (var i : Nat) (hvar : var < 4294967296) (hi : ¬ i < 32) :
    var.testBit i = false := by
  apply Nat.testBit_eq_false_of_lt
  calc var < 2 ^ 32 := by omega
    _ ≤ 2 ^ i := Nat.pow_le_pow_right (by norm_num) (by omega)

theorem WRITE_BIT_32_lt (var bit : Nat) (set : Bool) : WRITE_BIT 32 var bit set < 4294967296 := by
  unfold WRITE_BIT
  split_ifs <;> exact Nat.mod_lt _ (by norm_num)

theorem WRITE_BIT_32_eq_self (var bit : Nat) (set : Bool) (hvar : var < 4294967296)
    (h : var.testBit bit = set) : WRITE_BIT 32 var bit set = var := by
  apply Nat.eq_of_testBit_eq
  intro i
  cases set
  · rw [testBit_WRITE_BIT_clear]
    by_cases hi : i < 32
    · by_cases hb : bit = i
      · subst hb; simp [h]
      · simp [hi, hb]
    · simp [hi, testBit_of_lt_two_pow_32 var i hvar hi]
  · rw [testBit_WRITE_BIT_set]
    by_cases hi : i < 32
    · by_cases hb : bit = i
      · subst hb; simp [hi, h]
      · simp [hi, hb]
    · simp [hi, testBit_of_lt_two_pow_32 var i hvar hi]

theorem WRITE_BIT_32_idem (var bit : Nat) (set : Bool) :
    WRITE_BIT 32 (WRITE_BIT 32 var bit set) bit set = WRITE_BIT 32 var bit set := by
  apply Nat.eq_of_testBit_eq
  intro i
  cases set
  · simp only [testBit_WRITE_BIT_clear]
    cases var.testBit i <;> cases decide (i < 32) <;> cases decide (bit = i) <;> rfl
  · simp only [testBit_WRITE_BIT_set]
    cases var.testBit i <;> cases decide (i < 32) <;> cases decide (bit = i) <;> rfl

theorem set_layer_state_in_range (env : Env) (cfg : Config) (l : Nat) (v : Bool)
    (s : KeymapState) (hl : l < cfg.ZMK_KEYMAP_LAYERS_LEN) (hl8 : l < 256) :
    set_layer_state env cfg l v s =
      if l = _zmk_keymap_layer_default ∧ v = false then (0, s)
      else if s._zmk_keymap_layer_state ≠ WRITE_BIT 32 s._zmk_keymap_layer_state l v then
        (env.raise_layer_state_changed
            { s with _zmk_keymap_layer_state := WRITE_BIT 32 s._zmk_keymap_layer_state l v } l v,
          { s with
            _zmk_keymap_layer_state := WRITE_BIT 32 s._zmk_keymap_layer_state l v
            trace := s.trace ++ [ExtCall.raise_layer_state_changed l v] })
      else (0, { s with _zmk_keymap_layer_state := WRITE_BIT 32 s._zmk_keymap_layer_state l v }) := by
  have hnot : ¬ l ≥ cfg.ZMK_KEYMAP_LAYERS_LEN := by omega
  unfold set_layer_state
  simp only [to_uint8_t_of_lt hl8, hnot, if_false]

theorem set_layer_state_fixed (env : Env) (cfg : Config) (l : Nat) (v : Bool)
    (t : KeymapState) (hl : l < cfg.ZMK_KEYMAP_LAYERS_LEN) (hl8 : l < 256)
    (hfix : WRITE_BIT 32 t._zmk_keymap_layer_state l v = t._zmk_keymap_layer_state) :
    set_layer_state env cfg l v t = (0, t) := by
  rw [set_layer_state_in_range env cfg l v t hl hl8, hfix]
  simp

/-- Claim C14: for a layer `l < L` given as a `uint8_t`, a target value `v`
and a 32-bit layer mask, `set_layer_state(l, v)` either appends the
notification `LayerStateChanged(l, v)` and leaves a mask different from the
one before, or raises nothing and leaves the mask as it was; when bit `l`
already equals `v` it returns 0 with the state as it was; and a second call
with the same arguments returns 0 and changes nothing.  The press memory, the
keymap and the pending bits are never changed. -/
theorem set_layer_state_notifies_iff_changed (env : Env) (cfg : Config) (l : Nat) (v : Bool)
    (s : KeymapState) (hl : l < cfg.ZMK_KEYMAP_LAYERS_LEN) (hl8 : l < 256)
    (hs : s._zmk_keymap_layer_state < 4294967296) :
    (((set_layer_state env cfg l v s).2.trace =
          s.trace ++ [ExtCall.raise_layer_state_changed l v] ∧
        zmk_keymap_layer_state (set_layer_state env cfg l v s).2 ≠ zmk_keymap_layer_state s) ∨
      ((set_layer_state env cfg l v s).2.trace = s.trace ∧
        zmk_keymap_layer_state (set_layer_state env cfg l v s).2 = zmk_keymap_layer_state s)) ∧
      ((zmk_keymap_layer_state s).testBit l = v → set_layer_state env cfg l v s = (0, s)) ∧
      set_layer_state env cfg l v (set_layer_state env cfg l v s).2 =
        (0, (set_layer_state env cfg l v s).2) ∧
      same_tables s (set_layer_state env cfg l v s).2 := by
  refine ⟨?_, ?_, ?_, set_layer_state_same_tables env cfg l v s⟩
  · rw [set_layer_state_in_range env cfg l v s hl hl8]
    simp only [zmk_keymap_layer_state]
    split_ifs with h1 h2
    · exact Or.inr ⟨rfl, rfl⟩
    · exact Or.inl ⟨rfl, fun h => h2 h.symm⟩
    · right
      refine ⟨rfl, ?_⟩
      simp only [ne_eq, not_not] at h2
      exact h2.symm
  · intro hbit
    simp only [zmk_keymap_layer_state] at hbit
    rw [set_layer_state_in_range env cfg l v s hl hl8, WRITE_BIT_32_eq_self _ l v hs hbit]
    simp
  · by_cases h1 : l = _zmk_keymap_layer_default ∧ v = false
    · have hfirst : set_layer_state env cfg l v s = (0, s) := by
        rw [set_layer_state_in_range env cfg l v s hl hl8, if_pos h1]
      rw [hfirst]
      exact hfirst
    · apply set_layer_state_fixed env cfg l v _ hl hl8
      rw [set_layer_state_in_range env cfg l v s hl hl8, if_neg h1]
      split_ifs
      · exact WRITE_BIT_32_idem _ _ _
      · exact WRITE_BIT_32_idem _ _ _

/-- Instance of the notification rule: with three layers, activating layer 2
a second time returns 0 and changes nothing. -/
theorem set_layer_state_notifies_iff_changed_witness :
    set_layer_state quiet_env (plain_config 3 4) 2 true
        (set_layer_state quiet_env (plain_config 3 4) 2 true (initial_state empty_keymap)).2 =
      (0, (set_layer_state quiet_env (plain_config 3 4) 2 true
        (initial_state empty_keymap)).2) :=
  (set_layer_state_notifies_iff_changed quiet_env (plain_config 3 4) 2 true
    (initial_state empty_keymap) (by decide) (by decide) (by decide)).2.2.1

theorem toggle_flips_bit (env : Env) (cfg : Config) (l : Nat) (s : KeymapState)
    (hl : l < cfg.ZMK_KEYMAP_LAYERS_LEN) (hL : cfg.ZMK_KEYMAP_LAYERS_LEN ≤ 32)
    (hne : l ≠ _zmk_keymap_layer_default) (hs : s._zmk_keymap_layer_state < 4294967296) :
    (∀ i, (zmk_keymap_layer_toggle env cfg l s).2._zmk_keymap_layer_state.testBit i =
        if i = l then !s._zmk_keymap_layer_state.testBit l
        else s._zmk_keymap_layer_state.testBit i) ∧
      (zmk_keymap_layer_toggle env cfg l s).2.trace =
        s.trace ++ [ExtCall.raise_layer_state_changed l (!s._zmk_keymap_layer_state.testBit l)] ∧
      (zmk_keymap_layer_toggle env cfg l s).2._zmk_keymap_layer_state < 4294967296 := by
  have hl8 : l < 256 := by omega
  have hl32 : l < 32 := by omega
  have hu : to_uint8_t l = l := to_uint8_t_of_lt hl8
  have hactive : zmk_keymap_layer_active l s = s._zmk_keymap_layer_state.testBit l := by
    unfold zmk_keymap_layer_active
    rw [hu, layer_active_with_state_eq l _ hl8]
    simp [hne]
  have hguard : ∀ v, ¬ (l = _zmk_keymap_layer_default ∧ v = false) := fun v h => hne h.1
  have hbits : ∀ v i, (WRITE_BIT 32 s._zmk_keymap_layer_state l v).testBit i =
      if i = l then v else s._zmk_keymap_layer_state.testBit i := by
    intro v i
    cases v
    · rw [testBit_WRITE_BIT_clear]
      by_cases hi : i < 32
      · by_cases hb : i = l
        · subst hb; simp
        · have hb2 : ¬ l = i := fun h => hb h.symm
          simp [hi, hb, hb2]
      · have hb : ¬ i = l := by omega
        simp [hi, hb, testBit_of_lt_two_pow_32 _ i hs hi]
    · rw [testBit_WRITE_BIT_set]
      by_cases hi : i < 32
      · by_cases hb : i = l
        · subst hb; simp [hi]
        · have hb2 : ¬ l = i := fun h => hb h.symm
          simp [hi, hb, hb2]
      · have hb : ¬ i = l := by omega
        simp [hi, hb, testBit_of_lt_two_pow_32 _ i hs hi]
  have hchanged : ∀ v, s._zmk_keymap_layer_state.testBit l = !v →
      s._zmk_keymap_layer_state ≠ WRITE_BIT 32 s._zmk_keymap_layer_state l v := by
    intro v hv hc
    have := hbits v l
    rw [← hc, hv] at this
    cases v <;> simp at this
  have hstep : ∀ v, s._zmk_keymap_layer_state.testBit l = !v →
      (set_layer_state env cfg l v s).2 =
        { s with
          _zmk_keymap_layer_state := WRITE_BIT 32 s._zmk_keymap_layer_state l v
          trace := s.trace ++ [ExtCall.raise_layer_state_changed l v] } := by
    intro v hv
    rw [set_layer_state_in_range env cfg l v s hl hl8, if_neg (hguard v),
      if_pos (hchanged v hv)]
  unfold zmk_keymap_layer_toggle
  simp only [hu, hactive]
  cases hb : s._zmk_keymap_layer_state.testBit l
  · simp only [Bool.false_eq_true, if_false, zmk_keymap_layer_activate, hu]
    rw [hstep true (by simp [hb])]
    refine ⟨fun i => ?_, rfl, ?_⟩
    · simp only [hbits true i]
      by_cases hi : i = l <;> simp [hi]
    · exact WRITE_BIT_32_lt s._zmk_keymap_layer_state l true
  · simp only [if_true, zmk_keymap_layer_deactivate, hu]
    rw [hstep false (by simp [hb])]
    refine ⟨fun i => ?_, rfl, ?_⟩
    · simp only [hbits false i]
      by_cases hi : i = l <;> simp [hi]
    · exact WRITE_BIT_32_lt s._zmk_keymap_layer_state l false

/-- Claim C16: for a non-default layer `l < L` (with at most 32 layers, the
width of the layer mask) and a 32-bit layer mask,
`zmk_keymap_layer_toggle(l)` flips bit `l` of the mask, leaves every other
bit as it was and raises `LayerStateChanged(l, new value of bit l)`; a second
toggle of `l` gives back the original mask; the press memory, the keymap and
the pending bits are never changed. -/
theorem toggle_flips_and_restores (env : Env) (cfg : Config) (l : Nat) (s : KeymapState)
    (hl : l < cfg.ZMK_KEYMAP_LAYERS_LEN) (hL : cfg.ZMK_KEYMAP_LAYERS_LEN ≤ 32)
    (hne : l ≠ zmk_keymap_layer_default) (hs : zmk_keymap_layer_state s < 4294967296) :
    (∀ i, (zmk_keymap_layer_state (zmk_keymap_layer_toggle env cfg l s).2).testBit i =
        if i = l then !(zmk_keymap_layer_state s).testBit l
        else (zmk_keymap_layer_state s).testBit i) ∧
      (zmk_keymap_layer_toggle env cfg l s).2.trace =
        s.trace ++ [ExtCall.raise_layer_state_changed l
          ((zmk_keymap_layer_state (zmk_keymap_layer_toggle env cfg l s).2).testBit l)] ∧
      zmk_keymap_layer_state
        (zmk_keymap_layer_toggle env cfg l (zmk_keymap_layer_toggle env cfg l s).2).2 =
          zmk_keymap_layer_state s ∧
      same_tables s (zmk_keymap_layer_toggle env cfg l s).2 := by
  obtain ⟨h1, h2, h3⟩ := toggle_flips_bit env cfg l s hl hL hne hs
  obtain ⟨k1, -, -⟩ := toggle_flips_bit env cfg l _ hl hL hne h3
  refine ⟨h1, ?_, ?_, layer_call_same_tables env cfg (LayerCall.zmk_keymap_layer_toggle l) s⟩
  · rw [h2]
    simp only [zmk_keymap_layer_state, h1 l, if_true]
  · simp only [zmk_keymap_layer_state]
    apply Nat.eq_of_testBit_eq
    intro i
    rw [k1 i]
    by_cases hi : i = l
    · subst hi; simp [h1]
    · simp [hi, h1]

/-- Instance of the toggle rule, the scenario of three layers: from the mask
`0b001`, `activate(2)` gives `0b101`, and `toggle(2)` raises
`LayerStateChanged(2, false)` and gives `0b001` again. -/
theorem toggle_flips_and_restores_witness :
    zmk_keymap_layer_state (run_layer_calls quiet_env (plain_config 3 4)
        [LayerCall.zmk_keymap_layer_activate 0, LayerCall.zmk_keymap_layer_activate 2]
        (initial_state empty_keymap)) = 5 ∧
      zmk_keymap_layer_state (zmk_keymap_layer_toggle quiet_env (plain_config 3 4) 2
        (run_layer_calls quiet_env (plain_config 3 4)
          [LayerCall.zmk_keymap_layer_activate 0, LayerCall.zmk_keymap_layer_activate 2]
          (initial_state empty_keymap))).2 = 1 ∧
      (zmk_keymap_layer_toggle quiet_env (plain_config 3 4) 2
        (run_layer_calls quiet_env (plain_config 3 4)
          [LayerCall.zmk_keymap_layer_activate 0, LayerCall.zmk_keymap_layer_activate 2]
          (initial_state empty_keymap))).2.trace =
        (run_layer_calls quiet_env (plain_config 3 4)
          [LayerCall.zmk_keymap_layer_activate 0, LayerCall.zmk_keymap_layer_activate 2]
          (initial_state empty_keymap)).trace ++
          [ExtCall.raise_layer_state_changed 2
            ((zmk_keymap_layer_state (zmk_keymap_layer_toggle quiet_env (plain_config 3 4) 2
              (run_layer_calls quiet_env (plain_config 3 4)
                [LayerCall.zmk_keymap_layer_activate 0, LayerCall.zmk_keymap_layer_activate 2]
                (initial_state empty_keymap))).2).testBit 2)] :=
  ⟨by decide, by decide,
    (toggle_flips_and_restores quiet_env (plain_config 3 4) 2
      (run_layer_calls quiet_env (plain_config 3 4)
        [LayerCall.zmk_keymap_layer_activate 0, LayerCall.zmk_keymap_layer_activate 2]
        (initial_state empty_keymap)) (by decide) (by decide) (by decide) (by decide)).2.1⟩

/-! ### Binding validation -/

theorem validate_custom_values_cons (cfg : Config) (param1 param2 : Nat)
    (v : behavior_parameter_value_metadata) (rest : List behavior_parameter_value_metadata)
    (f : custom_set_flags) :
    validate_custom_values cfg param1 param2 (v :: rest) f =
      if f.param1_matched && f.param2_matched then f
      else validate_custom_values cfg param1 param2 rest (f.visit cfg param1 param2 v) := by
  obtain ⟨pos, ty⟩ := v
  obtain ⟨a, b, c, d⟩ := f
  by_cases hexit : (c && d) = true
  · simp [validate_custom_values, hexit]
  · simp only [hexit, if_false, Bool.false_eq_true]
    rw [validate_custom_values]
    simp only [hexit, if_false, Bool.false_eq_true]
    by_cases hp : pos = 0
    · subst hp
      cases ty with
      | BEHAVIOR_PARAMETER_VALUE_METADATA_TYPE_STANDARD st =>
        by_cases hh : validate_standard_param cfg st param1 = 0 <;>
          simp [validate_custom_values, custom_set_flags.visit, entry_matches, hh]
      | BEHAVIOR_PARAMETER_VALUE_METADATA_TYPE_VALUE value =>
        by_cases hh : param1 = value <;>
          simp [validate_custom_values, custom_set_flags.visit, entry_matches, hh]
      | BEHAVIOR_PARAMETER_VALUE_METADATA_TYPE_RANGE min max =>
        by_cases hh : min ≤ param1 ∧ param1 ≤ max <;>
          simp [validate_custom_values, custom_set_flags.visit, entry_matches, hh]
      | out_of_range =>
        simp [validate_custom_values, custom_set_flags.visit, entry_matches]
    ·
      cases ty with
      | BEHAVIOR_PARAMETER_VALUE_METADATA_TYPE_STANDARD st =>
        by_cases hh : validate_standard_param cfg st param2 = 0 <;>
          simp [validate_custom_values, custom_set_flags.visit, entry_matches, hh, hp]
      | BEHAVIOR_PARAMETER_VALUE_METADATA_TYPE_VALUE value =>
        by_cases hh : param2 = value <;>
          simp [validate_custom_values, custom_set_flags.visit, entry_matches, hh, hp]
      | BEHAVIOR_PARAMETER_VALUE_METADATA_TYPE_RANGE min max =>
        by_cases hh : min ≤ param2 ∧ param2 ≤ max <;>
          simp [validate_custom_values, custom_set_flags.visit, entry_matches, hh, hp]
      | out_of_range =>
        simp [validate_custom_values, custom_set_flags.visit, entry_matches, hp]

theorem validate_custom_values_all_cons (cfg : Config) (param1 param2 : Nat)
    (v : behavior_parameter_value_metadata) (rest : List behavior_parameter_value_metadata)
    (f : custom_set_flags) :
    validate_custom_values_all cfg param1 param2 (v :: rest) f =
      validate_custom_values_all cfg param1 param2 rest (f.visit cfg param1 param2 v) := by
  obtain ⟨pos, ty⟩ := v
  obtain ⟨a, b, c, d⟩ := f
  rw [validate_custom_values_all]
  by_cases hp : pos = 0
  · subst hp
    cases ty with
    | BEHAVIOR_PARAMETER_VALUE_METADATA_TYPE_STANDARD st =>
      by_cases hh : validate_standard_param cfg st param1 = 0 <;>
        simp [validate_custom_values_all, custom_set_flags.visit, entry_matches, hh]
    | BEHAVIOR_PARAMETER_VALUE_METADATA_TYPE_VALUE value =>
      by_cases hh : param1 = value <;>
        simp [validate_custom_values_all, custom_set_flags.visit, entry_matches, hh]
    | BEHAVIOR_PARAMETER_VALUE_METADATA_TYPE_RANGE min max =>
      by_cases hh : min ≤ param1 ∧ param1 ≤ max <;>
        simp [validate_custom_values_all, custom_set_flags.visit, entry_matches, hh]
    | out_of_range =>
      simp [validate_custom_values_all, custom_set_flags.visit, entry_matches]
  ·
    cases ty with
    | BEHAVIOR_PARAMETER_VALUE_METADATA_TYPE_STANDARD st =>
      by_cases hh : validate_standard_param cfg st param2 = 0 <;>
        simp [validate_custom_values_all, custom_set_flags.visit, entry_matches, hh, hp]
    | BEHAVIOR_PARAMETER_VALUE_METADATA_TYPE_VALUE value =>
      by_cases hh : param2 = value <;>
        simp [validate_custom_values_all, custom_set_flags.visit, entry_matches, hh, hp]
    | BEHAVIOR_PARAMETER_VALUE_METADATA_TYPE_RANGE min max =>
      by_cases hh : min ≤ param2 ∧ param2 ≤ max <;>
        simp [validate_custom_values_all, custom_set_flags.visit, entry_matches, hh, hp]
    | out_of_range =>
      simp [validate_custom_values_all, custom_set_flags.visit, entry_matches, hp]

theorem accepted_with_nil (cfg : Config) (param1 param2 : Nat) (f : custom_set_flags) :
    accepted_with cfg param1 param2 [] f = f.accepted param1 param2 := by
  simp [accepted_with, custom_set_flags.accepted]

theorem accepted_with_bool_0 :
    ∀ a b c d hit hit2 A1 H1 A2 H2 z1 z2 : Bool,
      ((((c || hit) || A1) || (!(true || H1) && z1)) && ((d || A2) || (!(b || H2) && z2))) =
        (((c || ((true && hit) || A1)) || (!(a || (true || H1)) && z1)) &&
          ((d || ((false && hit2) || A2)) || (!(b || (false || H2)) && z2))) := by
  decide

theorem accepted_with_bool_1 :
    ∀ a b c d hit hit1 A1 H1 A2 H2 z1 z2 : Bool,
      (((c || A1) || (!(a || H1) && z1)) && (((d || hit) || A2) || (!(true || H2) && z2))) =
        (((c || ((false && hit1) || A1)) || (!(a || (false || H1)) && z1)) &&
          ((d || ((true && hit) || A2)) || (!(b || (true || H2)) && z2))) := by
  decide

theorem accepted_with_cons (cfg : Config) (param1 param2 : Nat)
    (v : behavior_parameter_value_metadata) (rest : List behavior_parameter_value_metadata)
    (f : custom_set_flags) (hv : v.position = 0 ∨ v.position = 1) :
    accepted_with cfg param1 param2 rest (f.visit cfg param1 param2 v) =
      accepted_with cfg param1 param2 (v :: rest) f := by
  obtain ⟨pos, ty⟩ := v
  obtain ⟨a, b, c, d⟩ := f
  simp only at hv
  rcases hv with rfl | rfl
  · simp only [accepted_with, custom_set_flags.visit, List.any_cons, if_true]
    exact accepted_with_bool_0 a b c d _ _ _ _ _ _ _ _
  · simp only [accepted_with, custom_set_flags.visit, List.any_cons]
    exact accepted_with_bool_1 a b c d _ _ _ _ _ _ _ _

theorem validate_custom_values_accepted (cfg : Config) (param1 param2 : Nat)
    (values : List behavior_parameter_value_metadata)
    (hpos : ∀ e ∈ values, e.position = 0 ∨ e.position = 1) :
    ∀ f : custom_set_flags,
      (validate_custom_values cfg param1 param2 values f).accepted param1 param2 =
        accepted_with cfg param1 param2 values f := by
  induction values with
  | nil => intro f; rw [validate_custom_values, accepted_with_nil]
  | cons v rest ih =>
    intro f
    rw [validate_custom_values_cons]
    split_ifs with hexit
    · simp only [Bool.and_eq_true] at hexit
      simp [custom_set_flags.accepted, accepted_with, hexit.1, hexit.2]
    · rw [ih (fun e he => hpos e (List.mem_cons_of_mem _ he)),
        accepted_with_cons cfg param1 param2 v rest f (hpos v (List.mem_cons_self _ _))]

theorem validate_custom_values_all_accepted (cfg : Config) (param1 param2 : Nat)
    (values : List behavior_parameter_value_metadata)
    (hpos : ∀ e ∈ values, e.position = 0 ∨ e.position = 1) :
    ∀ f : custom_set_flags,
      (validate_custom_values_all cfg param1 param2 values f).accepted param1 param2 =
        accepted_with cfg param1 param2 values f := by
  induction values with
  | nil => intro f; rw [validate_custom_values_all, accepted_with_nil]
  | cons v rest ih =>
    intro f
    rw [validate_custom_values_all_cons, ih (fun e he => hpos e (List.mem_cons_of_mem _ he)),
      accepted_with_cons cfg param1 param2 v rest f (hpos v (List.mem_cons_self _ _))]

theorem accepted_with_start (cfg : Config) (param1 param2 : Nat)
    (set : behavior_parameter_metadata_custom_set) :
    accepted_with cfg param1 param2 set.values custom_set_flags.start =
      (set_accepts_at cfg set 0 param1 && set_accepts_at cfg set 1 param2) := by
  simp [accepted_with, custom_set_flags.start, set_accepts_at]

theorem validate_custom_sets_cons (cfg : Config) (param1 param2 : Nat)
    (set : behavior_parameter_metadata_custom_set)
    (rest : List behavior_parameter_metadata_custom_set) :
    validate_custom_sets cfg param1 param2 (set :: rest) =
      if (validate_custom_values cfg param1 param2 set.values
          custom_set_flags.start).accepted param1 param2 = true then 0
      else validate_custom_sets cfg param1 param2 rest := by
  rw [validate_custom_sets]
  rfl

theorem validate_custom_sets_spec (cfg : Config) (param1 param2 : Nat)
    (sets : List behavior_parameter_metadata_custom_set)
    (hpos : ∀ set ∈ sets, ∀ e ∈ set.values, e.position = 0 ∨ e.position = 1) :
    validate_custom_sets cfg param1 param2 sets =
      if sets.any (fun set =>
          set_accepts_at cfg set 0 param1 && set_accepts_at cfg set 1 param2) = true then 0
      else -EINVAL := by
  induction sets with
  | nil => simp [validate_custom_sets]
  | cons set rest ih =>
    rw [validate_custom_sets_cons,
      validate_custom_values_accepted cfg param1 param2 set.values
        (hpos set (List.mem_cons_self _ _)),
      accepted_with_start, ih (fun t ht => hpos t (List.mem_cons_of_mem _ ht)), List.any_cons]
    by_cases h : (set_accepts_at cfg set 0 param1 && set_accepts_at cfg set 1 param2) = true
    · simp [h]
    · simp only [h, if_false, Bool.false_eq_true]
      simp only [Bool.not_eq_true] at h
      simp [h]

/-- Claim C19: for a custom parameter metadata whose entries all have
position 0 or 1 and 32-bit parameters, `validate_custom_params` returns 0 if
and only if some set accepts `param1` at position 0 and `param2` at position
1 (an entry of the position matches the parameter, or the set has no entry of
the position and the parameter is 0), and it returns `-EINVAL` otherwise; in
every set the test of the flags gives the same answer whether the entry loop
leaves once both parameters matched or visits every entry. -/
theorem validate_custom_params_iff (cfg : Config) (custom : behavior_parameter_metadata_custom)
    (param1 param2 : Nat) (h1 : param1 < 4294967296) (h2 : param2 < 4294967296)
    (hpos : ∀ set ∈ custom.sets, ∀ e ∈ set.values, e.position = 0 ∨ e.position = 1) :
    (validate_custom_params cfg (some custom) param1 param2 = 0 ↔
        custom_accepts cfg custom param1 param2 = true) ∧
      (custom_accepts cfg custom param1 param2 = false →
        validate_custom_params cfg (some custom) param1 param2 = -EINVAL) ∧
      (∀ set ∈ custom.sets,
        (validate_custom_values cfg param1 param2 set.values
            custom_set_flags.start).accepted param1 param2 =
          (validate_custom_values_all cfg param1 param2 set.values
            custom_set_flags.start).accepted param1 param2) := by
  have hv : validate_custom_params cfg (some custom) param1 param2 =
      if custom_accepts cfg custom param1 param2 = true then 0 else -EINVAL := by
    simp only [validate_custom_params, to_uint32_t, Nat.mod_eq_of_lt h1, Nat.mod_eq_of_lt h2]
    rw [validate_custom_sets_spec cfg param1 param2 custom.sets hpos]
    rfl
  refine ⟨?_, ?_, ?_⟩
  · rw [hv]
    by_cases h : custom_accepts cfg custom param1 param2 = true
    · simp [h]
    · simp [h, EINVAL]
  · intro h
    rw [hv, h]
    simp
  · intro set hset
    rw [validate_custom_values_accepted cfg param1 param2 set.values (hpos set hset),
      validate_custom_values_all_accepted cfg param1 param2 set.values (hpos set hset)]

/-- Instance of the custom rule: the set with the literal 5 at position 0
and the range 1 to 3 at position 1 accepts the parameters 5 and 2. -/
theorem validate_custom_params_iff_witness :
    validate_custom_params (plain_config 2 4) (some example_custom) 5 2 = 0 :=
  (validate_custom_params_iff (plain_config 2 4) example_custom 5 2 (by decide) (by decide)
    (by decide)).1.2 (by decide)

/-- Outside the data model of claim C19: an entry whose position is neither 0
nor 1 is read by the code as an entry of position 1, so the set with the
single literal 5 at position 2 accepts `param2 = 5`. -/
theorem validate_custom_params_position_2 :
    validate_custom_params (plain_config 2 4) (some position_2_custom) 0 5 = 0 := by
  decide

/-- Claim C20: in a build with parameter metadata, for a binding whose
behavior resolves and whose metadata is fetched without error in standard
form, `zmk_behavior_validate_binding` returns 0 if and only if
`validate_standard_param` accepts `param1` for the first declared domain and
accepts `param2` for the second, each parameter against its own domain only;
the null domain accepts a 32-bit value if and only if it is 0, the hsv domain
accepts every value; for a behavior name that does not resolve the result is
`-ENODEV`, and for a metadata tag that is neither standard nor custom it is
`-ENOTSUP`. -/
theorem validate_binding_standard (env : Env) (cfg : Config) (binding : zmk_behavior_binding)
    (hmeta : cfg.CONFIG_ZMK_BEHAVIOR_METADATA = true) :
    (∀ behavior ret d1 d2,
        zmk_behavior_get_binding env binding.behavior_dev = some behavior →
        env.behavior_get_parameter_domains behavior =
          (ret, behavior_parameter_metadata.BEHAVIOR_PARAMETER_METADATA_STANDARD d1 d2) →
        0 ≤ ret →
        (zmk_behavior_validate_binding env cfg binding = 0 ↔
          validate_standard_param cfg d1 binding.param1 = 0 ∧
            validate_standard_param cfg d2 binding.param2 = 0)) ∧
      (∀ d v, validate_standard_param cfg d v = 0 ∨ validate_standard_param cfg d v = -EINVAL) ∧
      (∀ v, v < 4294967296 →
        (validate_standard_param cfg
          behavior_parameter_standard_domain.BEHAVIOR_PARAMETER_STANDARD_DOMAIN_NULL v = 0 ↔
            v = 0)) ∧
      (∀ v, validate_standard_param cfg
        behavior_parameter_standard_domain.BEHAVIOR_PARAMETER_STANDARD_DOMAIN_HSV v = 0) ∧
      (zmk_behavior_get_binding env binding.behavior_dev = none →
        zmk_behavior_validate_binding env cfg binding = -ENODEV) ∧
      (∀ behavior ret,
        zmk_behavior_get_binding env binding.behavior_dev = some behavior →
        env.behavior_get_parameter_domains behavior =
          (ret, behavior_parameter_metadata.out_of_range) →
        0 ≤ ret →
        zmk_behavior_validate_binding env cfg binding = -ENOTSUP) := by
  have hstd : ∀ d v, validate_standard_param cfg d v = 0 ∨
      validate_standard_param cfg d v = -EINVAL := by
    intro d v
    cases d <;> simp only [validate_standard_param, validate_hid_usage] <;>
      (repeat' split) <;> simp
  refine ⟨?_, hstd, ?_, ?_, ?_, ?_⟩
  · intro behavior ret d1 d2 hb hd hret
    have hnot : ¬ ret < 0 := by omega
    simp only [zmk_behavior_validate_binding, hmeta, if_true, hb, hd, hnot, if_false]
    rcases hstd d1 binding.param1 with h | h
    · simp [h]
    · simp [h, EINVAL]
  · intro v hv
    have hv' : to_uint32_t v = v := Nat.mod_eq_of_lt hv
    simp only [validate_standard_param, hv']
    split_ifs with h
    · simp [EINVAL, h]
    · simp only [ne_eq, not_not] at h
      simp [h]
  · intro v
    simp [validate_standard_param]
  · intro hb
    simp only [zmk_behavior_validate_binding, hmeta, if_true, hb]
  · intro behavior ret hb hd hret
    have hnot : ¬ ret < 0 := by omega
    simp only [zmk_behavior_validate_binding, hmeta, if_true, hb, hd, hnot, if_false]

/-- Instance of the standard rule: behavior `A`, whose two domains are hsv,
accepts the parameters 7 and 9. -/
theorem validate_binding_standard_witness :
    zmk_behavior_validate_binding two_behavior_env (metadata_config 2 4)
      { behavior_dev := device_A.name, param1 := 7, param2 := 9 } = 0 :=
  ((validate_binding_standard two_behavior_env (metadata_config 2 4)
    { behavior_dev := device_A.name, param1 := 7, param2 := 9 } (by decide)).1 device_A 0
    behavior_parameter_standard_domain.BEHAVIOR_PARAMETER_STANDARD_DOMAIN_HSV
    behavior_parameter_standard_domain.BEHAVIOR_PARAMETER_STANDARD_DOMAIN_HSV (by decide) rfl
    (by decide)).2 ⟨by decide, by decide⟩

/-! ### Behaviour identifiers in the RPC handler -/

/-- Claim C21 fails on the code: in the example registry the ready behaviors
have the local IDs 1 and 2, so 65537 is the local ID of none of them; yet the
request `{layer = 0, key_position = 0, behavior_id = 65537}` is answered
`SUCCESS`, overwrites cell `(0, 0)` with behavior `A` and sets its pending
bit, because the 32-bit `behavior_id` is converted to the 16-bit
`zmk_behavior_local_id_t` before the lookup.  For identifiers below 65536 the
claim holds: an identifier of no ready behavior is answered
`INVALID_BEHAVIOR`, and a binding rejected by the validator is answered
`INVALID_PARAMETERS`, both with the state returned as it was. -/
theorem set_layer_binding_behavior_id_65537 :
    (∀ item ∈ two_behavior_env.zmk_behavior_local_id_maps, item.local_id ≠ 65537) ∧
      (set_layer_binding two_behavior_env (metadata_config 2 4)
        { layer := 0, key_position := 0,
          binding := { behavior_id := 65537, param1 := 4, param2 := 0 } }
        (initial_state two_layer_keymap)).1 =
        zmk_Response.set_layer_binding
          zmk_keymap_SetLayerBindingResponse.zmk_keymap_SetLayerBindingResponse_SUCCESS ∧
      (set_layer_binding two_behavior_env (metadata_config 2 4)
        { layer := 0, key_position := 0,
          binding := { behavior_id := 65537, param1 := 4, param2 := 0 } }
        (initial_state two_layer_keymap)).2.zmk_keymap 0 0 =
        { behavior_dev := device_A.name, param1 := 4, param2 := 0 } ∧
      (initial_state two_layer_keymap).zmk_keymap 0 0 =
        { behavior_dev := NULL, param1 := 0, param2 := 0 } ∧
      pending_bit (set_layer_binding two_behavior_env (metadata_config 2 4)
        { layer := 0, key_position := 0,
          binding := { behavior_id := 65537, param1 := 4, param2 := 0 } }
        (initial_state two_layer_keymap)).2 0 0 = true ∧
      pending_bit (initial_state two_layer_keymap) 0 0 = false ∧
      (∀ (env : Env) (cfg : Config) (set_req : zmk_keymap_SetLayerBindingRequest)
          (s : KeymapState), set_req.binding.behavior_id < 65536 →
        (∀ item ∈ env.zmk_behavior_local_id_maps, item.device.ready = true →
          item.local_id ≠ set_req.binding.behavior_id) →
        set_layer_binding env cfg set_req s =
          (zmk_Response.set_layer_binding
            zmk_keymap_SetLayerBindingResponse.zmk_keymap_SetLayerBindingResponse_INVALID_BEHAVIOR,
            s)) ∧
      (∀ (env : Env) (cfg : Config) (set_req : zmk_keymap_SetLayerBindingRequest)
          (s : KeymapState),
        (zmk_behavior_find_behavior_name_from_local_id env
          (to_uint16_t set_req.binding.behavior_id)).addr ≠ 0 →
        zmk_behavior_validate_binding env cfg
          { behavior_dev := zmk_behavior_find_behavior_name_from_local_id env
              (to_uint16_t set_req.binding.behavior_id)
            param1 := to_uint32_t set_req.binding.param1
            param2 := to_uint32_t set_req.binding.param2 } < 0 →
        set_layer_binding env cfg set_req s =
          (zmk_Response.set_layer_binding
            zmk_keymap_SetLayerBindingResponse.zmk_keymap_SetLayerBindingResponse_INVALID_PARAMETERS,
            s)) := by
  refine ⟨by decide, by decide, by decide, by decide, by decide, by decide, ?_, ?_⟩
  · intro env cfg set_req s hid hunknown
    have hu : to_uint16_t set_req.binding.behavior_id = set_req.binding.behavior_id :=
      Nat.mod_eq_of_lt hid
    have hn := find_name_unknown env _ hid hunknown
    unfold set_layer_binding
    simp only [hu, hn]
    rfl
  · intro env cfg set_req s hname hval
    unfold set_layer_binding
    simp only [if_neg hname, if_pos hval]

/-! ### Key positions outside the keymap, length of the cascade -/

/-- Claim C27 fails on the code: `zmk_keymap_position_state_changed` does not
compare `position` with `ZMK_KEYMAP_LEN`.  With two layers of four keys a
press at position 4 stores the layer state in
`zmk_keymap_active_behavior_layer[4]` and a release reads that element, both
outside the array of four elements, so the call has no defined result instead
of a domain error; this holds for every 32-bit position from `ZMK_KEYMAP_LEN`
on, while `zmk_keymap_set_layer_binding_at_idx` answers the same position
with `-EINVAL`. -/
theorem position_state_changed_position_4 :
    zmk_keymap_position_state_changed two_behavior_env (plain_config 2 4) 255 4 true 10
        (initial_state two_layer_keymap) = none ∧
      zmk_keymap_position_state_changed two_behavior_env (plain_config 2 4) 255 4 false 10
        (initial_state two_layer_keymap) = none ∧
      (∀ (env : Env) (cfg : Config) (source position : Nat) (pressed : Bool) (timestamp : Int)
          (s : KeymapState), position < 4294967296 → cfg.ZMK_KEYMAP_LEN ≤ position →
        (pressed = true ∨ 0 < cfg.ZMK_KEYMAP_LAYERS_LEN) →
        zmk_keymap_position_state_changed env cfg source position pressed timestamp s = none) ∧
      zmk_keymap_set_layer_binding_at_idx (plain_config 2 4) 0 4
        { behavior_dev := device_A.name, param1 := 0, param2 := 0 }
        (initial_state two_layer_keymap) = (-EINVAL, initial_state two_layer_keymap) := by
  refine ⟨rfl, rfl, ?_, rfl⟩
  intro env cfg source position pressed timestamp s h32 hK hor
  unfold zmk_keymap_position_state_changed
  have hp : to_uint32_t position = position := Nat.mod_eq_of_lt h32
  simp only [hp]
  rw [if_pos ⟨hK, hor⟩]

theorem loop_visits_sublist (env : Env) (cfg : Config) (source position : Nat)
    (pressed : Bool) (timestamp : Int) (n : Nat) :
    ∀ s : KeymapState,
      (zmk_keymap_position_state_changed_loop_visits env cfg source position pressed timestamp
        n s).Sublist (List.range n).reverse := by
  induction n with
  | zero => intro s; exact List.Sublist.refl _
  | succ layer ih =>
    intro s
    rw [List.range_succ, List.reverse_append, List.reverse_singleton, List.singleton_append]
    unfold zmk_keymap_position_state_changed_loop_visits
    simp only
    split_ifs
    · exact List.nil_sublist _
    · exact (ih _).cons₂ _
    · exact (List.nil_sublist _).cons₂ _
    · exact (ih _).cons _

theorem loop_eq_cascade_visits (env : Env) (cfg : Config) (source position : Nat)
    (pressed : Bool) (timestamp : Int) (n : Nat) :
    ∀ s : KeymapState,
      zmk_keymap_position_state_changed_loop env cfg source position pressed timestamp n s =
        cascade env cfg source position pressed timestamp
          (zmk_keymap_position_state_changed_loop_visits env cfg source position pressed
            timestamp n s) s := by
  induction n with
  | zero => intro s; rfl
  | succ layer ih =>
    intro s
    unfold zmk_keymap_position_state_changed_loop zmk_keymap_position_state_changed_loop_visits
    simp only
    by_cases h1 : layer < _zmk_keymap_layer_default
    · simp only [if_pos h1]
      rfl
    · simp only [if_neg h1]
      by_cases h2 : zmk_keymap_layer_active_with_state layer
          (s.zmk_keymap_active_behavior_layer position) = true
      · simp only [if_pos h2]
        by_cases h3 : (zmk_keymap_apply_position_state env cfg source layer position pressed
            timestamp s).1 > 0
        · simp only [if_pos h3]
          unfold cascade
          simp only [if_pos h3]
          exact ih _
        · simp only [if_neg h3, ite_self]
          unfold cascade
          simp only [if_neg h3]
      · simp only [if_neg h2]
        exact ih _

/-- Claim C28: for a key position inside the keymap, in every state,
`zmk_keymap_position_state_changed` returns a result, and that result is the
one of offering the event in turn to the layers it visits; the visited layers
lie between the default layer and `L - 1`, no layer is visited twice, and
there are at most `L - default` of them, hence at most `L - default + 1`. -/
theorem cascade_visits_bounded (env : Env) (cfg : Config) (source position : Nat)
    (pressed : Bool) (timestamp : Int) (s : KeymapState)
    (hp : to_uint32_t position < cfg.ZMK_KEYMAP_LEN) :
    (∃ r, zmk_keymap_position_state_changed env cfg source position pressed timestamp s =
        some r ∧
      r = cascade env cfg (to_uint8_t source) (to_uint32_t position) pressed timestamp
        (zmk_keymap_position_state_changed_visits env cfg source position pressed timestamp s)
        (if pressed then
          { s with
            zmk_keymap_active_behavior_layer :=
              array_set s.zmk_keymap_active_behavior_layer (to_uint32_t position)
                s._zmk_keymap_layer_state }
          else s)) ∧
      (zmk_keymap_position_state_changed_visits env cfg source position pressed
        timestamp s).Nodup ∧
      (zmk_keymap_position_state_changed_visits env cfg source position pressed
        timestamp s).length ≤ cfg.ZMK_KEYMAP_LAYERS_LEN - zmk_keymap_layer_default ∧
      (zmk_keymap_position_state_changed_visits env cfg source position pressed
        timestamp s).length ≤ cfg.ZMK_KEYMAP_LAYERS_LEN - zmk_keymap_layer_default + 1 ∧
      (∀ layer ∈ zmk_keymap_position_state_changed_visits env cfg source position pressed
          timestamp s, zmk_keymap_layer_default ≤ layer ∧ layer < cfg.ZMK_KEYMAP_LAYERS_LEN) := by
  have hsub := loop_visits_sublist env cfg (to_uint8_t source) (to_uint32_t position) pressed
    timestamp cfg.ZMK_KEYMAP_LAYERS_LEN
    (if pressed then
      { s with
        zmk_keymap_active_behavior_layer :=
          array_set s.zmk_keymap_active_behavior_layer (to_uint32_t position)
            s._zmk_keymap_layer_state }
      else s)
  have hv : zmk_keymap_position_state_changed_visits env cfg source position pressed
      timestamp s =
      zmk_keymap_position_state_changed_loop_visits env cfg (to_uint8_t source)
        (to_uint32_t position) pressed timestamp cfg.ZMK_KEYMAP_LAYERS_LEN
        (if pressed then
          { s with
            zmk_keymap_active_behavior_layer :=
              array_set s.zmk_keymap_active_behavior_layer (to_uint32_t position)
                s._zmk_keymap_layer_state }
          else s) := rfl
  have hlen := hsub.length_le
  rw [List.length_reverse, List.length_range] at hlen
  have hdef : zmk_keymap_layer_default = 0 := rfl
  refine ⟨⟨_, ?_, rfl⟩, ?_, ?_, ?_, ?_⟩
  · unfold zmk_keymap_position_state_changed
    simp only
    rw [if_neg (by intro h; exact absurd h.1 (by omega))]
    rw [hv, ← loop_eq_cascade_visits]
  · rw [hv]
    exact hsub.nodup (List.nodup_reverse.2 (List.nodup_range _))
  · rw [hv, hdef]; omega
  · rw [hv, hdef]; omega
  · intro layer hl
    rw [hv] at hl
    have := hsub.subset hl
    rw [List.mem_reverse, List.mem_range] at this
    rw [hdef]
    exact ⟨Nat.zero_le _, this⟩

/-- Claim C28 at a concrete event: with layer 1 active, a press at position 2
whose binding on layer 1 passes the event on is offered to layer 1 and then to
layer 0, two layers out of two. -/
theorem cascade_visits_bounded_witness :
    to_uint32_t 2 < (plain_config 2 4).ZMK_KEYMAP_LEN ∧
      zmk_keymap_position_state_changed_visits (conversion_result_env 5) (plain_config 2 4)
        255 2 true 10 layer_1_active_state = [1, 0] ∧
      (zmk_keymap_position_state_changed_visits (conversion_result_env 5) (plain_config 2 4)
        255 2 true 10 layer_1_active_state).length ≤
        (plain_config 2 4).ZMK_KEYMAP_LAYERS_LEN - zmk_keymap_layer_default + 1 :=
  ⟨by decide, by decide,
    (cascade_visits_bounded (conversion_result_env 5) (plain_config 2 4) 255 2 true 10
      layer_1_active_state (by decide)).2.2.2.1⟩

/-! ### Conversion errors, dispatch by locality -/

/-- Claim C29 is false as worded: with layer 1 active and a conversion that
returns 5 for the binding on layer 1, a press at position 2 is passed on to
layer 0, whose behavior `B` is invoked, and the dispatch returns 0 instead of
the conversion result 5. -/
theorem positive_conversion_result_continues :
    ((conversion_result_env 5).behavior_keymap_binding_convert_central_state_dependent_params
        layer_1_active_state (layer_1_active_state.zmk_keymap 1 2)
        { layer := 1, position := 2, timestamp := 10 }).1 = 5 ∧
      (zmk_keymap_position_state_changed (conversion_result_env 5) (plain_config 2 4) 255 2
        true 10 layer_1_active_state).map (fun r => (r.1, r.2.trace)) =
        some (0, layer_1_active_state.trace ++ [ExtCall.behavior_keymap_binding_pressed
          { behavior_dev := device_B.name, param1 := 0, param2 := 0 }
          { layer := 0, position := 2, timestamp := 10 }]) := by
  refine ⟨by decide, ?_⟩
  rw [position_state_changed_eq_cascade (conversion_result_env 5) (plain_config 2 4) 255 2 true
    10 layer_1_active_state (by decide) (by decide) (by decide)]
  decide

/-- Claim C29, amended: when the cascade offers the event to a layer whose
binding resolves to a behavior and the conversion of the central-state-dependent
parameters returns a negative result, `zmk_keymap_apply_position_state` returns
that result with the state and the recorded calls as they were (the behavior
is not invoked), the cascade ends there whatever lower layers remain, and the
loop of `zmk_keymap_position_state_changed` returns the conversion result; if
the layer is the highest candidate, so does the dispatch.  A positive
conversion result is not invoked either, but the event is passed on to the
lower layers. -/
theorem negative_conversion_result_abandons (env : Env) (cfg : Config)
    (source layer position : Nat) (pressed : Bool) (timestamp : Int) (lower : List Nat)
    (s : KeymapState) (behavior : device)
    (hsource : source < 256) (hposition : position < 4294967296)
    (hbehavior : zmk_behavior_get_binding env (s.zmk_keymap layer position).behavior_dev =
      some behavior)
    (hconv : (env.behavior_keymap_binding_convert_central_state_dependent_params s
      (s.zmk_keymap layer position)
      { layer := layer, position := position, timestamp := timestamp }).1 ≠ 0) :
    zmk_keymap_apply_position_state env cfg source layer position pressed timestamp s =
        ((env.behavior_keymap_binding_convert_central_state_dependent_params s
          (s.zmk_keymap layer position)
          { layer := layer, position := position, timestamp := timestamp }).1, s) ∧
      ((env.behavior_keymap_binding_convert_central_state_dependent_params s
          (s.zmk_keymap layer position)
          { layer := layer, position := position, timestamp := timestamp }).1 < 0 →
        cascade env cfg source position pressed timestamp (layer :: lower) s =
            ((env.behavior_keymap_binding_convert_central_state_dependent_params s
              (s.zmk_keymap layer position)
              { layer := layer, position := position, timestamp := timestamp }).1, s) ∧
          (zmk_keymap_layer_active_with_state layer
              (s.zmk_keymap_active_behavior_layer position) = true →
            zmk_keymap_position_state_changed_loop env cfg source position pressed timestamp
              (layer + 1) s =
              ((env.behavior_keymap_binding_convert_central_state_dependent_params s
                (s.zmk_keymap layer position)
                { layer := layer, position := position, timestamp := timestamp }).1, s)) ∧
          (∀ s0 : KeymapState, cfg.ZMK_KEYMAP_LAYERS_LEN ≤ 32 →
            position < cfg.ZMK_KEYMAP_LEN →
            s = (if pressed then
              { s0 with
                zmk_keymap_active_behavior_layer :=
                  array_set s0.zmk_keymap_active_behavior_layer position
                    s0._zmk_keymap_layer_state }
              else s0) →
            candidate_layers cfg
              (if pressed then s0._zmk_keymap_layer_state
                else s0.zmk_keymap_active_behavior_layer position) = layer :: lower →
            zmk_keymap_position_state_changed env cfg source position pressed timestamp s0 =
              some ((env.behavior_keymap_binding_convert_central_state_dependent_params s
                (s.zmk_keymap layer position)
                { layer := layer, position := position, timestamp := timestamp }).1, s))) ∧
      ((env.behavior_keymap_binding_convert_central_state_dependent_params s
          (s.zmk_keymap layer position)
          { layer := layer, position := position, timestamp := timestamp }).1 > 0 →
        cascade env cfg source position pressed timestamp (layer :: lower) s =
          cascade env cfg source position pressed timestamp lower s) := by
  have hs : to_uint8_t source = source := Nat.mod_eq_of_lt hsource
  have hp : to_uint32_t position = position := Nat.mod_eq_of_lt hposition
  have happly : zmk_keymap_apply_position_state env cfg source layer position pressed
      timestamp s =
      ((env.behavior_keymap_binding_convert_central_state_dependent_params s
        (s.zmk_keymap layer position)
        { layer := layer, position := position, timestamp := timestamp }).1, s) := by
    unfold zmk_keymap_apply_position_state
    simp only [hs, hp, hbehavior]
    rw [if_pos hconv]
  have hcasc : ∀ rest, (env.behavior_keymap_binding_convert_central_state_dependent_params s
      (s.zmk_keymap layer position)
      { layer := layer, position := position, timestamp := timestamp }).1 < 0 →
      cascade env cfg source position pressed timestamp (layer :: rest) s =
        ((env.behavior_keymap_binding_convert_central_state_dependent_params s
          (s.zmk_keymap layer position)
          { layer := layer, position := position, timestamp := timestamp }).1, s) := by
    intro rest hneg
    unfold cascade
    simp only [happly]
    rw [if_neg (by omega)]
  refine ⟨happly, fun hneg => ⟨hcasc lower hneg, ?_, ?_⟩, ?_⟩
  · intro hactive
    unfold zmk_keymap_position_state_changed_loop
    simp only [happly, hactive, if_true]
    rw [if_neg (by simp [_zmk_keymap_layer_default]), if_neg (by omega)]
    simp only [ite_self]
  · intro s0 hL hK hs0 hcands
    rw [position_state_changed_eq_cascade env cfg source position pressed timestamp s0 hL hK
      hposition, hs, hcands, ← hs0, hcasc lower hneg]
  · intro hpos
    conv_lhs => unfold cascade
    simp only [happly]
    rw [if_pos hpos]

/-- Claim C29, amended, at a concrete event: with layer 1 active and a
conversion that returns -22 for the binding on layer 1, a release at position
2 pressed under layer 1 returns -22 and records no call. -/
theorem negative_conversion_result_abandons_witness :
    (zmk_keymap_position_state_changed (conversion_result_env (-22)) (plain_config 2 4) 255 2
        false 10
        { layer_1_active_state with
          zmk_keymap_active_behavior_layer := fun _ => 2 }).map (fun r => (r.1, r.2.trace)) =
      some (-22, layer_1_active_state.trace) := by
  rw [((negative_conversion_result_abandons (conversion_result_env (-22)) (plain_config 2 4) 255
    1 2 false 10 [0]
    { layer_1_active_state with zmk_keymap_active_behavior_layer := fun _ => 2 }
    device_A (by decide) (by decide) (by decide) (by decide)).2.1 (by decide)).2.2 _
    (by decide) (by decide) rfl (by decide)]
  rfl

theorem set_layer_state_trace (env : Env) (cfg : Config) (layer : Nat) (state : Bool)
    (s : KeymapState) :
    ∃ notes : List ExtCall, (∀ c ∈ notes, c.is_layer_state_changed = true) ∧
      (set_layer_state env cfg layer state s).2.trace = s.trace ++ notes := by
  unfold set_layer_state
  simp only
  split_ifs
  · exact ⟨[], by simp, by simp⟩
  · exact ⟨[], by simp, by simp⟩
  · exact ⟨[ExtCall.raise_layer_state_changed (to_uint8_t layer) state],
      by simp [ExtCall.is_layer_state_changed], rfl⟩
  · exact ⟨[], by simp, by simp⟩

theorem layer_to_loop_trace (env : Env) (cfg : Config) (n : Nat) :
    ∀ s : KeymapState, ∃ notes : List ExtCall,
      (∀ c ∈ notes, c.is_layer_state_changed = true) ∧
      (zmk_keymap_layer_to_loop env cfg n s).trace = s.trace ++ notes := by
  induction n with
  | zero => intro s; exact ⟨[], by simp, by simp [zmk_keymap_layer_to_loop]⟩
  | succ i ih =>
    intro s
    obtain ⟨n1, h1, e1⟩ := set_layer_state_trace env cfg (to_uint8_t i) false s
    obtain ⟨n2, h2, e2⟩ := ih (zmk_keymap_layer_deactivate env cfg i s).2
    refine ⟨n1 ++ n2, ?_, ?_⟩
    · intro c hc
      rcases List.mem_append.1 hc with h | h
      · exact h1 c h
      · exact h2 c h
    · show (zmk_keymap_layer_to_loop env cfg i (zmk_keymap_layer_deactivate env cfg i s).2).trace
        = _
      rw [e2]
      unfold zmk_keymap_layer_deactivate
      rw [e1, List.append_assoc]

theorem layer_call_trace (env : Env) (cfg : Config) (c : LayerCall) (s : KeymapState) :
    ∃ notes : List ExtCall, (∀ c ∈ notes, c.is_layer_state_changed = true) ∧
      (c.run env cfg s).2.trace = s.trace ++ notes := by
  cases c with
  | zmk_keymap_layer_activate l => exact set_layer_state_trace env cfg _ _ s
  | zmk_keymap_layer_deactivate l => exact set_layer_state_trace env cfg _ _ s
  | zmk_keymap_layer_toggle l =>
    show ∃ notes : List ExtCall, (∀ c ∈ notes, c.is_layer_state_changed = true) ∧
      (zmk_keymap_layer_toggle env cfg l s).2.trace = s.trace ++ notes
    unfold zmk_keymap_layer_toggle
    simp only
    split_ifs
    · exact set_layer_state_trace env cfg _ _ s
    · exact set_layer_state_trace env cfg _ _ s
  | zmk_keymap_layer_to l =>
    obtain ⟨n1, h1, e1⟩ := layer_to_loop_trace env cfg cfg.ZMK_KEYMAP_LAYERS_LEN s
    obtain ⟨n2, h2, e2⟩ := set_layer_state_trace env cfg (to_uint8_t (to_uint8_t l)) true
      (zmk_keymap_layer_to_loop env cfg cfg.ZMK_KEYMAP_LAYERS_LEN s)
    refine ⟨n1 ++ n2, ?_, ?_⟩
    · intro c hc
      rcases List.mem_append.1 hc with h | h
      · exact h1 c h
      · exact h2 c h
    · show (zmk_keymap_layer_to env cfg l s).2.trace = _
      unfold zmk_keymap_layer_to zmk_keymap_layer_activate
      simp only
      rw [e2, e1, List.append_assoc]

theorem run_layer_calls_trace (env : Env) (cfg : Config) (calls : List LayerCall) :
    ∀ s : KeymapState, ∃ notes : List ExtCall,
      (∀ c ∈ notes, c.is_layer_state_changed = true) ∧
      (run_layer_calls env cfg calls s).trace = s.trace ++ notes := by
  induction calls with
  | nil => intro s; exact ⟨[], by simp, by simp [run_layer_calls]⟩
  | cons c cs ih =>
    intro s
    obtain ⟨n1, h1, e1⟩ := layer_call_trace env cfg c s
    obtain ⟨n2, h2, e2⟩ := ih (c.run env cfg s).2
    refine ⟨n1 ++ n2, ?_, ?_⟩
    · intro c hc
      rcases List.mem_append.1 hc with h | h
      · exact h1 c h
      · exact h2 c h
    · show (run_layer_calls env cfg cs (c.run env cfg s).2).trace = _
      rw [e2, e1, List.append_assoc]

theorem invoke_locally_trace (env : Env) (cfg : Config) (binding : zmk_behavior_binding)
    (event : zmk_behavior_binding_event) (pressed : Bool) (s : KeymapState) :
    ∃ notes : List ExtCall, (∀ c ∈ notes, c.is_layer_state_changed = true) ∧
      (invoke_locally env cfg binding event pressed s).2.trace =
        s.trace ++
          [if pressed then ExtCall.behavior_keymap_binding_pressed binding event
            else ExtCall.behavior_keymap_binding_released binding event] ++ notes := by
  unfold invoke_locally
  cases pressed with
  | true =>
    simp only [if_true]
    obtain ⟨n, h, e⟩ := run_layer_calls_trace env cfg
      (env.behavior_keymap_binding_pressed s binding event).2
      { s with trace := s.trace ++ [ExtCall.behavior_keymap_binding_pressed binding event] }
    exact ⟨n, h, e⟩
  | false =>
    simp only [Bool.false_eq_true, if_false]
    obtain ⟨n, h, e⟩ := run_layer_calls_trace env cfg
      (env.behavior_keymap_binding_released s binding event).2
      { s with trace := s.trace ++ [ExtCall.behavior_keymap_binding_released binding event] }
    exact ⟨n, h, e⟩

theorem split_bt_invoke_fold_trace (env : Env) (binding : zmk_behavior_binding)
    (event : zmk_behavior_binding_event) (pressed : Bool) (sources : List Nat) :
    ∀ s : KeymapState,
      (sources.foldl (fun st i => (split_bt_invoke env i binding event pressed st).2) s).trace =
        s.trace ++
          sources.map (fun i => ExtCall.zmk_split_bt_invoke_behavior i binding event pressed) := by
  induction sources with
  | nil => intro s; simp
  | cons i rest ih =>
    intro s
    rw [List.foldl_cons, ih]
    simp [split_bt_invoke]

/-- Claim C30: on a split central, when the binding of the cell resolves to a
behavior, the conversion succeeds with the binding `b` and the locality is
obtained, `zmk_keymap_apply_position_state` records exactly these calls,
followed only by the layer events that the invoked behavior causes: for a
central behavior one local call; for an event-source behavior one local call
when `source` is the local source, and otherwise one call of
`zmk_split_bt_invoke_behavior` for `source` and nothing else; for a global
behavior one call of `zmk_split_bt_invoke_behavior` for each peripheral
`0 .. count - 1` in order, then one local call.  The local call is the pressed
handler when `pressed` is true and the released handler otherwise. -/
theorem apply_position_state_dispatch_by_locality (env : Env) (cfg : Config)
    (source layer position : Nat) (pressed : Bool) (timestamp : Int) (s : KeymapState)
    (behavior : device)
    (hcentral : cfg.ZMK_BLE_IS_CENTRAL = true)
    (hsource : source < 256) (hposition : position < 4294967296)
    (hbehavior : zmk_behavior_get_binding env (s.zmk_keymap layer position).behavior_dev =
      some behavior)
    (hconv : (env.behavior_keymap_binding_convert_central_state_dependent_params s
      (s.zmk_keymap layer position)
      { layer := layer, position := position, timestamp := timestamp }).1 = 0)
    (hloc : (env.behavior_get_locality s behavior).1 = 0) :
    ((env.behavior_get_locality s behavior).2 = behavior_locality.BEHAVIOR_LOCALITY_CENTRAL →
        ∃ notes : List ExtCall, (∀ c ∈ notes, c.is_layer_state_changed = true) ∧
          (zmk_keymap_apply_position_state env cfg source layer position pressed timestamp
            s).2.trace = s.trace ++
            [if pressed then
              ExtCall.behavior_keymap_binding_pressed
                (env.behavior_keymap_binding_convert_central_state_dependent_params s
                  (s.zmk_keymap layer position)
                  { layer := layer, position := position, timestamp := timestamp }).2
                { layer := layer, position := position, timestamp := timestamp }
            else
              ExtCall.behavior_keymap_binding_released
                (env.behavior_keymap_binding_convert_central_state_dependent_params s
                  (s.zmk_keymap layer position)
                  { layer := layer, position := position, timestamp := timestamp }).2
                { layer := layer, position := position, timestamp := timestamp }] ++ notes) ∧
      ((env.behavior_get_locality s behavior).2 =
          behavior_locality.BEHAVIOR_LOCALITY_EVENT_SOURCE →
        source = cfg.ZMK_POSITION_STATE_CHANGE_SOURCE_LOCAL →
        ∃ notes : List ExtCall, (∀ c ∈ notes, c.is_layer_state_changed = true) ∧
          (zmk_keymap_apply_position_state env cfg source layer position pressed timestamp
            s).2.trace = s.trace ++
            [if pressed then
              ExtCall.behavior_keymap_binding_pressed
                (env.behavior_keymap_binding_convert_central_state_dependent_params s
                  (s.zmk_keymap layer position)
                  { layer := layer, position := position, timestamp := timestamp }).2
                { layer := layer, position := position, timestamp := timestamp }
            else
              ExtCall.behavior_keymap_binding_released
                (env.behavior_keymap_binding_convert_central_state_dependent_params s
                  (s.zmk_keymap layer position)
                  { layer := layer, position := position, timestamp := timestamp }).2
                { layer := layer, position := position, timestamp := timestamp }] ++ notes) ∧
      ((env.behavior_get_locality s behavior).2 =
          behavior_locality.BEHAVIOR_LOCALITY_EVENT_SOURCE →
        source ≠ cfg.ZMK_POSITION_STATE_CHANGE_SOURCE_LOCAL →
        (zmk_keymap_apply_position_state env cfg source layer position pressed timestamp
          s).2.trace = s.trace ++
          [ExtCall.zmk_split_bt_invoke_behavior source
            (env.behavior_keymap_binding_convert_central_state_dependent_params s
              (s.zmk_keymap layer position)
              { layer := layer, position := position, timestamp := timestamp }).2
            { layer := layer, position := position, timestamp := timestamp } pressed]) ∧
      ((env.behavior_get_locality s behavior).2 = behavior_locality.BEHAVIOR_LOCALITY_GLOBAL →
        ∃ notes : List ExtCall, (∀ c ∈ notes, c.is_layer_state_changed = true) ∧
          (zmk_keymap_apply_position_state env cfg source layer position pressed timestamp
            s).2.trace = s.trace ++
            (List.range cfg.ZMK_SPLIT_BLE_PERIPHERAL_COUNT).map
              (fun i => ExtCall.zmk_split_bt_invoke_behavior i
                (env.behavior_keymap_binding_convert_central_state_dependent_params s
                  (s.zmk_keymap layer position)
                  { layer := layer, position := position, timestamp := timestamp }).2
                { layer := layer, position := position, timestamp := timestamp } pressed) ++
            [if pressed then
              ExtCall.behavior_keymap_binding_pressed
                (env.behavior_keymap_binding_convert_central_state_dependent_params s
                  (s.zmk_keymap layer position)
                  { layer := layer, position := position, timestamp := timestamp }).2
                { layer := layer, position := position, timestamp := timestamp }
            else
              ExtCall.behavior_keymap_binding_released
                (env.behavior_keymap_binding_convert_central_state_dependent_params s
                  (s.zmk_keymap layer position)
                  { layer := layer, position := position, timestamp := timestamp }).2
                { layer := layer, position := position, timestamp := timestamp }] ++ notes) := by
  have hs : to_uint8_t source = source := Nat.mod_eq_of_lt hsource
  have hp : to_uint32_t position = position := Nat.mod_eq_of_lt hposition
  refine ⟨?_, ?_, ?_, ?_⟩
  · intro hl
    unfold zmk_keymap_apply_position_state
    simp only [hs, hp, hbehavior, hconv, hloc, hl, ne_eq, not_true_eq_false, if_false]
    exact invoke_locally_trace env cfg _ _ pressed s
  · intro hl hsrc
    unfold zmk_keymap_apply_position_state
    simp only [hs, hp, hbehavior, hconv, hloc, hl, ne_eq, not_true_eq_false, if_false, hcentral,
      if_true]
    rw [if_pos hsrc]
    exact invoke_locally_trace env cfg _ _ pressed s
  · intro hl hsrc
    unfold zmk_keymap_apply_position_state
    simp only [hs, hp, hbehavior, hconv, hloc, hl, ne_eq, not_true_eq_false, if_false, hcentral,
      if_true]
    rw [if_neg hsrc]
    rfl
  · intro hl
    unfold zmk_keymap_apply_position_state
    simp only [hs, hp, hbehavior, hconv, hloc, hl, ne_eq, not_true_eq_false, if_false, hcentral,
      if_true]
    obtain ⟨n, h, e⟩ := invoke_locally_trace env cfg
      (env.behavior_keymap_binding_convert_central_state_dependent_params s
        (s.zmk_keymap layer position)
        { layer := layer, position := position, timestamp := timestamp }).2
      { layer := layer, position := position, timestamp := timestamp } pressed
      ((List.range cfg.ZMK_SPLIT_BLE_PERIPHERAL_COUNT).foldl
        (fun st i => (split_bt_invoke env i
          (env.behavior_keymap_binding_convert_central_state_dependent_params s
            (s.zmk_keymap layer position)
            { layer := layer, position := position, timestamp := timestamp }).2
          { layer := layer, position := position, timestamp := timestamp } pressed st).2) s)
    refine ⟨n, h, ?_⟩
    rw [e, split_bt_invoke_fold_trace]

/-- Claim C30 at a concrete event: on a central with two peripherals, a press
at position 2 from peripheral 1 whose behavior `B` is global is sent to the
peripherals 0 and 1 and then invoked locally with the pressed handler; the
same press with an event-source behavior is sent to peripheral 1 only. -/
theorem apply_position_state_dispatch_by_locality_witness :
    (zmk_keymap_apply_position_state (locality_env behavior_locality.BEHAVIOR_LOCALITY_GLOBAL)
        (central_config 2 4 2) 1 0 2 true 10 (initial_state two_layer_keymap)).2.trace =
        [ExtCall.zmk_split_bt_invoke_behavior 0
            { behavior_dev := device_B.name, param1 := 0, param2 := 0 }
            { layer := 0, position := 2, timestamp := 10 } true,
          ExtCall.zmk_split_bt_invoke_behavior 1
            { behavior_dev := device_B.name, param1 := 0, param2 := 0 }
            { layer := 0, position := 2, timestamp := 10 } true,
          ExtCall.behavior_keymap_binding_pressed
            { behavior_dev := device_B.name, param1 := 0, param2 := 0 }
            { layer := 0, position := 2, timestamp := 10 }] ∧
      (zmk_keymap_apply_position_state
        (locality_env behavior_locality.BEHAVIOR_LOCALITY_EVENT_SOURCE)
        (central_config 2 4 2) 1 0 2 true 10 (initial_state two_layer_keymap)).2.trace =
        (initial_state two_layer_keymap).trace ++
          [ExtCall.zmk_split_bt_invoke_behavior 1
            ((locality_env behavior_locality.BEHAVIOR_LOCALITY_EVENT_SOURCE).behavior_keymap_binding_convert_central_state_dependent_params
              (initial_state two_layer_keymap)
              ((initial_state two_layer_keymap).zmk_keymap 0 2)
              { layer := 0, position := 2, timestamp := 10 }).2
            { layer := 0, position := 2, timestamp := 10 } true] :=
  ⟨by decide,
    (apply_position_state_dispatch_by_locality
      (locality_env behavior_locality.BEHAVIOR_LOCALITY_EVENT_SOURCE) (central_config 2 4 2)
      1 0 2 true 10 (initial_state two_layer_keymap) device_B (by decide) (by decide)
      (by decide) (by decide) (by decide) (by decide)).2.2.1 (by decide) (by decide)⟩

/-! ### Local IDs: resolving by ID and by name -/

theorem two_name_maps_collision (crc : List Nat → Nat) (n1 n2 : List Char) (hne : n1 ≠ n2)
    (hcrc : to_uint16_t (crc (string_bytes n1)) = to_uint16_t (crc (string_bytes n2))) :
    zmk_behavior_find_behavior_name_from_local_id (local_id_env (two_name_maps crc n1 n2))
      (zmk_behavior_get_local_id (local_id_env (two_name_maps crc n1 n2))
        (named_device 80 n2).name) = (named_device 64 n1).name := by
  have hget : zmk_behavior_get_local_id (local_id_env (two_name_maps crc n1 n2))
      (named_device 80 n2).name = to_uint16_t (crc (string_bytes n2)) := by
    simp [zmk_behavior_get_local_id, local_id_env, two_name_maps, behavior_local_id_init_CRC16,
      named_device, List.find?, hne]
  rw [hget]
  have hcrc2 : crc (string_bytes n1) % 65536 = crc (string_bytes n2) % 65536 := hcrc
  simp [zmk_behavior_find_behavior_name_from_local_id, local_id_env, two_name_maps,
    behavior_local_id_init_CRC16, named_device, List.find?, hcrc2, to_uint16_t]

theorem crc_collision_exists (crc : List Nat → Nat) :
    ∃ n1 n2 : List Char, n1 ≠ n2 ∧
      to_uint16_t (crc (string_bytes n1)) = to_uint16_t (crc (string_bytes n2)) := by
  have hlt : ∀ k : Fin 65537,
      to_uint16_t (crc (string_bytes (List.replicate (k.val + 1) 'a'))) < 65536 :=
    fun k => Nat.mod_lt _ (by decide)
  obtain ⟨x, y, hxy, hf⟩ := Fintype.exists_ne_map_eq_of_card_lt
    (fun k : Fin 65537 =>
      (⟨to_uint16_t (crc (string_bytes (List.replicate (k.val + 1) 'a'))), hlt k⟩ : Fin 65536))
    (by rw [Fintype.card_fin, Fintype.card_fin]; omega)
  refine ⟨List.replicate (x.val + 1) 'a', List.replicate (y.val + 1) 'a', ?_, ?_⟩
  · intro h
    have hl := congrArg List.length h
    simp only [List.length_replicate] at hl
    exact hxy (Fin.ext (by omega))
  · exact congrArg Fin.val hf

/-- Claim C22 is false as worded: under the CRC16 policy the ready behaviors
named `dad` and `haa` both receive the local ID 25624, the CRC16 of either
name, so resolving by the local ID of `haa` yields the name `dad`; and
whatever 16-bit function takes the place of the CRC16, there are two names
for which resolving by the local ID of the second yields the first.  Under
the settings-table policy the stored entries `local_id/1` for `A` and
`local_id/257` for `B` leave both behaviors with the local ID 1, the value of
`strtoul` being stored in a `uint8_t`, and resolving by the local ID of `B`
yields the name `A`. -/
theorem crc16_collision_breaks_round_trip :
    crc16_ansi (string_bytes "dad".toList) = 25624 ∧
      crc16_ansi (string_bytes "haa".toList) = 25624 ∧
      zmk_behavior_get_local_id
        (local_id_env (two_name_maps crc16_ansi "dad".toList "haa".toList))
        (named_device 80 "haa".toList).name = 25624 ∧
      (zmk_behavior_find_behavior_name_from_local_id
        (local_id_env (two_name_maps crc16_ansi "dad".toList "haa".toList))
        (zmk_behavior_get_local_id
          (local_id_env (two_name_maps crc16_ansi "dad".toList "haa".toList))
          (named_device 80 "haa".toList).name)).chars = "dad".toList ∧
      (∀ crc : List Nat → Nat, ∃ n1 n2 : List Char, n1 ≠ n2 ∧
        (zmk_behavior_find_behavior_name_from_local_id (local_id_env (two_name_maps crc n1 n2))
          (zmk_behavior_get_local_id (local_id_env (two_name_maps crc n1 n2))
            (named_device 80 n2).name)).chars = n1) ∧
      (behavior_local_id_init_SETTINGS_TABLE
        [(local_id_handler_name 1, string_bytes ['A']),
          (local_id_handler_name 257, string_bytes ['B'])]
        (local_id_boot_state [device_A, device_B])).2.zmk_behavior_local_id_maps =
        [{ device := device_A, local_id := 1 }, { device := device_B, local_id := 1 }] ∧
      zmk_behavior_find_behavior_name_from_local_id
        (local_id_env (behavior_local_id_init_SETTINGS_TABLE
          [(local_id_handler_name 1, string_bytes ['A']),
            (local_id_handler_name 257, string_bytes ['B'])]
          (local_id_boot_state [device_A, device_B])).2.zmk_behavior_local_id_maps)
        (zmk_behavior_get_local_id
          (local_id_env (behavior_local_id_init_SETTINGS_TABLE
            [(local_id_handler_name 1, string_bytes ['A']),
              (local_id_handler_name 257, string_bytes ['B'])]
            (local_id_boot_state [device_A, device_B])).2.zmk_behavior_local_id_maps)
          device_B.name) = device_A.name := by
  refine ⟨by decide, by decide, by decide, by decide, ?_, by decide, by decide⟩
  intro crc
  obtain ⟨n1, n2, hne, hcrc⟩ := crc_collision_exists crc
  exact ⟨n1, n2, hne, by rw [two_name_maps_collision crc n1 n2 hne hcrc]; rfl⟩

/-- Claim C22, amended: for every ready behavior of the section with name `n`,
when the local IDs are 16-bit values and no two ready behaviors with
different names have the same local ID, resolving by the local ID of `n`
yields the name `n`.  This holds for the section as either policy leaves it;
under the CRC16 policy the local ID of every behavior is the CRC16 of its
name, so that the condition says that no two ready names have the same
CRC16. -/
theorem local_id_round_trip (env : Env) (item : zmk_behavior_local_id_map)
    (hitem : item ∈ env.zmk_behavior_local_id_maps) (hready : item.device.ready = true)
    (hids : ∀ a ∈ env.zmk_behavior_local_id_maps, a.local_id < 65536)
    (hdistinct : ∀ a ∈ env.zmk_behavior_local_id_maps, ∀ b ∈ env.zmk_behavior_local_id_maps,
      a.device.ready = true → b.device.ready = true → a.local_id = b.local_id →
      a.device.name.chars = b.device.name.chars) :
    (zmk_behavior_find_behavior_name_from_local_id env
        (zmk_behavior_get_local_id env item.device.name)).chars = item.device.name.chars ∧
      (∀ (crc : List Nat → Nat) (maps : List zmk_behavior_local_id_map),
        env.zmk_behavior_local_id_maps = behavior_local_id_init_CRC16 crc maps →
        ∀ a ∈ env.zmk_behavior_local_id_maps,
          a.local_id = to_uint16_t (crc (string_bytes a.device.name.chars))) := by
  constructor
  · obtain ⟨item0, hitem0, hready0, hchars0, hid0⟩ :=
      get_local_id_found env item.device.name ⟨item, hitem, hready, rfl⟩
    obtain ⟨item1, hitem1, hready1, hid1, hname1⟩ :=
      find_name_known env item0.local_id (hids item0 hitem0) ⟨item0, hitem0, hready0, rfl⟩
    rw [hid0, hname1, hdistinct item1 hitem1 item0 hitem0 hready1 hready0 hid1, hchars0]
  · intro crc maps hmaps a ha
    rw [hmaps] at ha
    unfold behavior_local_id_init_CRC16 at ha
    obtain ⟨a0, _, rfl⟩ := List.mem_map.1 ha
    rfl

/-- Claim C22, amended, at a concrete section: the ready behaviors named `dad`
and `had` receive the different CRC16 values 25624 and 26584, and resolving by
the local ID of `had` yields the name `had`. -/
theorem local_id_round_trip_witness :
    (zmk_behavior_find_behavior_name_from_local_id
        (local_id_env (two_name_maps crc16_ansi "dad".toList "had".toList))
        (zmk_behavior_get_local_id
          (local_id_env (two_name_maps crc16_ansi "dad".toList "had".toList))
          (named_device 80 "had".toList).name)).chars = "had".toList :=
  (local_id_round_trip (local_id_env (two_name_maps crc16_ansi "dad".toList "had".toList))
    { device := named_device 80 "had".toList
      local_id := crc16_ansi (string_bytes "had".toList) }
    (by decide) (by decide) (by decide) (by decide)).1

/-! ### Local IDs under the settings-table policy -/

theorem commit_loop_length (items : List zmk_behavior_local_id_map) :
    ∀ (largest : Nat) (trace : List ExtCall),
      (behavior_handle_commit_loop items largest trace).1.length = items.length := by
  induction items with
  | nil => intro largest trace; rfl
  | cons item rest ih =>
    intro largest trace
    unfold behavior_handle_commit_loop
    split_ifs
    · simp [ih]
    · simp [ih]

theorem commit_loop_get (items : List zmk_behavior_local_id_map) :
    ∀ (largest : Nat) (trace : List ExtCall) (i : Nat) (item : zmk_behavior_local_id_map),
      largest + items.length < 65536 → items[i]? = some item →
      (behavior_handle_commit_loop items largest trace).1[i]? =
        some (if item.local_id ≠ 0 then item
          else { item with
                 local_id := largest +
                   (items.take (i + 1)).countP (fun x => decide (x.local_id = 0)) }) := by
  induction items with
  | nil => intro largest trace i item _ h; simp at h
  | cons head rest ih =>
    intro largest trace i item hwrap h
    have hlen : (head :: rest).length = rest.length + 1 := rfl
    unfold behavior_handle_commit_loop
    by_cases hz : head.local_id ≠ 0
    · rw [if_pos hz]
      cases i with
      | zero =>
        simp only [List.getElem?_cons_zero, Option.some.injEq] at h
        subst h
        simp [hz]
      | succ j =>
        simp only [List.getElem?_cons_succ] at h
        simp only [List.getElem?_cons_succ]
        rw [ih largest trace j item (by omega) h]
        have hc : ((head :: rest).take (j + 1 + 1)).countP (fun x => decide (x.local_id = 0)) =
            (rest.take (j + 1)).countP (fun x => decide (x.local_id = 0)) := by
          rw [List.take_succ_cons, List.countP_cons_of_neg]
          simpa using hz
        rw [hc]
    · rw [if_neg hz]
      have hz0 : head.local_id = 0 := by simpa using hz
      have hu : to_uint16_t (largest + 1) = largest + 1 := Nat.mod_eq_of_lt (by omega)
      cases i with
      | zero =>
        simp only [List.getElem?_cons_zero, Option.some.injEq] at h
        subst h
        simp [hz0, hu]
      | succ j =>
        simp only [List.getElem?_cons_succ] at h
        simp only [List.getElem?_cons_succ, hu]
        rw [ih (largest + 1) _ j item (by omega) h]
        have hc : ((head :: rest).take (j + 1 + 1)).countP (fun x => decide (x.local_id = 0)) =
            (rest.take (j + 1)).countP (fun x => decide (x.local_id = 0)) + 1 := by
          rw [List.take_succ_cons, List.countP_cons_of_pos]
          simpa using hz0
        rw [hc, show largest + 1 +
            (rest.take (j + 1)).countP (fun x => decide (x.local_id = 0)) =
          largest + ((rest.take (j + 1)).countP (fun x => decide (x.local_id = 0)) + 1)
          by omega]

theorem handle_set_loop_spec (name : List Nat) (local_id : Nat) :
    ∀ (maps maps1 : List zmk_behavior_local_id_map),
      behavior_handle_set_loop name local_id maps = some maps1 →
      maps1.length = maps.length ∧
        ∀ item ∈ maps1, item ∈ maps ∨ item.local_id = local_id := by
  intro maps
  induction maps with
  | nil => intro maps1 h; simp [behavior_handle_set_loop] at h
  | cons head rest ih =>
    intro maps1 h
    unfold behavior_handle_set_loop at h
    split_ifs at h with hm
    · simp only [Option.some.injEq] at h
      subst h
      refine ⟨rfl, ?_⟩
      intro item hitem
      rcases List.mem_cons.1 hitem with h1 | h1
      · right; rw [h1]
      · left; exact List.mem_cons_of_mem _ h1
    · cases hr : behavior_handle_set_loop name local_id rest with
      | none => rw [hr] at h; simp at h
      | some r =>
        rw [hr] at h
        simp only [Option.map_some', Option.some.injEq] at h
        subst h
        obtain ⟨hl, hin⟩ := ih r hr
        refine ⟨by simp [hl], ?_⟩
        intro item hitem
        rcases List.mem_cons.1 hitem with h1 | h1
        · left; rw [h1]; exact List.mem_cons_self _ _
        · rcases hin item h1 with h2 | h2
          · left; exact List.mem_cons_of_mem _ h2
          · right; exact h2

theorem handle_set_loop_none (name : List Nat) (local_id : Nat) :
    ∀ maps : List zmk_behavior_local_id_map,
      (∀ item ∈ maps, strcmp_eq name item.device.name.chars = false) →
      behavior_handle_set_loop name local_id maps = none := by
  intro maps
  induction maps with
  | nil => intro _; rfl
  | cons head rest ih =>
    intro h
    unfold behavior_handle_set_loop
    rw [if_neg (by rw [h head (List.mem_cons_self _ _)]; decide),
      ih (fun item hitem => h item (List.mem_cons_of_mem _ hitem))]
    rfl

theorem handle_set_cases (name : List Char) (len : Nat) (read_cb : settings_read_cb)
    (st : LocalIdState) :
    (behavior_handle_set name len read_cb st).2 = st ∨
      ∃ (maps1 : List zmk_behavior_local_id_map) (local_id : Nat), local_id < 256 ∧
        behavior_handle_set_loop ((read_cb len).2.take len) local_id
          st.zmk_behavior_local_id_maps = some maps1 ∧
        (behavior_handle_set name len read_cb st).2 =
          { st with
            zmk_behavior_local_id_maps := maps1
            largest_local_id := max st.largest_local_id local_id } := by
  unfold behavior_handle_set
  split
  · simp only
    split_ifs
    · left; rfl
    · left; rfl
    · left; rfl
    · split
      · next next maps1 hloop =>
        right
        exact ⟨maps1, _, Nat.mod_lt _ (by decide), hloop, rfl⟩
      · left; rfl
  · left; rfl

theorem handle_set_invariant (name : List Char) (len : Nat) (read_cb : settings_read_cb)
    (st : LocalIdState) (bound : Nat) (hbound : 255 ≤ bound)
    (hinv : ∀ item ∈ st.zmk_behavior_local_id_maps, item.local_id ≤ st.largest_local_id)
    (hlargest : st.largest_local_id ≤ bound) :
    (∀ item ∈ (behavior_handle_set name len read_cb st).2.zmk_behavior_local_id_maps,
        item.local_id ≤ (behavior_handle_set name len read_cb st).2.largest_local_id) ∧
      (behavior_handle_set name len read_cb st).2.largest_local_id ≤ bound ∧
      (behavior_handle_set name len read_cb st).2.zmk_behavior_local_id_maps.length =
        st.zmk_behavior_local_id_maps.length := by
  rcases handle_set_cases name len read_cb st with h | ⟨maps1, local_id, hlt, hloop, h⟩
  · rw [h]; exact ⟨hinv, hlargest, rfl⟩
  · rw [h]
    obtain ⟨hl, hin⟩ := handle_set_loop_spec _ _ _ _ hloop
    refine ⟨?_, ?_, hl⟩
    · intro item hitem
      show item.local_id ≤ max st.largest_local_id local_id
      rcases hin item hitem with h1 | h1
      · exact le_trans (hinv item h1) (le_max_left _ _)
      · rw [h1]; exact le_max_right _ _
    · show max st.largest_local_id local_id ≤ bound
      exact max_le hlargest (by omega)

theorem load_entries_invariant (entries : List (List Char × List Nat)) (bound : Nat)
    (hbound : 255 ≤ bound) :
    ∀ st : LocalIdState,
      (∀ item ∈ st.zmk_behavior_local_id_maps, item.local_id ≤ st.largest_local_id) →
      st.largest_local_id ≤ bound →
      (∀ item ∈ (behavior_load_entries entries st).zmk_behavior_local_id_maps,
          item.local_id ≤ (behavior_load_entries entries st).largest_local_id) ∧
        (behavior_load_entries entries st).largest_local_id ≤ bound ∧
        (behavior_load_entries entries st).zmk_behavior_local_id_maps.length =
          st.zmk_behavior_local_id_maps.length := by
  induction entries with
  | nil => intro st hinv hl; exact ⟨hinv, hl, rfl⟩
  | cons entry rest ih =>
    intro st hinv hl
    obtain ⟨h1, h2, h3⟩ := handle_set_invariant entry.1 entry.2.length
      (settings_value_read entry.2) st bound hbound hinv hl
    obtain ⟨g1, g2, g3⟩ := ih _ h1 h2
    exact ⟨g1, g2, g3.trans h3⟩

theorem countP_take_pos (items : List zmk_behavior_local_id_map) (i : Nat)
    (item : zmk_behavior_local_id_map) (h : items[i]? = some item) (hz : item.local_id = 0) :
    0 < (items.take (i + 1)).countP (fun x => decide (x.local_id = 0)) := by
  rw [List.countP_pos_iff]
  refine ⟨item, ?_, by simpa using hz⟩
  rw [List.mem_take_iff_getElem]
  have hi : i < items.length := by
    by_contra hc
    rw [List.getElem?_eq_none (by omega)] at h
    exact absurd h (by simp)
  refine ⟨i, by simp; omega, ?_⟩
  rw [List.getElem?_eq_getElem hi] at h
  exact Option.some.inj h

theorem countP_take_lt (items : List zmk_behavior_local_id_map) (i j : Nat) (hij : i < j)
    (item : zmk_behavior_local_id_map) (h : items[j]? = some item) (hz : item.local_id = 0) :
    (items.take (i + 1)).countP (fun x => decide (x.local_id = 0)) <
      (items.take (j + 1)).countP (fun x => decide (x.local_id = 0)) := by
  have hj : j < items.length := by
    by_contra hc
    rw [List.getElem?_eq_none (by omega)] at h
    exact absurd h (by simp)
  rw [List.getElem?_eq_getElem hj] at h
  have hitem : items[j] = item := Option.some.inj h
  have h1 : items.take (j + 1) = items.take j ++ [items[j]] := by
    rw [List.take_succ, List.getElem?_eq_getElem hj]
    rfl
  have h2 : (items.take (i + 1)).Sublist (items.take j) :=
    List.take_sublist_take_left _ (by omega)
  have h3 := h2.countP_le (fun x => decide (x.local_id = 0))
  rw [h1, List.countP_append, hitem]
  have h4 : List.countP (fun x => decide (x.local_id = 0)) [item] = 1 := by
    simp [List.countP_cons, hz]
  omega

theorem countP_take_le_length (items : List zmk_behavior_local_id_map) (i : Nat) :
    (items.take (i + 1)).countP (fun x => decide (x.local_id = 0)) ≤ items.length :=
  le_trans (List.countP_le_length _) (by simp)

theorem loaded_state_bounds (devices : List device) (entries : List (List Char × List Nat))
    (hlen : devices.length ≤ 65280) :
    (∀ item ∈ (behavior_load_entries entries
          (local_id_boot_state devices)).zmk_behavior_local_id_maps,
        item.local_id ≤
          (behavior_load_entries entries (local_id_boot_state devices)).largest_local_id) ∧
      (behavior_load_entries entries (local_id_boot_state devices)).largest_local_id +
        (behavior_load_entries entries
          (local_id_boot_state devices)).zmk_behavior_local_id_maps.length < 65536 := by
  obtain ⟨h1, h2, h3⟩ := load_entries_invariant entries 255 (le_refl _)
    (local_id_boot_state devices)
    (by
      intro item hitem
      simp only [local_id_boot_state, List.mem_map] at hitem
      obtain ⟨d, _, rfl⟩ := hitem
      exact Nat.zero_le _)
    (Nat.zero_le _)
  refine ⟨h1, ?_⟩
  have hl : (local_id_boot_state devices).zmk_behavior_local_id_maps.length =
      devices.length := by
    simp [local_id_boot_state]
  rw [h3, hl]
  omega

theorem commit_get (st : LocalIdState)
    (hwrap : st.largest_local_id + st.zmk_behavior_local_id_maps.length < 65536) (i : Nat)
    (item : zmk_behavior_local_id_map) (h : st.zmk_behavior_local_id_maps[i]? = some item) :
    (behavior_handle_commit st).2.zmk_behavior_local_id_maps[i]? =
      some (if item.local_id ≠ 0 then item
        else { item with
               local_id := st.largest_local_id +
                 (st.zmk_behavior_local_id_maps.take (i + 1)).countP
                   (fun x => decide (x.local_id = 0)) }) :=
  commit_loop_get st.zmk_behavior_local_id_maps st.largest_local_id st.trace i item hwrap h

theorem commit_new_id (st : LocalIdState)
    (hwrap : st.largest_local_id + st.zmk_behavior_local_id_maps.length < 65536) (i : Nat)
    (a c : zmk_behavior_local_id_map) (h : st.zmk_behavior_local_id_maps[i]? = some a)
    (hz : a.local_id = 0)
    (hc : (behavior_handle_commit st).2.zmk_behavior_local_id_maps[i]? = some c) :
    c.local_id = st.largest_local_id +
      (st.zmk_behavior_local_id_maps.take (i + 1)).countP (fun x => decide (x.local_id = 0)) := by
  rw [commit_get st hwrap i a h, if_neg (by simp [hz])] at hc
  rw [← Option.some.inj hc]

/-- Claim C25: in the state the stored entries leave on a section of at most
65280 behaviors, `behavior_handle_commit` returns 0 and keeps the section's
length and devices; an item with a non-zero local ID is left as it is; an
item with the local ID 0 receives `largest_local_id` plus its rank among the
items with the local ID 0 in table order; afterwards no item has the local ID
0, and the IDs given out grow with the table order, so that they are
pairwise distinct, and each exceeds every local ID the section held before. -/
theorem commit_assigns_next_ids (devices : List device)
    (entries : List (List Char × List Nat)) (st : LocalIdState)
    (hst : st = behavior_load_entries entries (local_id_boot_state devices))
    (hlen : devices.length ≤ 65280) :
    (behavior_handle_commit st).1 = 0 ∧
      (behavior_handle_commit st).2.zmk_behavior_local_id_maps.length =
        st.zmk_behavior_local_id_maps.length ∧
      (∀ (i : Nat) (item : zmk_behavior_local_id_map),
        st.zmk_behavior_local_id_maps[i]? = some item → item.local_id ≠ 0 →
        (behavior_handle_commit st).2.zmk_behavior_local_id_maps[i]? = some item) ∧
      (∀ (i : Nat) (item : zmk_behavior_local_id_map),
        st.zmk_behavior_local_id_maps[i]? = some item → item.local_id = 0 →
        (behavior_handle_commit st).2.zmk_behavior_local_id_maps[i]? =
          some { item with
                 local_id := st.largest_local_id +
                   (st.zmk_behavior_local_id_maps.take (i + 1)).countP
                     (fun x => decide (x.local_id = 0)) }) ∧
      (∀ item ∈ (behavior_handle_commit st).2.zmk_behavior_local_id_maps, item.local_id ≠ 0) ∧
      (∀ (i j : Nat) (a b c d : zmk_behavior_local_id_map), i < j →
        st.zmk_behavior_local_id_maps[i]? = some a → a.local_id = 0 →
        st.zmk_behavior_local_id_maps[j]? = some b → b.local_id = 0 →
        (behavior_handle_commit st).2.zmk_behavior_local_id_maps[i]? = some c →
        (behavior_handle_commit st).2.zmk_behavior_local_id_maps[j]? = some d →
        c.local_id < d.local_id) ∧
      (∀ (i : Nat) (a c : zmk_behavior_local_id_map),
        st.zmk_behavior_local_id_maps[i]? = some a → a.local_id = 0 →
        (behavior_handle_commit st).2.zmk_behavior_local_id_maps[i]? = some c →
        ∀ item ∈ st.zmk_behavior_local_id_maps, item.local_id < c.local_id) := by
  obtain ⟨hinv, hwrap⟩ := loaded_state_bounds devices entries hlen
  rw [← hst] at hinv hwrap
  have hlength : (behavior_handle_commit st).2.zmk_behavior_local_id_maps.length =
      st.zmk_behavior_local_id_maps.length :=
    commit_loop_length st.zmk_behavior_local_id_maps st.largest_local_id st.trace
  refine ⟨rfl, hlength, ?_, ?_, ?_, ?_, ?_⟩
  · intro i item h hz
    rw [commit_get st hwrap i item h, if_pos hz]
  · intro i item h hz
    rw [commit_get st hwrap i item h, if_neg (by simp [hz])]
  · intro item hitem
    obtain ⟨i, hi, hget⟩ := List.getElem_of_mem hitem
    have hi2 : i < st.zmk_behavior_local_id_maps.length := by rw [← hlength]; exact hi
    have h := List.getElem?_eq_getElem hi2
    have hc := commit_get st hwrap i _ h
    rw [List.getElem?_eq_getElem hi, hget] at hc
    have hc2 := Option.some.inj hc
    by_cases hz : (st.zmk_behavior_local_id_maps[i]).local_id ≠ 0
    · rw [if_pos hz] at hc2
      rw [hc2]; exact hz
    · rw [if_neg hz] at hc2
      rw [hc2]
      have := countP_take_pos st.zmk_behavior_local_id_maps i _ h (by simpa using hz)
      show st.largest_local_id + _ ≠ 0
      omega
  · intro i j a b c d hij ha haz hb hbz hc hd
    rw [commit_new_id st hwrap i a c ha haz hc, commit_new_id st hwrap j b d hb hbz hd]
    have := countP_take_lt st.zmk_behavior_local_id_maps i j hij b hb hbz
    omega
  · intro i a c ha haz hc item hitem
    rw [commit_new_id st hwrap i a c ha haz hc]
    have h1 := hinv item hitem
    have h2 := countP_take_pos st.zmk_behavior_local_id_maps i a ha haz
    omega

/-- Claim C25 at a concrete section: with the behaviors `A` and `B` and the
stored entry `local_id/7` for the name `B`, the state after the load holds the
local IDs 0 and 7, and the commit gives `A` the local ID 8 and leaves `B` with
7. -/
theorem commit_assigns_next_ids_witness :
    (behavior_load_entries [("local_id/7".toList, string_bytes ['B'])]
        (local_id_boot_state [device_A, device_B])).zmk_behavior_local_id_maps =
        [{ device := device_A, local_id := 0 }, { device := device_B, local_id := 7 }] ∧
      (behavior_handle_commit (behavior_load_entries [("local_id/7".toList, string_bytes ['B'])]
        (local_id_boot_state [device_A, device_B]))).2.zmk_behavior_local_id_maps =
        [{ device := device_A, local_id := 8 }, { device := device_B, local_id := 7 }] ∧
      (∀ item ∈ (behavior_handle_commit
          (behavior_load_entries [("local_id/7".toList, string_bytes ['B'])]
            (local_id_boot_state [device_A, device_B]))).2.zmk_behavior_local_id_maps,
        item.local_id ≠ 0) :=
  ⟨by decide, by decide,
    (commit_assigns_next_ids [device_A, device_B]
      [("local_id/7".toList, string_bytes ['B'])] _ rfl (by decide)).2.2.2.2.1⟩

theorem local_id_setting_name_eq (local_id : Nat) :
    local_id_setting_name local_id = "behavior/".toList ++ local_id_handler_name local_id := by
  simp [local_id_setting_name, local_id_handler_name]

theorem behavior_handle_set_handler_name (local_id len : Nat) (read_cb : settings_read_cb)
    (st : LocalIdState) :
    behavior_handle_set (local_id_handler_name local_id) len read_cb st =
      if len ≥ 64 then (-EINVAL, st)
      else if (read_cb len).1 ≤ 0 then ((read_cb len).1, st)
      else
        match behavior_handle_set_loop ((read_cb len).2.take len)
            (to_uint8_t (if local_id > ULONG_MAX then ULONG_MAX else local_id))
            st.zmk_behavior_local_id_maps with
        | some maps =>
          (0, { st with
                zmk_behavior_local_id_maps := maps
                largest_local_id := max st.largest_local_id
                  (to_uint8_t (if local_id > ULONG_MAX then ULONG_MAX else local_id)) })
        | none => (-EINVAL, st) := by
  have hsteq : settings_name_steq (local_id_handler_name local_id) "local_id".toList =
      (true, some (sprintf_d local_id ++ [])) := by
    simp [local_id_handler_name, settings_name_steq]
  have h1 : strtoul (sprintf_d local_id ++ []) =
      (if local_id > ULONG_MAX then ULONG_MAX else local_id, []) :=
    strtoul_sprintf_d local_id [] (by simp)
  unfold behavior_handle_set
  rw [hsteq]
  simp only [h1, ne_eq, not_true_eq_false, if_false]

/-- Claim C23 is false as worded: with the behaviors `A` and `B` in the image
and the single stored entry `local_id/1` for the name `gone`, which matches
neither `A` nor `B`, `behavior_handle_set` returns `-EINVAL` and leaves
`largest_local_id` at 0, and the commit that follows assigns the dead ID 1 to
`A`. -/
theorem dead_id_1_reused :
    strcmp_eq (string_bytes "gone".toList) device_A.name.chars = false ∧
      strcmp_eq (string_bytes "gone".toList) device_B.name.chars = false ∧
      behavior_handle_set (local_id_handler_name 1) 4
        (settings_value_read (string_bytes "gone".toList))
        (local_id_boot_state [device_A, device_B]) =
        (-EINVAL, local_id_boot_state [device_A, device_B]) ∧
      (behavior_local_id_init_SETTINGS_TABLE
        [(local_id_handler_name 1, string_bytes "gone".toList)]
        (local_id_boot_state [device_A, device_B])).2.zmk_behavior_local_id_maps =
        [{ device := device_A, local_id := 1 }, { device := device_B, local_id := 2 }] := by
  decide

/-- Claim C23, amended: a stored entry `local_id/<id>` of fewer than 64 bytes
whose name matches no behavior of the section makes `behavior_handle_set`
return `-EINVAL` with the section and `largest_local_id` as they were; the
commit that follows gives out only IDs above `largest_local_id`, so when
`id` is not above `largest_local_id` every behavior that has the local ID
`id` after the commit had it before: the commit assigns the dead ID to no
behavior. -/
theorem dead_id_not_assigned_below_largest (st : LocalIdState) (id len : Nat)
    (read_cb : settings_read_cb)
    (hlen : len < 64) (hread : 0 < (read_cb len).1)
    (hdead : ∀ item ∈ st.zmk_behavior_local_id_maps,
      strcmp_eq ((read_cb len).2.take len) item.device.name.chars = false)
    (hwrap : st.largest_local_id + st.zmk_behavior_local_id_maps.length < 65536)
    (hid : id ≤ st.largest_local_id) :
    behavior_handle_set (local_id_handler_name id) len read_cb st = (-EINVAL, st) ∧
      (∀ (i : Nat) (a c : zmk_behavior_local_id_map),
        st.zmk_behavior_local_id_maps[i]? = some a → a.local_id = 0 →
        (behavior_handle_commit
          (behavior_handle_set (local_id_handler_name id) len read_cb
            st).2).2.zmk_behavior_local_id_maps[i]? = some c →
        st.largest_local_id < c.local_id) ∧
      (∀ item ∈ (behavior_handle_commit
          (behavior_handle_set (local_id_handler_name id) len read_cb
            st).2).2.zmk_behavior_local_id_maps,
        item.local_id = id → item ∈ st.zmk_behavior_local_id_maps) := by
  have hset : behavior_handle_set (local_id_handler_name id) len read_cb st = (-EINVAL, st) := by
    rw [behavior_handle_set_handler_name, if_neg (by omega), if_neg (by omega),
      handle_set_loop_none _ _ _ hdead]
  rw [hset]
  refine ⟨rfl, ?_, ?_⟩
  · intro i a c ha haz hc
    rw [commit_new_id st hwrap i a c ha haz hc]
    have := countP_take_pos st.zmk_behavior_local_id_maps i a ha haz
    omega
  · intro item hitem hitemid
    have hlength : (behavior_handle_commit st).2.zmk_behavior_local_id_maps.length =
        st.zmk_behavior_local_id_maps.length :=
      commit_loop_length st.zmk_behavior_local_id_maps st.largest_local_id st.trace
    obtain ⟨i, hi, hget⟩ := List.getElem_of_mem hitem
    have hi2 : i < st.zmk_behavior_local_id_maps.length := by rw [← hlength]; exact hi
    have h := List.getElem?_eq_getElem hi2
    have hc := commit_get st hwrap i _ h
    rw [List.getElem?_eq_getElem hi, hget] at hc
    have hc2 := Option.some.inj hc
    by_cases hz : (st.zmk_behavior_local_id_maps[i]).local_id ≠ 0
    · rw [if_pos hz] at hc2
      rw [hc2]
      exact List.getElem_mem _
    · exfalso
      rw [if_neg hz] at hc2
      have hpos := countP_take_pos st.zmk_behavior_local_id_maps i _ h (by simpa using hz)
      have hval : item.local_id = st.largest_local_id +
          (st.zmk_behavior_local_id_maps.take (i + 1)).countP
            (fun x => decide (x.local_id = 0)) := by
        rw [hc2]
      omega

/-- Claim C23, amended, at a concrete section: `B` was loaded with the local
ID 7 and `A` has none; the dead entry `local_id/5` for the name `gone` is
rejected, and after the commit no behavior has the local ID 5, `A` having
received 8. -/
theorem dead_id_not_assigned_below_largest_witness :
    behavior_handle_set (local_id_handler_name 5) 4
        (settings_value_read (string_bytes "gone".toList))
        { zmk_behavior_local_id_maps :=
            [{ device := device_A, local_id := 0 }, { device := device_B, local_id := 7 }]
          largest_local_id := 7
          trace := [] } =
        (-EINVAL,
          { zmk_behavior_local_id_maps :=
              [{ device := device_A, local_id := 0 }, { device := device_B, local_id := 7 }]
            largest_local_id := 7
            trace := [] }) ∧
      (behavior_handle_commit
        { zmk_behavior_local_id_maps :=
            [{ device := device_A, local_id := 0 }, { device := device_B, local_id := 7 }]
          largest_local_id := 7
          trace := [] }).2.zmk_behavior_local_id_maps =
        [{ device := device_A, local_id := 8 }, { device := device_B, local_id := 7 }] :=
  ⟨(dead_id_not_assigned_below_largest
      { zmk_behavior_local_id_maps :=
          [{ device := device_A, local_id := 0 }, { device := device_B, local_id := 7 }]
        largest_local_id := 7
        trace := [] }
      5 4 (settings_value_read (string_bytes "gone".toList))
      (by decide) (by decide) (by decide) (by decide) (by decide)).1,
    by decide⟩

/-- Claim C24 fails on the code: with the behaviors `A` and `B` in the image,
the stored entry `local_id/256` for the name `A` makes `behavior_handle_set`
return 0 and leave `A` with the local ID 0 instead of 256, because the value
of `strtoul` is stored in a `uint8_t`, and the commit that follows changes it
to 1; the entry `local_id/300` gives `A` the local ID 44.  The entry
`local_id/255` gives `A` the local ID 255, which the commit keeps. -/
theorem handle_set_local_id_256 :
    behavior_handle_set (local_id_handler_name 256) 1 (settings_value_read (string_bytes ['A']))
        (local_id_boot_state [device_A, device_B]) =
        (0, { zmk_behavior_local_id_maps :=
                [{ device := device_A, local_id := 0 }, { device := device_B, local_id := 0 }]
              largest_local_id := 0
              trace := [] }) ∧
      (behavior_local_id_init_SETTINGS_TABLE
        [(local_id_handler_name 256, string_bytes ['A'])]
        (local_id_boot_state [device_A, device_B])).2.zmk_behavior_local_id_maps =
        [{ device := device_A, local_id := 1 }, { device := device_B, local_id := 2 }] ∧
      (behavior_handle_set (local_id_handler_name 300) 1
        (settings_value_read (string_bytes ['A']))
        (local_id_boot_state [device_A, device_B])).2.zmk_behavior_local_id_maps =
        [{ device := device_A, local_id := 44 }, { device := device_B, local_id := 0 }] ∧
      (behavior_handle_set (local_id_handler_name 255) 1
        (settings_value_read (string_bytes ['A']))
        (local_id_boot_state [device_A, device_B])).2.zmk_behavior_local_id_maps =
        [{ device := device_A, local_id := 255 }, { device := device_B, local_id := 0 }] ∧
      (behavior_local_id_init_SETTINGS_TABLE
        [(local_id_handler_name 255, string_bytes ['A'])]
        (local_id_boot_state [device_A, device_B])).2.zmk_behavior_local_id_maps =
        [{ device := device_A, local_id := 255 }, { device := device_B, local_id := 256 }] := by
  decide

/-! ### Selection of the physical layout -/

theorem get_selected_loop_at (active : zmk_physical_layout) :
    ∀ (layouts : List zmk_physical_layout) (start i : Nat),
      (layouts.map (fun l => l.addr)).Nodup → layouts[i]? = some active →
      zmk_physical_layouts_get_selected_loop (some active) layouts start =
        ((start + i : Nat) : Int) := by
  intro layouts
  induction layouts with
  | nil => intro start i _ h; simp at h
  | cons head rest ih =>
    intro start i hnd h
    rw [List.map_cons, List.nodup_cons] at hnd
    unfold zmk_physical_layouts_get_selected_loop
    cases i with
    | zero =>
      simp only [List.getElem?_cons_zero, Option.some.injEq] at h
      subst h
      simp
    | succ j =>
      simp only [List.getElem?_cons_succ] at h
      have hmem : active.addr ∈ rest.map (fun l => l.addr) :=
        List.mem_map.2 ⟨active, List.getElem?_mem h, rfl⟩
      have hne : ¬ some head.addr = Option.map (fun a => a.addr) (some active) := by
        simp only [Option.map_some', Option.some.injEq]
        intro heq
        exact hnd.1 (heq ▸ hmem)
      rw [if_neg hne, ih (start + 1) j hnd.2 h]
      congr 1
      omega

theorem select_layout_active (env : LayoutEnv) (cfg : LayoutConfig)
    (layout : zmk_physical_layout) (s : LayoutState) :
    (zmk_physical_layouts_select_layout env cfg (some layout) s).2.active = some layout ∨
      s.active.map (fun a => a.addr) = some layout.addr := by
  unfold zmk_physical_layouts_select_layout
  simp only
  by_cases h : s.active.map (fun a => a.addr) = some layout.addr
  · right; exact h
  · left
    rw [if_neg h]
    split_ifs <;> rfl

/-- Claim C26: `zmk_physical_layouts_select_layout` called with the active
layout returns 0 and leaves the state, the active layout and the recorded
calls, as it was; for an index below the number of layouts the second of two
equal calls of `zmk_physical_layouts_select` returns 0 and changes nothing,
and after `zmk_physical_layouts_select(i)`, successful or not,
`zmk_physical_layouts_get_selected` returns `i`; for an index from the number
of layouts on the call returns `-EINVAL`, which is negative, and leaves the
state as it was.  The index is a `uint8_t`, and the layouts are distinct
objects. -/
theorem select_layout_idempotent (env : LayoutEnv) (cfg : LayoutConfig) (i : Nat)
    (s : LayoutState) (hi : i < 256)
    (hdistinct : (cfg.layouts.map (fun l => l.addr)).Nodup) :
    (∀ layout active : zmk_physical_layout, s.active = some active →
        layout.addr = active.addr →
        zmk_physical_layouts_select_layout env cfg (some layout) s = (0, s)) ∧
      (i < cfg.layouts.length →
        zmk_physical_layouts_select env cfg i (zmk_physical_layouts_select env cfg i s).2 =
            (0, (zmk_physical_layouts_select env cfg i s).2) ∧
          zmk_physical_layouts_get_selected cfg (zmk_physical_layouts_select env cfg i s).2 =
            (i : Int)) ∧
      (cfg.layouts.length ≤ i →
        zmk_physical_layouts_select env cfg i s = (-EINVAL, s) ∧ -EINVAL < 0) := by
  have hu : to_uint8_t i = i := Nat.mod_eq_of_lt hi
  refine ⟨?_, ?_, ?_⟩
  · intro layout active hactive haddr
    unfold zmk_physical_layouts_select_layout
    simp only [hactive, Option.map_some', haddr, if_true]
  · intro hlt
    have hget : cfg.layouts[i]? = some cfg.layouts[i] := List.getElem?_eq_getElem hlt
    have hsel : ∀ t : LayoutState, zmk_physical_layouts_select env cfg i t =
        zmk_physical_layouts_select_layout env cfg (some cfg.layouts[i]) t := by
      intro t
      unfold zmk_physical_layouts_select
      simp only [hu, hget]
      rw [if_neg (by omega)]
    have hafter : ((zmk_physical_layouts_select env cfg i s).2.active).map (fun a => a.addr) =
        some (cfg.layouts[i]).addr := by
      rw [hsel]
      rcases select_layout_active env cfg cfg.layouts[i] s with h | h
      · rw [h]; rfl
      · unfold zmk_physical_layouts_select_layout
        simp only [h, if_true]
    constructor
    · rw [hsel (zmk_physical_layouts_select env cfg i s).2]
      unfold zmk_physical_layouts_select_layout
      simp only [hafter, if_true]
    · cases hact : (zmk_physical_layouts_select env cfg i s).2.active with
      | none => rw [hact] at hafter; simp at hafter
      | some active =>
        rw [hact] at hafter
        simp only [Option.map_some', Option.some.injEq] at hafter
        unfold zmk_physical_layouts_get_selected
        rw [hact]
        have hloop : ∀ (layouts : List zmk_physical_layout) (start : Nat) (a b :
            zmk_physical_layout), a.addr = b.addr →
            zmk_physical_layouts_get_selected_loop (some a) layouts start =
              zmk_physical_layouts_get_selected_loop (some b) layouts start := by
          intro layouts
          induction layouts with
          | nil => intro start a b _; rfl
          | cons head rest ih =>
            intro start a b hab
            unfold zmk_physical_layouts_get_selected_loop
            simp only [Option.map_some', hab, ih (start + 1) a b hab]
        rw [hloop cfg.layouts 0 active cfg.layouts[i] hafter,
          get_selected_loop_at cfg.layouts[i] cfg.layouts 0 i hdistinct hget]
        simp
  · intro hge
    constructor
    · unfold zmk_physical_layouts_select
      simp only [hu]
      rw [if_pos (by omega)]
    · decide

/-- Claim C26 at a concrete build of two layouts: selecting index 1 from the
state with no active layout gets, configures and enables the scan device of
layout 1 and returns 0, the second call records nothing more, the selected
index is then 1, and index 2 is refused with `-EINVAL`. -/
theorem select_layout_idempotent_witness :
    zmk_physical_layouts_select quiet_layout_env two_layout_config 1
        { active := none, trace := [] } =
        (0, { active := some { addr := 2048, kscan := 32 }
              trace := [KscanCall.pm_device_runtime_get 32, KscanCall.kscan_config 32,
                KscanCall.kscan_enable_callback 32] }) ∧
      zmk_physical_layouts_select quiet_layout_env two_layout_config 1
        (zmk_physical_layouts_select quiet_layout_env two_layout_config 1
          { active := none, trace := [] }).2 =
        (0, (zmk_physical_layouts_select quiet_layout_env two_layout_config 1
          { active := none, trace := [] }).2) ∧
      zmk_physical_layouts_get_selected two_layout_config
        (zmk_physical_layouts_select quiet_layout_env two_layout_config 1
          { active := none, trace := [] }).2 = 1 ∧
      zmk_physical_layouts_select quiet_layout_env two_layout_config 2
        { active := none, trace := [] } = (-EINVAL, { active := none, trace := [] }) :=
  ⟨by decide,
    ((select_layout_idempotent quiet_layout_env two_layout_config 1
      { active := none, trace := [] } (by decide) (by decide)).2.1 (by decide)).1,
    ((select_layout_idempotent quiet_layout_env two_layout_config 1
      { active := none, trace := [] } (by decide) (by decide)).2.1 (by decide)).2,
    by decide⟩

/-! ### The call `zmk_keymap_layer_to` -/

theorem set_layer_state_mask (env : Env) (cfg : Config) (l : Nat) (v : Bool) (s : KeymapState) :
    (set_layer_state env cfg l v s).2._zmk_keymap_layer_state =
      if to_uint8_t l ≥ cfg.ZMK_KEYMAP_LAYERS_LEN ∨
          (to_uint8_t l = _zmk_keymap_layer_default ∧ v = false) then
        s._zmk_keymap_layer_state
      else WRITE_BIT 32 s._zmk_keymap_layer_state (to_uint8_t l) v := by
  unfold set_layer_state
  simp only
  split_ifs <;> first | rfl | (exfalso; tauto)

theorem set_layer_state_mask_lt (env : Env) (cfg : Config) (l : Nat) (v : Bool)
    (s : KeymapState) (hs : s._zmk_keymap_layer_state < 4294967296) :
    (set_layer_state env cfg l v s).2._zmk_keymap_layer_state < 4294967296 := by
  rw [set_layer_state_mask]
  split_ifs
  · exact hs
  · exact WRITE_BIT_32_lt _ _ _

theorem layer_to_loop_testBit (env : Env) (cfg : Config)
    (hL : cfg.ZMK_KEYMAP_LAYERS_LEN ≤ 32) (n : Nat) (hn : n ≤ cfg.ZMK_KEYMAP_LAYERS_LEN) :
    ∀ s : KeymapState, s._zmk_keymap_layer_state < 4294967296 →
      (zmk_keymap_layer_to_loop env cfg n s)._zmk_keymap_layer_state < 4294967296 ∧
        ∀ i, (zmk_keymap_layer_to_loop env cfg n s)._zmk_keymap_layer_state.testBit i =
          (s._zmk_keymap_layer_state.testBit i && !(decide (0 < i) && decide (i < n))) := by
  induction n with
  | zero =>
    intro s hs
    refine ⟨hs, fun i => ?_⟩
    simp [zmk_keymap_layer_to_loop]
  | succ k ih =>
    intro s hs
    have hk8 : to_uint8_t k = k := Nat.mod_eq_of_lt (by omega)
    have hmask : (zmk_keymap_layer_deactivate env cfg k s).2._zmk_keymap_layer_state =
        if k = _zmk_keymap_layer_default then s._zmk_keymap_layer_state
        else WRITE_BIT 32 s._zmk_keymap_layer_state k false := by
      unfold zmk_keymap_layer_deactivate
      rw [set_layer_state_mask]
      simp only [hk8, and_true]
      by_cases hk : k = _zmk_keymap_layer_default
      · rw [if_pos (Or.inr hk), if_pos hk]
      · rw [if_neg (fun h => h.elim (fun h1 => absurd h1 (by omega)) (fun h2 => hk h2)),
          if_neg hk]
    have hlt : (zmk_keymap_layer_deactivate env cfg k s).2._zmk_keymap_layer_state <
        4294967296 := set_layer_state_mask_lt env cfg _ _ s hs
    obtain ⟨h1, h2⟩ := ih (by omega) (zmk_keymap_layer_deactivate env cfg k s).2 hlt
    refine ⟨h1, fun i => ?_⟩
    show (zmk_keymap_layer_to_loop env cfg k
      (zmk_keymap_layer_deactivate env cfg k s).2)._zmk_keymap_layer_state.testBit i = _
    rw [h2 i, hmask]
    by_cases hk : k = _zmk_keymap_layer_default
    · rw [if_pos hk]
      have hk0 : k = 0 := hk
      subst hk0
      congr 2
      by_cases hi : 0 < i
      · simp [hi]; omega
      · simp [hi]
    · rw [if_neg hk, testBit_WRITE_BIT_clear]
      have hk0 : k ≠ 0 := hk
      by_cases h32 : i < 32
      · by_cases hki : k = i
        · subst hki
          have : 0 < k := Nat.pos_of_ne_zero hk0
          simp [h32, this]
        · have : ¬ (0 < i ∧ i < k + 1) ↔ ¬ (0 < i ∧ i < k) := by
            constructor
            · intro h hc; exact h ⟨hc.1, by omega⟩
            · intro h hc; exact h ⟨hc.1, by omega⟩
          by_cases hik : 0 < i ∧ i < k
          · have h' : 0 < i ∧ i < k + 1 := ⟨hik.1, by omega⟩
            simp [h32, hki, hik.1, hik.2, h'.2]
          · have h' : ¬ (0 < i ∧ i < k + 1) := this.2 hik
            have e1 : (decide (0 < i) && decide (i < k)) = false := by simpa using hik
            have e2 : (decide (0 < i) && decide (i < k + 1)) = false := by simpa using h'
            rw [e1, e2]
            simp [h32, hki]
      · have hfalse : s._zmk_keymap_layer_state.testBit i = false :=
          testBit_of_lt_two_pow_32 _ _ hs h32
        simp [h32, hfalse]

theorem layer_to_mask (env : Env) (cfg : Config) (l : Nat) (s : KeymapState)
    (hL : cfg.ZMK_KEYMAP_LAYERS_LEN ≤ 32) (hl8 : l < 256)
    (hs : s._zmk_keymap_layer_state < 4294967296) (i : Nat) :
    (zmk_keymap_layer_to env cfg l s).2._zmk_keymap_layer_state.testBit i =
      if l < cfg.ZMK_KEYMAP_LAYERS_LEN ∧ i = l then true
      else if i = _zmk_keymap_layer_default then s._zmk_keymap_layer_state.testBit i
      else if i < cfg.ZMK_KEYMAP_LAYERS_LEN then false
      else s._zmk_keymap_layer_state.testBit i := by
  have hu : to_uint8_t l = l := Nat.mod_eq_of_lt hl8
  obtain ⟨h1, h2⟩ := layer_to_loop_testBit env cfg hL cfg.ZMK_KEYMAP_LAYERS_LEN (le_refl _) s hs
  unfold zmk_keymap_layer_to zmk_keymap_layer_activate
  simp only [hu]
  rw [set_layer_state_mask]
  simp only [hu, Bool.true_eq_false, and_false, or_false]
  have hdef : _zmk_keymap_layer_default = 0 := rfl
  by_cases hl : l < cfg.ZMK_KEYMAP_LAYERS_LEN
  · rw [if_neg (by omega), testBit_WRITE_BIT_set, h2 i]
    by_cases hil : i = l
    · subst hil
      rw [if_pos ⟨hl, rfl⟩]
      have : i < 32 := by omega
      simp [this]
    · rw [if_neg (by tauto)]
      have hli : ¬ l = i := fun h => hil h.symm
      by_cases h0 : i = 0
      · subst h0
        simp [hdef, hli]
      · rw [if_neg (by rw [hdef]; exact h0)]
        by_cases hiL : i < cfg.ZMK_KEYMAP_LAYERS_LEN
        · have hpos : 0 < i := Nat.pos_of_ne_zero h0
          simp [hiL, hli, hpos]
        · rw [if_neg hiL]
          by_cases h32 : i < 32
          · simp [hiL, hli, h32]
          · simp [h32, testBit_of_lt_two_pow_32 _ _ hs h32]
  · rw [if_pos (by omega), if_neg (by tauto), h2 i]
    by_cases h0 : i = 0
    · subst h0
      simp [hdef]
    · rw [if_neg (by rw [hdef]; exact h0)]
      have hpos : 0 < i := Nat.pos_of_ne_zero h0
      by_cases hiL : i < cfg.ZMK_KEYMAP_LAYERS_LEN
      · simp [hiL, hpos]
      · simp [hiL]

theorem layer_active_eq_testBit (i : Nat) (t : KeymapState) (hi : i < 256) :
    zmk_keymap_layer_active i t =
      (t._zmk_keymap_layer_state.testBit i || decide (i = _zmk_keymap_layer_default)) := by
  unfold zmk_keymap_layer_active
  rw [to_uint8_t_of_lt hi, layer_active_with_state_eq i _ hi]

/-- Claim C33: with at most 32 layers, a `uint8_t` argument `l` and a layer
state that has only bits of existing layers, `zmk_keymap_layer_to(l)` returns
0; for `l < L` the resulting state has bit `l` set, every other bit than `l`
and the default layer's cleared, and the default layer's bit as before unless
`l` is the default layer, so that `l` is active and no other non-default
layer is; for `l >= L` every bit but the default layer's is cleared, the
default layer's bit is as before, and no non-default layer is active. -/
theorem layer_to_leaves_only_target (env : Env) (cfg : Config) (l : Nat) (s : KeymapState)
    (hL : cfg.ZMK_KEYMAP_LAYERS_LEN ≤ 32) (hl8 : l < 256)
    (hs : s._zmk_keymap_layer_state < 2 ^ cfg.ZMK_KEYMAP_LAYERS_LEN) :
    (zmk_keymap_layer_to env cfg l s).1 = 0 ∧
      (l < cfg.ZMK_KEYMAP_LAYERS_LEN →
        (zmk_keymap_layer_to env cfg l s).2._zmk_keymap_layer_state.testBit l = true ∧
          zmk_keymap_layer_active l (zmk_keymap_layer_to env cfg l s).2 = true ∧
          (∀ i, i ≠ l → i ≠ zmk_keymap_layer_default →
            (zmk_keymap_layer_to env cfg l s).2._zmk_keymap_layer_state.testBit i = false ∧
              (i < 256 → zmk_keymap_layer_active i (zmk_keymap_layer_to env cfg l s).2 = false)) ∧
          (l ≠ zmk_keymap_layer_default →
            (zmk_keymap_layer_to env cfg l s).2._zmk_keymap_layer_state.testBit
                zmk_keymap_layer_default =
              s._zmk_keymap_layer_state.testBit zmk_keymap_layer_default)) ∧
      (cfg.ZMK_KEYMAP_LAYERS_LEN ≤ l →
        (∀ i, i ≠ zmk_keymap_layer_default →
          (zmk_keymap_layer_to env cfg l s).2._zmk_keymap_layer_state.testBit i = false ∧
            (i < 256 → zmk_keymap_layer_active i (zmk_keymap_layer_to env cfg l s).2 = false)) ∧
          (zmk_keymap_layer_to env cfg l s).2._zmk_keymap_layer_state.testBit
              zmk_keymap_layer_default =
            s._zmk_keymap_layer_state.testBit zmk_keymap_layer_default) := by
  have hs32 : s._zmk_keymap_layer_state < 4294967296 :=
    lt_of_lt_of_le hs (by
      calc 2 ^ cfg.ZMK_KEYMAP_LAYERS_LEN ≤ 2 ^ 32 := Nat.pow_le_pow_right (by decide) hL
        _ = 4294967296 := by norm_num)
  have hmask := layer_to_mask env cfg l s hL hl8 hs32
  have hhigh : ∀ i, ¬ i < cfg.ZMK_KEYMAP_LAYERS_LEN →
      s._zmk_keymap_layer_state.testBit i = false := by
    intro i hi
    exact Nat.testBit_eq_false_of_lt
      (lt_of_lt_of_le hs (Nat.pow_le_pow_right (by decide) (by omega)))
  have hdef : zmk_keymap_layer_default = _zmk_keymap_layer_default := rfl
  have hother : ∀ i, ¬ (l < cfg.ZMK_KEYMAP_LAYERS_LEN ∧ i = l) → i ≠ zmk_keymap_layer_default →
      (zmk_keymap_layer_to env cfg l s).2._zmk_keymap_layer_state.testBit i = false ∧
        (i < 256 → zmk_keymap_layer_active i (zmk_keymap_layer_to env cfg l s).2 = false) := by
    intro i hil hid
    have hbit : (zmk_keymap_layer_to env cfg l s).2._zmk_keymap_layer_state.testBit i =
        false := by
      have hid2 : ¬ i = _zmk_keymap_layer_default := hid
      rw [hmask i, if_neg hil, if_neg hid2]
      split_ifs with h
      · rfl
      · exact hhigh i h
    refine ⟨hbit, fun hi => ?_⟩
    rw [layer_active_eq_testBit i _ hi, hbit]
    have hid2 : ¬ i = _zmk_keymap_layer_default := hid
    simpa using hid2
  refine ⟨rfl, ?_, ?_⟩
  · intro hl
    have hbit : (zmk_keymap_layer_to env cfg l s).2._zmk_keymap_layer_state.testBit l =
        true := by
      rw [hmask l, if_pos ⟨hl, rfl⟩]
    refine ⟨hbit, ?_, ?_, ?_⟩
    · rw [layer_active_eq_testBit l _ hl8, hbit]
      rfl
    · intro i hil hid
      exact hother i (fun h => hil h.2) hid
    · intro hld
      rw [hmask, if_neg (fun h => hld h.2.symm)]
      exact if_pos hdef
  · intro hl
    refine ⟨fun i hid => hother i (fun h => absurd h.1 (by omega)) hid, ?_⟩
    rw [hmask, if_neg (fun h => absurd h.1 (by omega))]
    exact if_pos hdef

/-- Claim C33 at concrete states of a build with three layers: from the layer
state `0b110` the call `zmk_keymap_layer_to(1)` returns 0 and leaves `0b010`;
the call `zmk_keymap_layer_to(7)` returns 0 and leaves `0b000`. -/
theorem layer_to_leaves_only_target_witness :
    (zmk_keymap_layer_to quiet_env (plain_config 3 4) 1
        (state_with_layers 6)).2._zmk_keymap_layer_state = 2 ∧
      (zmk_keymap_layer_to quiet_env (plain_config 3 4) 7
        (state_with_layers 6)).2._zmk_keymap_layer_state = 0 ∧
      (zmk_keymap_layer_to quiet_env (plain_config 3 4) 7 (state_with_layers 6)).1 = 0 ∧
      (zmk_keymap_layer_to quiet_env (plain_config 3 4) 1
        (state_with_layers 6)).2._zmk_keymap_layer_state.testBit 1 = true :=
  ⟨by decide, by decide,
    (layer_to_leaves_only_target quiet_env (plain_config 3 4) 7 (state_with_layers 6)
      (by decide) (by decide) (by decide)).1,
    ((layer_to_leaves_only_target quiet_env (plain_config 3 4) 1 (state_with_layers 6)
      (by decide) (by decide) (by decide)).2.1 (by decide)).1⟩

/-! ### Discarding unsaved changes -/

theorem keymap_handle_set_stored (env : Env) (cfg : Config) (l kp : Nat) (value : List Nat)
    (s : KeymapState) (hl : l < 256) (hkp : kp < 256) :
    (keymap_handle_set env cfg (handler_name l kp) value.length (settings_value_read value)
        s).2 =
      match stored_record_binding env cfg l kp value with
      | some b => { s with zmk_keymap := array_set2 s.zmk_keymap l kp b }
      | none => s := by
  have hl2 : to_uint8_t (if l > ULONG_MAX then ULONG_MAX else l) = l := by
    have : ¬ l > ULONG_MAX := by unfold ULONG_MAX; omega
    rw [if_neg this]; exact Nat.mod_eq_of_lt hl
  have hkp2 : to_uint8_t (if kp > ULONG_MAX then ULONG_MAX else kp) = kp := by
    have : ¬ kp > ULONG_MAX := by unfold ULONG_MAX; omega
    rw [if_neg this]; exact Nat.mod_eq_of_lt hkp
  rw [keymap_handle_set_handler_name, settings_value_read_self]
  unfold stored_record_binding
  simp only [hl2, hkp2]
  by_cases h1 : value.length > sizeof_zmk_behavior_binding_setting
  · simp only [if_pos h1]
  · simp only [if_neg h1]
    by_cases h2 : l ≥ cfg.ZMK_KEYMAP_LAYERS_LEN
    · simp only [if_pos h2]
    · simp only [if_neg h2]
      by_cases h3 : kp ≥ cfg.ZMK_KEYMAP_LEN
      · simp only [if_pos h3]
      · simp only [if_neg h3]
        by_cases h4 : value.length = 0
        · have h4i : ((value.length : Nat) : Int) ≤ 0 := by omega
          simp only [if_pos h4, if_pos h4i]
        · have h4i : ¬ ((value.length : Nat) : Int) ≤ 0 := by omega
          simp only [if_neg h4, if_neg h4i]
          split_ifs <;> rfl

theorem load_subtree_cells (env : Env) (cfg : Config) (stored : List (Nat × Nat × List Nat)) :
    (∀ entry ∈ stored, entry.1 < 256 ∧ entry.2.1 < 256) →
    stored.Pairwise (fun a b => (a.1, a.2.1) ≠ (b.1, b.2.1)) →
    ∀ s : KeymapState,
      (∀ entry ∈ stored, ∀ b,
          stored_record_binding env cfg entry.1 entry.2.1 entry.2.2 = some b →
          (settings_load_subtree_keymap_l env cfg stored s).2.zmk_keymap entry.1 entry.2.1 =
            b) ∧
        (∀ l kp,
          (∀ entry ∈ stored, (entry.1, entry.2.1) = (l, kp) →
            stored_record_binding env cfg entry.1 entry.2.1 entry.2.2 = none) →
          (settings_load_subtree_keymap_l env cfg stored s).2.zmk_keymap l kp =
            s.zmk_keymap l kp) ∧
        (settings_load_subtree_keymap_l env cfg stored s).2._zmk_keymap_layer_state =
          s._zmk_keymap_layer_state ∧
        (settings_load_subtree_keymap_l env cfg stored s).2.zmk_keymap_active_behavior_layer =
          s.zmk_keymap_active_behavior_layer ∧
        (settings_load_subtree_keymap_l env cfg stored s).2.zmk_keymap_layer_pending_changes =
          s.zmk_keymap_layer_pending_changes ∧
        (settings_load_subtree_keymap_l env cfg stored s).2.trace = s.trace := by
  induction stored with
  | nil =>
    intro _ _ s
    refine ⟨?_, fun _ _ _ => rfl, rfl, rfl, rfl, rfl⟩
    intro entry hentry
    simp at hentry
  | cons e rest ih =>
    intro hrange hdistinct s
    rw [List.pairwise_cons] at hdistinct
    have hstep := keymap_handle_set_stored env cfg e.1 e.2.1 e.2.2 s
      (hrange e (List.mem_cons_self _ _)).1 (hrange e (List.mem_cons_self _ _)).2
    obtain ⟨ih1, ih2, ih3, ih4, ih5, ih6⟩ :=
      ih (fun entry hentry => hrange entry (List.mem_cons_of_mem _ hentry)) hdistinct.2
        (keymap_handle_set env cfg (handler_name e.1 e.2.1) e.2.2.length
          (settings_value_read e.2.2) s).2
    have hunfold : settings_load_subtree_keymap_l env cfg (e :: rest) s =
        settings_load_subtree_keymap_l env cfg rest
          (keymap_handle_set env cfg (handler_name e.1 e.2.1) e.2.2.length
            (settings_value_read e.2.2) s).2 := rfl
    rw [hunfold]
    have hframe : (keymap_handle_set env cfg (handler_name e.1 e.2.1) e.2.2.length
          (settings_value_read e.2.2) s).2._zmk_keymap_layer_state =
          s._zmk_keymap_layer_state ∧
        (keymap_handle_set env cfg (handler_name e.1 e.2.1) e.2.2.length
          (settings_value_read e.2.2) s).2.zmk_keymap_active_behavior_layer =
          s.zmk_keymap_active_behavior_layer ∧
        (keymap_handle_set env cfg (handler_name e.1 e.2.1) e.2.2.length
          (settings_value_read e.2.2) s).2.zmk_keymap_layer_pending_changes =
          s.zmk_keymap_layer_pending_changes ∧
        (keymap_handle_set env cfg (handler_name e.1 e.2.1) e.2.2.length
          (settings_value_read e.2.2) s).2.trace = s.trace := by
      rw [hstep]
      cases stored_record_binding env cfg e.1 e.2.1 e.2.2 <;> exact ⟨rfl, rfl, rfl, rfl⟩
    refine ⟨?_, ?_, ih3.trans hframe.1, ih4.trans hframe.2.1, ih5.trans hframe.2.2.1,
      ih6.trans hframe.2.2.2⟩
    · intro entry hentry b hb
      rcases List.mem_cons.1 hentry with h | h
      · subst h
        rw [ih2 entry.1 entry.2.1 (fun other hother heq =>
          absurd heq.symm (hdistinct.1 other hother)), hstep, hb]
        simp [array_set2]
      · exact ih1 entry h b hb
    · intro l kp hnone
      rw [ih2 l kp (fun entry hentry heq => hnone entry (List.mem_cons_of_mem _ hentry) heq),
        hstep]
      cases hb : stored_record_binding env cfg e.1 e.2.1 e.2.2 with
      | none => rfl
      | some b =>
        have hne : ¬ (l = e.1 ∧ kp = e.2.1) := by
          intro h
          have := hnone e (List.mem_cons_self _ _) (by rw [h.1, h.2])
          rw [hb] at this
          exact absurd this (by simp)
        simp only [array_set2, if_neg hne]

/-- Claim C32: for a store that holds at most one record per cell, under the
names `zmk_keymap_save_changes` writes for cells addressable by `uint8_t`
indices, `zmk_keymap_discard_changes` leaves in every cell with a valid stored
record (1 to 10 bytes, cell inside the keymap, local ID of a ready behavior
with a non-null name) the binding of that record, and leaves every cell that
has no stored record, or only a record the handler rejects, as it was; the
layer state, the press memory and the pending bytes are as before.  So a cell
inside the keymap that has no stored record, edited with
`zmk_keymap_set_layer_binding_at_idx` and then discarded, still holds the
edited binding, and its pending bit is still set. -/
theorem discard_keeps_unstored_cells (env : Env) (cfg : Config)
    (stored : List (Nat × Nat × List Nat)) (s : KeymapState)
    (hrange : ∀ entry ∈ stored, entry.1 < 256 ∧ entry.2.1 < 256)
    (hdistinct : stored.Pairwise (fun a b => (a.1, a.2.1) ≠ (b.1, b.2.1))) :
    (∀ l kp value, (l, kp, value) ∈ stored → 0 < value.length →
        value.length ≤ sizeof_zmk_behavior_binding_setting →
        l < cfg.ZMK_KEYMAP_LAYERS_LEN → kp < cfg.ZMK_KEYMAP_LEN →
        (zmk_behavior_find_behavior_name_from_local_id env
          (zmk_behavior_binding_setting.of_bytes
            (binding_setting_memory value.length value)).behavior_local_id).addr ≠ 0 →
        (zmk_keymap_discard_changes env cfg stored s).2.zmk_keymap l kp =
          { behavior_dev := zmk_behavior_find_behavior_name_from_local_id env
              (zmk_behavior_binding_setting.of_bytes
                (binding_setting_memory value.length value)).behavior_local_id
            param1 := (zmk_behavior_binding_setting.of_bytes
              (binding_setting_memory value.length value)).param1
            param2 := (zmk_behavior_binding_setting.of_bytes
              (binding_setting_memory value.length value)).param2 }) ∧
      (∀ l kp, (∀ value, (l, kp, value) ∉ stored) →
        (zmk_keymap_discard_changes env cfg stored s).2.zmk_keymap l kp = s.zmk_keymap l kp) ∧
      (∀ l kp,
        (∀ value, (l, kp, value) ∈ stored → stored_record_binding env cfg l kp value = none) →
        (zmk_keymap_discard_changes env cfg stored s).2.zmk_keymap l kp = s.zmk_keymap l kp) ∧
      ((zmk_keymap_discard_changes env cfg stored s).2._zmk_keymap_layer_state =
          s._zmk_keymap_layer_state ∧
        (zmk_keymap_discard_changes env cfg stored s).2.zmk_keymap_active_behavior_layer =
          s.zmk_keymap_active_behavior_layer ∧
        (zmk_keymap_discard_changes env cfg stored s).2.zmk_keymap_layer_pending_changes =
          s.zmk_keymap_layer_pending_changes) ∧
      (∀ l kp b, l < 256 → kp < 256 → l < cfg.ZMK_KEYMAP_LAYERS_LEN → kp < cfg.ZMK_KEYMAP_LEN →
        (∀ value, (l, kp, value) ∉ stored) →
        (zmk_keymap_discard_changes env cfg stored
          (zmk_keymap_set_layer_binding_at_idx cfg l kp b s).2).2.zmk_keymap l kp = b ∧
          pending_bit (zmk_keymap_discard_changes env cfg stored
            (zmk_keymap_set_layer_binding_at_idx cfg l kp b s).2).2 l kp =
            pending_bit (zmk_keymap_set_layer_binding_at_idx cfg l kp b s).2 l kp) := by
  have hnone : ∀ (t : KeymapState) (l kp : Nat),
      (∀ value, (l, kp, value) ∈ stored → stored_record_binding env cfg l kp value = none) →
      (zmk_keymap_discard_changes env cfg stored t).2.zmk_keymap l kp = t.zmk_keymap l kp := by
    intro t l kp h
    refine (load_subtree_cells env cfg stored hrange hdistinct t).2.1 l kp ?_
    intro entry hentry heq
    have h1 : entry.1 = l := congrArg Prod.fst heq
    have h2 : entry.2.1 = kp := congrArg Prod.snd heq
    have he : entry = (l, kp, entry.2.2) := by rw [← h1, ← h2]
    rw [h1, h2]
    exact h entry.2.2 (he ▸ hentry)
  refine ⟨?_, ?_, hnone s, ?_, ?_⟩
  · intro l kp value hmem hlen0 hlen hl hkp hname
    refine (load_subtree_cells env cfg stored hrange hdistinct s).1 (l, kp, value) hmem _ ?_
    unfold stored_record_binding
    simp only
    rw [if_neg (by omega), if_neg (by omega), if_neg (by omega), if_neg (by omega),
      if_neg hname]
  · intro l kp h
    exact hnone s l kp (fun value hmem => absurd hmem (h value))
  · obtain ⟨_, _, h3, h4, h5, _⟩ := load_subtree_cells env cfg stored hrange hdistinct s
    exact ⟨h3, h4, h5⟩
  · intro l kp b hl8 hkp8 hl hkp h
    have hcond : ¬ (l ≥ cfg.ZMK_KEYMAP_LAYERS_LEN ∨ kp ≥ cfg.ZMK_KEYMAP_LEN) := by omega
    have hcell : (zmk_keymap_set_layer_binding_at_idx cfg l kp b s).2.zmk_keymap l kp = b := by
      unfold zmk_keymap_set_layer_binding_at_idx
      simp only [to_uint8_t_of_lt hl8, to_uint8_t_of_lt hkp8, hcond, if_false]
      simp [array_set2]
    constructor
    · rw [hnone _ l kp (fun value hmem => absurd hmem (h value)), hcell]
    · unfold pending_bit
      rw [show (zmk_keymap_discard_changes env cfg stored
          (zmk_keymap_set_layer_binding_at_idx cfg l kp b s).2).2.zmk_keymap_layer_pending_changes =
        (zmk_keymap_set_layer_binding_at_idx cfg l kp b s).2.zmk_keymap_layer_pending_changes
        from (load_subtree_cells env cfg stored hrange hdistinct _).2.2.2.2.1]

/-- Claim C32 at a concrete store: only cell `(0, 2)` has a stored record, the
6 bytes of behavior `A` with `param1 = 7`; in the state where cell `(1, 3)`
was edited to `A` with `param1 = 42`, discarding puts the stored binding in
cell `(0, 2)`, whose compile-time binding is `B`, and leaves the edited
binding in cell `(1, 3)`, whose compile-time binding is null. -/
theorem discard_keeps_unstored_cells_witness :
    (zmk_keymap_discard_changes two_behavior_env (plain_config 2 4)
        [(0, 2, [1, 0, 7, 0, 0, 0])] edited_state).2.zmk_keymap 1 3 =
        { behavior_dev := device_A.name, param1 := 42, param2 := 0 } ∧
      (zmk_keymap_discard_changes two_behavior_env (plain_config 2 4)
        [(0, 2, [1, 0, 7, 0, 0, 0])] edited_state).2.zmk_keymap 0 2 =
        { behavior_dev := device_A.name, param1 := 7, param2 := 0 } ∧
      two_layer_keymap 1 3 = { behavior_dev := NULL, param1 := 0, param2 := 0 } ∧
      two_layer_keymap 0 2 = { behavior_dev := device_B.name, param1 := 0, param2 := 0 } :=
  ⟨((discard_keeps_unstored_cells two_behavior_env (plain_config 2 4)
      [(0, 2, [1, 0, 7, 0, 0, 0])] edited_state (by decide) (by decide)).2.1 1 3
      (by simp)).trans (by decide),
    by decide, by decide, by decide⟩

/-! ### Sensor dispatch -/

theorem sensor_event_loop_log (env : Env) (cfg : Config) (senv : SensorEnv)
    (sensor_index channel_data_size : Nat) (channel_data : List Nat) (timestamp : Int)
    (n : Nat) :
    ∀ (flag : Bool) (s : KeymapState) (calls : List SensorCall),
      ∃ appended : List SensorCall,
        (zmk_keymap_sensor_event_loop env cfg senv sensor_index channel_data_size channel_data
          timestamp n flag s calls).2.2 = calls ++ appended ∧
        SensorLog env senv sensor_index timestamp n flag appended
          (zmk_keymap_sensor_event_loop env cfg senv sensor_index channel_data_size
            channel_data timestamp n flag s calls).1 := by
  induction n with
  | zero =>
    intro flag s calls
    exact ⟨[], by simp [zmk_keymap_sensor_event_loop], SensorLog.done flag⟩
  | succ layer ih =>
    intro flag s calls
    unfold zmk_keymap_sensor_event_loop zmk_keymap_sensor_event_layer
    simp only
    cases hb : zmk_behavior_get_binding env
        (senv.zmk_sensor_keymap layer sensor_index).behavior_dev with
    | none =>
      simp only
      obtain ⟨app, h1, h2⟩ := ih flag s calls
      exact ⟨app, h1, SensorLog.unresolved layer flag app _ hb h2⟩
    | some behavior =>
      have hres : zmk_behavior_get_binding env
          (senv.zmk_sensor_keymap layer sensor_index).behavior_dev ≠ none := by
        rw [hb]; simp
      have hmode : ∀ s1 : KeymapState,
          (if (!flag && decide (layer ≥ _zmk_keymap_layer_default) &&
              zmk_keymap_layer_active layer s1) = true then
            behavior_sensor_binding_process_mode.BEHAVIOR_SENSOR_BINDING_PROCESS_MODE_TRIGGER
          else
            behavior_sensor_binding_process_mode.BEHAVIOR_SENSOR_BINDING_PROCESS_MODE_DISCARD) =
            sensor_process_mode flag layer s1._zmk_keymap_layer_state := fun _ => rfl
      simp only [hmode]
      generalize hacc_def : senv.behavior_sensor_keymap_binding_accept_data s calls
        (senv.zmk_sensor_keymap layer sensor_index)
        { layer := layer
          position := senv.ZMK_VIRTUAL_KEY_POSITION_SENSOR sensor_index
          timestamp := timestamp }
        sensor_index channel_data_size channel_data = acc
      generalize hs1_def : run_layer_calls env cfg acc.2 s = s1
      by_cases hacc : acc.1 < 0
      · simp only [if_pos hacc]
        obtain ⟨app, h1, h2⟩ := ih flag s1
          (calls ++ [SensorCall.behavior_sensor_keymap_binding_accept_data
            (senv.zmk_sensor_keymap layer sensor_index)
            { layer := layer
              position := senv.ZMK_VIRTUAL_KEY_POSITION_SENSOR sensor_index
              timestamp := timestamp } acc.1])
        refine ⟨(SensorCall.behavior_sensor_keymap_binding_accept_data
                (senv.zmk_sensor_keymap layer sensor_index)
                { layer := layer
                  position := senv.ZMK_VIRTUAL_KEY_POSITION_SENSOR sensor_index
                  timestamp := timestamp } acc.1) :: app, ?_,
          SensorLog.rejected layer flag app _ _ hres hacc h2⟩
        rw [h1, List.append_assoc]
        rfl
      · simp only [if_neg hacc]
        generalize hp_def : senv.behavior_sensor_keymap_binding_process s1
          (calls ++ [SensorCall.behavior_sensor_keymap_binding_accept_data
            (senv.zmk_sensor_keymap layer sensor_index)
            { layer := layer
              position := senv.ZMK_VIRTUAL_KEY_POSITION_SENSOR sensor_index
              timestamp := timestamp } acc.1])
          (senv.zmk_sensor_keymap layer sensor_index)
          { layer := layer
            position := senv.ZMK_VIRTUAL_KEY_POSITION_SENSOR sensor_index
            timestamp := timestamp }
          (sensor_process_mode flag layer s1._zmk_keymap_layer_state) = p
        by_cases hopq : p.1 = senv.ZMK_BEHAVIOR_OPAQUE
        · simp only [if_pos hopq]
          obtain ⟨app, h1, h2⟩ := ih true (run_layer_calls env cfg p.2 s1)
            (calls ++ [SensorCall.behavior_sensor_keymap_binding_accept_data
              (senv.zmk_sensor_keymap layer sensor_index)
              { layer := layer
                position := senv.ZMK_VIRTUAL_KEY_POSITION_SENSOR sensor_index
                timestamp := timestamp } acc.1] ++
              [SensorCall.behavior_sensor_keymap_binding_process
                (senv.zmk_sensor_keymap layer sensor_index)
                { layer := layer
                  position := senv.ZMK_VIRTUAL_KEY_POSITION_SENSOR sensor_index
                  timestamp := timestamp }
                (sensor_process_mode flag layer s1._zmk_keymap_layer_state)
                s1._zmk_keymap_layer_state p.1])
          refine ⟨(SensorCall.behavior_sensor_keymap_binding_accept_data
                (senv.zmk_sensor_keymap layer sensor_index)
                { layer := layer
                  position := senv.ZMK_VIRTUAL_KEY_POSITION_SENSOR sensor_index
                  timestamp := timestamp } acc.1) ::
            (SensorCall.behavior_sensor_keymap_binding_process
                (senv.zmk_sensor_keymap layer sensor_index)
                { layer := layer
                  position := senv.ZMK_VIRTUAL_KEY_POSITION_SENSOR sensor_index
                  timestamp := timestamp }
                (sensor_process_mode flag layer s1._zmk_keymap_layer_state)
                s1._zmk_keymap_layer_state p.1) :: app, ?_, ?_⟩
          · rw [h1, List.append_assoc, List.append_assoc]
            rfl
          · have hflag : (flag || decide (p.1 = senv.ZMK_BEHAVIOR_OPAQUE)) = true := by
              rw [Bool.or_eq_true]; right; exact decide_eq_true hopq
            refine SensorLog.processed layer flag app _ acc.1 s1._zmk_keymap_layer_state p.1
              hres (by omega) (Or.inl hopq) ?_
            rw [hflag]
            exact h2
        · simp only [if_neg hopq]
          by_cases herr : p.1 < 0
          · simp only [if_pos herr]
            refine ⟨[(SensorCall.behavior_sensor_keymap_binding_accept_data
                (senv.zmk_sensor_keymap layer sensor_index)
                { layer := layer
                  position := senv.ZMK_VIRTUAL_KEY_POSITION_SENSOR sensor_index
                  timestamp := timestamp } acc.1),
              (SensorCall.behavior_sensor_keymap_binding_process
                (senv.zmk_sensor_keymap layer sensor_index)
                { layer := layer
                  position := senv.ZMK_VIRTUAL_KEY_POSITION_SENSOR sensor_index
                  timestamp := timestamp }
                (sensor_process_mode flag layer s1._zmk_keymap_layer_state)
                s1._zmk_keymap_layer_state p.1)], ?_,
              SensorLog.failed layer flag acc.1 s1._zmk_keymap_layer_state p.1 hres (by omega)
                hopq herr⟩
            rw [List.append_assoc]
            rfl
          · simp only [if_neg herr]
            obtain ⟨app, h1, h2⟩ := ih flag (run_layer_calls env cfg p.2 s1)
              (calls ++ [SensorCall.behavior_sensor_keymap_binding_accept_data
                (senv.zmk_sensor_keymap layer sensor_index)
                { layer := layer
                  position := senv.ZMK_VIRTUAL_KEY_POSITION_SENSOR sensor_index
                  timestamp := timestamp } acc.1] ++
                [SensorCall.behavior_sensor_keymap_binding_process
                  (senv.zmk_sensor_keymap layer sensor_index)
                  { layer := layer
                    position := senv.ZMK_VIRTUAL_KEY_POSITION_SENSOR sensor_index
                    timestamp := timestamp }
                  (sensor_process_mode flag layer s1._zmk_keymap_layer_state)
                  s1._zmk_keymap_layer_state p.1])
            refine ⟨(SensorCall.behavior_sensor_keymap_binding_accept_data
                (senv.zmk_sensor_keymap layer sensor_index)
                { layer := layer
                  position := senv.ZMK_VIRTUAL_KEY_POSITION_SENSOR sensor_index
                  timestamp := timestamp } acc.1) ::
            (SensorCall.behavior_sensor_keymap_binding_process
                (senv.zmk_sensor_keymap layer sensor_index)
                { layer := layer
                  position := senv.ZMK_VIRTUAL_KEY_POSITION_SENSOR sensor_index
                  timestamp := timestamp }
                (sensor_process_mode flag layer s1._zmk_keymap_layer_state)
                s1._zmk_keymap_layer_state p.1) :: app, ?_, ?_⟩
            · rw [h1, List.append_assoc, List.append_assoc]
              rfl
            · have hflag : (flag || decide (p.1 = senv.ZMK_BEHAVIOR_OPAQUE)) = flag := by
                rw [decide_eq_false hopq, Bool.or_false]
              refine SensorLog.processed layer flag app _ acc.1 s1._zmk_keymap_layer_state
                p.1 hres (by omega) (Or.inr (by omega)) ?_
              rw [hflag]
              exact h2

theorem cons_eq_append_cons {α : Type} (a c : α) (rest pre post : List α)
    (h : a :: rest = pre ++ c :: post) :
    (pre = [] ∧ a = c ∧ rest = post) ∨ ∃ pre1, pre = a :: pre1 ∧ rest = pre1 ++ c :: post := by
  cases pre with
  | nil =>
    simp only [List.nil_append, List.cons.injEq] at h
    exact Or.inl ⟨rfl, h.1, h.2⟩
  | cons x pre1 =>
    simp only [List.cons_append, List.cons.injEq] at h
    exact Or.inr ⟨pre1, by rw [h.1], h.2⟩

theorem sensor_log_calls {env : Env} {senv : SensorEnv} {sensor_index : Nat} {timestamp : Int}
    {n : Nat} {flag : Bool} {appended : List SensorCall} {ret : Int}
    (h : SensorLog env senv sensor_index timestamp n flag appended ret) :
    ∀ c ∈ appended, c.layer < n ∧
      zmk_behavior_get_binding env
        (senv.zmk_sensor_keymap c.layer sensor_index).behavior_dev ≠ none ∧
      c.binding = senv.zmk_sensor_keymap c.layer sensor_index ∧
      c.event =
        { layer := c.layer
          position := senv.ZMK_VIRTUAL_KEY_POSITION_SENSOR sensor_index
          timestamp := timestamp } := by
  induction h with
  | done flag => intro c hc; simp at hc
  | unresolved layer flag rest ret hb _ ih =>
    intro c hc
    obtain ⟨h1, h2⟩ := ih c hc
    exact ⟨by omega, h2⟩
  | rejected layer flag rest ret accepted hb _ _ ih =>
    intro c hc
    rcases List.mem_cons.1 hc with h | h
    · subst h
      exact ⟨Nat.lt_succ_self _, hb, rfl, rfl⟩
    · obtain ⟨h1, h2⟩ := ih c h
      exact ⟨by omega, h2⟩
  | processed layer flag rest ret accepted layer_state response hb _ _ _ ih =>
    intro c hc
    rcases List.mem_cons.1 hc with h | h
    · subst h
      exact ⟨Nat.lt_succ_self _, hb, rfl, rfl⟩
    · rcases List.mem_cons.1 h with h | h
      · subst h
        exact ⟨Nat.lt_succ_self _, hb, rfl, rfl⟩
      · obtain ⟨h1, h2⟩ := ih c h
        exact ⟨by omega, h2⟩
  | failed layer flag accepted layer_state response hb _ _ _ =>
    intro c hc
    simp only [List.mem_cons, List.mem_singleton, List.not_mem_nil, or_false] at hc
    rcases hc with h | h
    · subst h
      exact ⟨Nat.lt_succ_self _, hb, rfl, rfl⟩
    · subst h
      exact ⟨Nat.lt_succ_self _, hb, rfl, rfl⟩

theorem sensor_log_order {env : Env} {senv : SensorEnv} {sensor_index : Nat} {timestamp : Int}
    {n : Nat} {flag : Bool} {appended : List SensorCall} {ret : Int}
    (h : SensorLog env senv sensor_index timestamp n flag appended ret) :
    appended.Pairwise (fun a b => b.layer < a.layer ∨
      (b.layer = a.layer ∧ a.is_process = false ∧ b.is_process = true)) := by
  induction h with
  | done flag => exact List.Pairwise.nil
  | unresolved layer flag rest ret _ _ ih => exact ih
  | rejected layer flag rest ret accepted _ _ hrest ih =>
    refine List.Pairwise.cons ?_ ih
    intro b hb
    left
    exact (sensor_log_calls hrest b hb).1
  | processed layer flag rest ret accepted layer_state response _ _ _ hrest ih =>
    refine List.Pairwise.cons ?_ (List.Pairwise.cons ?_ ih)
    · intro b hb
      rcases List.mem_cons.1 hb with h | h
      · subst h
        right
        exact ⟨rfl, rfl, rfl⟩
      · left
        exact (sensor_log_calls hrest b h).1
    · intro b hb
      left
      exact (sensor_log_calls hrest b hb).1
  | failed layer flag accepted layer_state response _ _ _ _ =>
    refine List.Pairwise.cons ?_ (List.Pairwise.cons ?_ List.Pairwise.nil)
    · intro b hb
      simp only [List.mem_singleton] at hb
      subst hb
      right
      exact ⟨rfl, rfl, rfl⟩
    · intro b hb
      simp at hb

theorem sensor_log_accept {env : Env} {senv : SensorEnv} {sensor_index : Nat} {timestamp : Int}
    {n : Nat} {flag : Bool} {appended : List SensorCall} {ret : Int}
    (h : SensorLog env senv sensor_index timestamp n flag appended ret) :
    ∀ (pre post : List SensorCall) (b : zmk_behavior_binding) (e : zmk_behavior_binding_event)
      (accepted : Int),
      appended = pre ++ SensorCall.behavior_sensor_keymap_binding_accept_data b e accepted ::
        post →
      (accepted < 0 → ∀ c ∈ post, c.layer < e.layer) ∧
        (0 ≤ accepted → ∃ mode layer_state response post1,
          post = SensorCall.behavior_sensor_keymap_binding_process b e mode layer_state
            response :: post1) := by
  induction h with
  | done flag =>
    intro pre post b e accepted h
    cases pre <;> simp at h
  | unresolved layer flag rest ret _ _ ih => exact ih
  | rejected layer flag rest ret accepted0 _ hneg hrest ih =>
    intro pre post b e accepted h
    rcases cons_eq_append_cons _ _ _ _ _ h with ⟨_, h1, h2⟩ | ⟨pre1, _, h2⟩
    · simp only [SensorCall.behavior_sensor_keymap_binding_accept_data.injEq] at h1
      obtain ⟨_, he, ha⟩ := h1
      subst h2
      refine ⟨fun _ c hc => ?_, fun hpos => absurd hneg (by omega)⟩
      rw [← he]
      exact (sensor_log_calls hrest c hc).1
    · exact ih pre1 post b e accepted h2
  | processed layer flag rest ret accepted0 layer_state response _ hpos0 _ hrest ih =>
    intro pre post b e accepted h
    rcases cons_eq_append_cons _ _ _ _ _ h with ⟨_, h1, h2⟩ | ⟨pre1, _, h2⟩
    · simp only [SensorCall.behavior_sensor_keymap_binding_accept_data.injEq] at h1
      obtain ⟨hb, he, ha⟩ := h1
      subst h2
      refine ⟨fun hneg => absurd hneg (by omega), fun _ => ?_⟩
      rw [← hb, ← he]
      exact ⟨_, _, _, _, rfl⟩
    · rcases cons_eq_append_cons _ _ _ _ _ h2 with ⟨_, h3, _⟩ | ⟨pre2, _, h4⟩
      · exact absurd h3 (by simp)
      · exact ih pre2 post b e accepted h4
  | failed layer flag accepted0 layer_state response _ hpos0 _ _ =>
    intro pre post b e accepted h
    rcases cons_eq_append_cons _ _ _ _ _ h with ⟨_, h1, h2⟩ | ⟨pre1, _, h2⟩
    · simp only [SensorCall.behavior_sensor_keymap_binding_accept_data.injEq] at h1
      obtain ⟨hb, he, ha⟩ := h1
      subst h2
      refine ⟨fun hneg => absurd hneg (by omega), fun _ => ?_⟩
      rw [← hb, ← he]
      exact ⟨_, _, _, _, rfl⟩
    · rcases cons_eq_append_cons _ _ _ _ _ h2 with ⟨_, h3, _⟩ | ⟨pre2, _, h4⟩
      · exact absurd h3 (by simp)
      · cases pre2 <;> simp at h4

theorem sensor_log_process {env : Env} {senv : SensorEnv} {sensor_index : Nat}
    {timestamp : Int} {n : Nat} {flag : Bool} {appended : List SensorCall} {ret : Int}
    (h : SensorLog env senv sensor_index timestamp n flag appended ret) :
    ∀ (pre post : List SensorCall) (b : zmk_behavior_binding) (e : zmk_behavior_binding_event)
      (mode : behavior_sensor_binding_process_mode) (layer_state : Nat) (response : Int),
      appended = pre ++ SensorCall.behavior_sensor_keymap_binding_process b e mode
        layer_state response :: post →
      mode = sensor_process_mode
          (flag || pre.any (SensorCall.is_opaque_response senv.ZMK_BEHAVIOR_OPAQUE))
          e.layer layer_state ∧
        (∃ pre1 accepted, pre = pre1 ++
          [SensorCall.behavior_sensor_keymap_binding_accept_data b e accepted] ∧
          0 ≤ accepted) ∧
        (response ≠ senv.ZMK_BEHAVIOR_OPAQUE → response < 0 → post = [] ∧ ret = response) := by
  induction h with
  | done flag =>
    intro pre post b e mode layer_state response h
    cases pre <;> simp at h
  | unresolved layer flag rest ret _ _ ih => exact ih
  | rejected layer flag rest ret accepted0 _ hneg hrest ih =>
    intro pre post b e mode layer_state response h
    rcases cons_eq_append_cons _ _ _ _ _ h with ⟨_, h1, _⟩ | ⟨pre1, hpre, h2⟩
    · exact absurd h1 (by simp)
    · obtain ⟨g1, ⟨pre2, acc, g2, g3⟩, g4⟩ := ih pre1 post b e mode layer_state response h2
      subst hpre
      refine ⟨?_, ⟨_ :: pre2, acc, by rw [g2]; rfl, g3⟩, g4⟩
      rw [g1]
      simp [List.any_cons, SensorCall.is_opaque_response]
  | processed layer flag rest ret accepted0 layer_state0 response0 _ hpos0 hresp hrest ih =>
    intro pre post b e mode layer_state response h
    rcases cons_eq_append_cons _ _ _ _ _ h with ⟨_, h1, _⟩ | ⟨pre1, hpre, h2⟩
    · exact absurd h1 (by simp)
    · rcases cons_eq_append_cons _ _ _ _ _ h2 with ⟨hnil, h3, h4⟩ | ⟨pre2, hpre2, h4⟩
      · simp only [SensorCall.behavior_sensor_keymap_binding_process.injEq] at h3
        obtain ⟨hb, he, hm, hl, hr⟩ := h3
        subst hpre hnil
        refine ⟨?_, ⟨[], accepted0, by rw [← hb, ← he]; rfl, hpos0⟩, ?_⟩
        · rw [← hm, ← he, ← hl]
          simp [List.any_cons, SensorCall.is_opaque_response]
        · intro hne hlt
          rw [← hr] at hne hlt
          rcases hresp with h5 | h5
          · exact absurd h5 hne
          · omega
      · obtain ⟨g1, ⟨pre3, acc, g2, g3⟩, g4⟩ := ih pre2 post b e mode layer_state response h4
        subst hpre hpre2
        refine ⟨?_, ⟨_ :: _ :: pre3, acc, by rw [g2]; rfl, g3⟩, g4⟩
        rw [g1]
        simp [List.any_cons, SensorCall.is_opaque_response, Bool.or_assoc]
  | failed layer flag accepted0 layer_state0 response0 _ hpos0 hne0 hlt0 =>
    intro pre post b e mode layer_state response h
    rcases cons_eq_append_cons _ _ _ _ _ h with ⟨_, h1, _⟩ | ⟨pre1, hpre, h2⟩
    · exact absurd h1 (by simp)
    · rcases cons_eq_append_cons _ _ _ _ _ h2 with ⟨hnil, h3, h4⟩ | ⟨pre2, hpre2, h4⟩
      · simp only [SensorCall.behavior_sensor_keymap_binding_process.injEq] at h3
        obtain ⟨hb, he, hm, hl, hr⟩ := h3
        subst hpre hnil
        refine ⟨?_, ⟨[], accepted0, by rw [← hb, ← he]; rfl, hpos0⟩, ?_⟩
        · rw [← hm, ← he, ← hl]
          simp [List.any_cons, SensorCall.is_opaque_response]
        · intro _ _
          exact ⟨h4.symm, hr⟩
      · cases pre2 <;> simp at h4

theorem sensor_log_complete {env : Env} {senv : SensorEnv} {sensor_index : Nat}
    {timestamp : Int} {n : Nat} {flag : Bool} {appended : List SensorCall} {ret : Int}
    (h : SensorLog env senv sensor_index timestamp n flag appended ret)
    (hok : ∀ c ∈ appended, c.is_error_response senv.ZMK_BEHAVIOR_OPAQUE = false) :
    ret = 0 ∧ ∀ layer < n,
      zmk_behavior_get_binding env
        (senv.zmk_sensor_keymap layer sensor_index).behavior_dev ≠ none →
      ∃ accepted, SensorCall.behavior_sensor_keymap_binding_accept_data
        (senv.zmk_sensor_keymap layer sensor_index)
        { layer := layer
          position := senv.ZMK_VIRTUAL_KEY_POSITION_SENSOR sensor_index
          timestamp := timestamp } accepted ∈ appended := by
  induction h with
  | done flag => exact ⟨rfl, fun layer hl => absurd hl (by omega)⟩
  | unresolved layer flag rest ret hb _ ih =>
    obtain ⟨h1, h2⟩ := ih hok
    refine ⟨h1, fun l hl hres => ?_⟩
    rcases Nat.lt_succ_iff_lt_or_eq.1 hl with h | h
    · exact h2 l h hres
    · subst h; exact absurd hb hres
  | rejected layer flag rest ret accepted _ _ _ ih =>
    obtain ⟨h1, h2⟩ := ih (fun c hc => hok c (List.mem_cons_of_mem _ hc))
    refine ⟨h1, fun l hl hres => ?_⟩
    rcases Nat.lt_succ_iff_lt_or_eq.1 hl with h | h
    · obtain ⟨a, ha⟩ := h2 l h hres
      exact ⟨a, List.mem_cons_of_mem _ ha⟩
    · subst h; exact ⟨accepted, List.mem_cons_self _ _⟩
  | processed layer flag rest ret accepted layer_state response _ _ _ _ ih =>
    obtain ⟨h1, h2⟩ := ih (fun c hc =>
      hok c (List.mem_cons_of_mem _ (List.mem_cons_of_mem _ hc)))
    refine ⟨h1, fun l hl hres => ?_⟩
    rcases Nat.lt_succ_iff_lt_or_eq.1 hl with h | h
    · obtain ⟨a, ha⟩ := h2 l h hres
      exact ⟨a, List.mem_cons_of_mem _ (List.mem_cons_of_mem _ ha)⟩
    · subst h; exact ⟨accepted, List.mem_cons_self _ _⟩
  | failed layer flag accepted layer_state response _ _ hne hlt =>
    exfalso
    have := hok _ (List.mem_cons_of_mem _ (List.mem_cons_self _ _))
    simp [SensorCall.is_error_response, hne, hlt] at this

theorem sensor_process_mode_trigger (flag : Bool) (layer layer_state : Nat) :
    sensor_process_mode flag layer layer_state =
        behavior_sensor_binding_process_mode.BEHAVIOR_SENSOR_BINDING_PROCESS_MODE_TRIGGER ↔
      flag = false ∧
        zmk_keymap_layer_active_with_state (to_uint8_t layer) layer_state = true := by
  unfold sensor_process_mode
  have hdef : decide (layer ≥ _zmk_keymap_layer_default) = true := by
    simp [_zmk_keymap_layer_default]
  rw [hdef]
  cases flag <;> cases zmk_keymap_layer_active_with_state (to_uint8_t layer) layer_state <;>
    simp

/-- Claim C31 is false as worded: with `A` bound to the sensor on layer 1 and
`B` on layer 0, both resolved, `accept_data` returning 0 and layer 0 active as
the default layer, a `process` of layer 1 that returns -5 ends the dispatch:
the call returns -5 and the recorded calls are `accept_data` and `process` of
layer 1 only, so `process` is not called for layer 0 in either mode although
no higher layer returned `opaque`. -/
theorem sensor_event_error_ends_dispatch :
    zmk_behavior_get_binding two_behavior_env
        ((two_layer_sensor_env (-5)).zmk_sensor_keymap 0 0).behavior_dev = some device_B ∧
      zmk_keymap_layer_active 0 layer_1_active_state = true ∧
      (zmk_keymap_sensor_event two_behavior_env (plain_config 2 4) (two_layer_sensor_env (-5))
        0 1 [5] 10 layer_1_active_state []).map (fun r => (r.1, r.2.2)) =
        some (-5,
          [SensorCall.behavior_sensor_keymap_binding_accept_data
              { behavior_dev := device_A.name, param1 := 0, param2 := 0 }
              { layer := 1, position := 4, timestamp := 10 } 0,
            SensorCall.behavior_sensor_keymap_binding_process
              { behavior_dev := device_A.name, param1 := 0, param2 := 0 }
              { layer := 1, position := 4, timestamp := 10 }
              behavior_sensor_binding_process_mode.BEHAVIOR_SENSOR_BINDING_PROCESS_MODE_TRIGGER
              2 (-5)]) := by
  decide

/-- Claim C31, amended: for a sensor index inside the table,
`zmk_keymap_sensor_event` returns, and the calls it records are these.  The
layers of the calls descend from `L - 1`, each layer with at most one
`accept_data` followed by at most one `process`, and only layers whose
behavior resolves have calls.  After an `accept_data` that fails only lower
layers follow, so `process` is not called for that layer; an `accept_data`
that succeeds is followed at once by the `process` of the same layer.  A
`process` is in trigger mode iff no earlier `process` of this event returned
`opaque` and the layer is active in the layer state at the time of the call,
and in discard mode otherwise.  A `process` that returns a negative value
other than `opaque` is the last call and its value is returned; without such a
response the function returns 0 and every layer whose behavior resolves has
its `accept_data` call. -/
theorem sensor_event_modes (env : Env) (cfg : Config) (senv : SensorEnv)
    (sensor_index channel_data_size : Nat) (channel_data : List Nat) (timestamp : Int)
    (s : KeymapState) (calls : List SensorCall)
    (hindex : to_uint8_t sensor_index < senv.ZMK_KEYMAP_SENSORS_LEN) :
    ∃ (ret : Int) (t : KeymapState) (appended : List SensorCall),
      zmk_keymap_sensor_event env cfg senv sensor_index channel_data_size channel_data
          timestamp s calls = some (ret, t, calls ++ appended) ∧
        appended.Pairwise (fun a b => b.layer < a.layer ∨
          (b.layer = a.layer ∧ a.is_process = false ∧ b.is_process = true)) ∧
        (∀ c ∈ appended, c.layer < cfg.ZMK_KEYMAP_LAYERS_LEN ∧
          zmk_behavior_get_binding env
            (senv.zmk_sensor_keymap c.layer (to_uint8_t sensor_index)).behavior_dev ≠ none ∧
          c.binding = senv.zmk_sensor_keymap c.layer (to_uint8_t sensor_index) ∧
          c.event =
            { layer := c.layer
              position := senv.ZMK_VIRTUAL_KEY_POSITION_SENSOR (to_uint8_t sensor_index)
              timestamp := timestamp }) ∧
        (∀ (pre post : List SensorCall) (b : zmk_behavior_binding)
            (e : zmk_behavior_binding_event) (accepted : Int),
          appended = pre ++
            SensorCall.behavior_sensor_keymap_binding_accept_data b e accepted :: post →
          (accepted < 0 → ∀ c ∈ post, c.layer < e.layer) ∧
            (0 ≤ accepted → ∃ mode layer_state response post1,
              post = SensorCall.behavior_sensor_keymap_binding_process b e mode layer_state
                response :: post1)) ∧
        (∀ (pre post : List SensorCall) (b : zmk_behavior_binding)
            (e : zmk_behavior_binding_event) (mode : behavior_sensor_binding_process_mode)
            (layer_state : Nat) (response : Int),
          appended = pre ++ SensorCall.behavior_sensor_keymap_binding_process b e mode
            layer_state response :: post →
          (mode =
              behavior_sensor_binding_process_mode.BEHAVIOR_SENSOR_BINDING_PROCESS_MODE_TRIGGER ↔
            (∀ a ∈ pre, a.is_opaque_response senv.ZMK_BEHAVIOR_OPAQUE = false) ∧
              zmk_keymap_layer_active_with_state (to_uint8_t e.layer) layer_state = true) ∧
            (mode =
              behavior_sensor_binding_process_mode.BEHAVIOR_SENSOR_BINDING_PROCESS_MODE_DISCARD ↔
            ¬ ((∀ a ∈ pre, a.is_opaque_response senv.ZMK_BEHAVIOR_OPAQUE = false) ∧
              zmk_keymap_layer_active_with_state (to_uint8_t e.layer) layer_state = true)) ∧
            (∃ pre1 accepted, pre = pre1 ++
              [SensorCall.behavior_sensor_keymap_binding_accept_data b e accepted] ∧
              0 ≤ accepted) ∧
            (response ≠ senv.ZMK_BEHAVIOR_OPAQUE → response < 0 →
              post = [] ∧ ret = response)) ∧
        ((∀ c ∈ appended, c.is_error_response senv.ZMK_BEHAVIOR_OPAQUE = false) →
          ret = 0 ∧ ∀ layer < cfg.ZMK_KEYMAP_LAYERS_LEN,
            zmk_behavior_get_binding env
              (senv.zmk_sensor_keymap layer (to_uint8_t sensor_index)).behavior_dev ≠ none →
            ∃ accepted, SensorCall.behavior_sensor_keymap_binding_accept_data
              (senv.zmk_sensor_keymap layer (to_uint8_t sensor_index))
              { layer := layer
                position := senv.ZMK_VIRTUAL_KEY_POSITION_SENSOR (to_uint8_t sensor_index)
                timestamp := timestamp } accepted ∈ appended) := by
  obtain ⟨appended, h1, hlog⟩ := sensor_event_loop_log env cfg senv (to_uint8_t sensor_index)
    channel_data_size channel_data timestamp cfg.ZMK_KEYMAP_LAYERS_LEN false s calls
  refine ⟨_, (zmk_keymap_sensor_event_loop env cfg senv (to_uint8_t sensor_index)
    channel_data_size channel_data timestamp cfg.ZMK_KEYMAP_LAYERS_LEN false s calls).2.1,
    appended, ?_, sensor_log_order hlog, sensor_log_calls hlog, sensor_log_accept hlog, ?_,
    sensor_log_complete hlog⟩
  · unfold zmk_keymap_sensor_event
    simp only
    rw [if_neg (by intro h; exact absurd h.1 (by omega)), ← h1]
  · intro pre post b e mode layer_state response happ
    obtain ⟨g1, g2, g3⟩ := sensor_log_process hlog pre post b e mode layer_state response happ
    have hiff : mode =
        behavior_sensor_binding_process_mode.BEHAVIOR_SENSOR_BINDING_PROCESS_MODE_TRIGGER ↔
        (∀ a ∈ pre, a.is_opaque_response senv.ZMK_BEHAVIOR_OPAQUE = false) ∧
          zmk_keymap_layer_active_with_state (to_uint8_t e.layer) layer_state = true := by
      rw [g1, sensor_process_mode_trigger, Bool.false_or, List.any_eq_false]
      constructor
      · intro h
        exact ⟨fun a ha => by simpa using h.1 a ha, h.2⟩
      · intro h
        exact ⟨fun a ha => by simpa using h.1 a ha, h.2⟩
    refine ⟨hiff, ?_, g2, g3⟩
    rw [← hiff]
    cases mode <;> simp

/-- Claim C31, amended, at a concrete event: with `A` on layer 1 and `B` on
layer 0, layer 1 active and a `process` of layer 1 that returns `opaque`, the
function returns 0, layer 1 is processed in trigger mode and layer 0 in
discard mode. -/
theorem sensor_event_modes_witness :
    (zmk_keymap_sensor_event two_behavior_env (plain_config 2 4) (two_layer_sensor_env 0)
        0 1 [5] 10 layer_1_active_state []).map (fun r => (r.1, r.2.2)) =
        some (0,
          [SensorCall.behavior_sensor_keymap_binding_accept_data
              { behavior_dev := device_A.name, param1 := 0, param2 := 0 }
              { layer := 1, position := 4, timestamp := 10 } 0,
            SensorCall.behavior_sensor_keymap_binding_process
              { behavior_dev := device_A.name, param1 := 0, param2 := 0 }
              { layer := 1, position := 4, timestamp := 10 }
              behavior_sensor_binding_process_mode.BEHAVIOR_SENSOR_BINDING_PROCESS_MODE_TRIGGER
              2 0,
            SensorCall.behavior_sensor_keymap_binding_accept_data
              { behavior_dev := device_B.name, param1 := 0, param2 := 0 }
              { layer := 0, position := 4, timestamp := 10 } 0,
            SensorCall.behavior_sensor_keymap_binding_process
              { behavior_dev := device_B.name, param1 := 0, param2 := 0 }
              { layer := 0, position := 4, timestamp := 10 }
              behavior_sensor_binding_process_mode.BEHAVIOR_SENSOR_BINDING_PROCESS_MODE_DISCARD
              2 1]) ∧
      ∃ (ret : Int) (t : KeymapState) (appended : List SensorCall),
        zmk_keymap_sensor_event two_behavior_env (plain_config 2 4) (two_layer_sensor_env 0)
            0 1 [5] 10 layer_1_active_state [] = some (ret, t, [] ++ appended) ∧
          appended.Pairwise (fun a b => b.layer < a.layer ∨
            (b.layer = a.layer ∧ a.is_process = false ∧ b.is_process = true)) :=
  ⟨by decide,
    (sensor_event_modes two_behavior_env (plain_config 2 4) (two_layer_sensor_env 0)
      0 1 [5] 10 layer_1_active_state [] (by decide)).imp
      (fun _ h => h.imp (fun _ h => h.imp (fun _ h => ⟨h.1, h.2.1⟩)))⟩

end Zmk
